import Mathlib

/-!
# Verification of the FireRed memory-snapshot / UI-classifier bridge

Shallow embedding of the Python sources under `src/firered_bridge/` :

* `util/bytes.py`      : tolerant little-endian byte-field readers
* `text/encoding.py`   : GBA text codec (`decode_gba_string`)
* `memory/reader.py`   : `LiveMemoryReader` and `SnapshotMemoryReader`
* `ui/menus.py`        : task matching helpers and menu selection math
* `ui/battle.py`       : battle UI reconstruction
* `text/text_printer.py` and `ui/dialog.py` : the dialog/UI state classifier

Python `bytes` values are modelled as `List Nat` (each entry `< 256` where it
matters), Python `int` as `Int` or `Nat` as appropriate, `None` as `Option`,
and exceptions as `Option` results.  Code that issues remote (live) memory
reads is parameterised by an oracle `Env` describing the observed process
memory and the external collaborators (reference name tables, script context)
that the specification explicitly excludes from the core.
-/

set_option autoImplicit false
set_option maxRecDepth 100000

namespace FireRed

/-! ## util/bytes.py -/

/-- `_u8_from(raw, offset)` from `util/bytes.py`: total byte read, `0` out of range. -/
def u8_from (raw : List Nat) (offset : Int) : Nat :=
  if offset < 0 ∨ offset ≥ (raw.length : Int) then 0
  else raw.getD offset.toNat 0

/-- `_u16le_from(raw, offset)` from `util/bytes.py`. -/
def u16le_from (raw : List Nat) (offset : Int) : Nat :=
  if offset < 0 ∨ offset + 1 ≥ (raw.length : Int) then 0
  else raw.getD offset.toNat 0 + (raw.getD (offset.toNat + 1) 0) * 256

/-- `_u32le_from(raw, offset)` from `util/bytes.py`. -/
def u32le_from (raw : List Nat) (offset : Int) : Nat :=
  if offset < 0 ∨ offset + 3 ≥ (raw.length : Int) then 0
  else
    raw.getD offset.toNat 0 + (raw.getD (offset.toNat + 1) 0) * 256 +
      (raw.getD (offset.toNat + 2) 0) * 65536 + (raw.getD (offset.toNat + 3) 0) * 16777216

/-- `_s8_from_u8` from `util/bytes.py` (also redefined in `ui/menus.py`). -/
def s8_from_u8 (val : Nat) : Int :=
  if val > 127 then (val : Int) - 256 else (val : Int)

/-- `_s16_from_u16` from `util/bytes.py` (also redefined in `ui/menus.py`). -/
def s16_from_u16 (val : Nat) : Int :=
  if val > 32767 then (val : Int) - 65536 else (val : Int)

/-! ## text/encoding.py -/

/-- `TEXT_TERMINATOR` from `text/encoding.py`. -/
def TEXT_TERMINATOR : Nat := 0xFF

/-- `PROMPT_CHARS` from `text/encoding.py` (`CHAR_PROMPT_SCROLL`, `CHAR_PROMPT_CLEAR`). -/
def PROMPT_CHARS : List Nat := [0xFA, 0xFB]

/-- `GBA_CHARMAP` from `text/encoding.py`: the 8-bit character table.
Unmapped byte values yield `none`. -/
def GBA_CHARMAP (b : Nat) : Option Char :=
  match b with
  | 0x00 => some ' '
  | 0xAB => some '!'
  | 0xAC => some '?'
  | 0xAD => some '.'
  | 0xAE => some '-'
  | 0xAF => some '·'
  | 0xB0 => some '…'
  | 0xB1 => some '"'
  | 0xB2 => some '"'
  | 0xB3 => some '\''
  | 0xB4 => some '\''
  | 0xB5 => some '♂'
  | 0xB6 => some '♀'
  | 0xB8 => some ','
  | 0xB9 => some '×'
  | 0xBA => some '/'
  | 0xA1 => some '0'
  | 0xA2 => some '1'
  | 0xA3 => some '2'
  | 0xA4 => some '3'
  | 0xA5 => some '4'
  | 0xA6 => some '5'
  | 0xA7 => some '6'
  | 0xA8 => some '7'
  | 0xA9 => some '8'
  | 0xAA => some '9'
  | 0xBB => some 'A'
  | 0xBC => some 'B'
  | 0xBD => some 'C'
  | 0xBE => some 'D'
  | 0xBF => some 'E'
  | 0xC0 => some 'F'
  | 0xC1 => some 'G'
  | 0xC2 => some 'H'
  | 0xC3 => some 'I'
  | 0xC4 => some 'J'
  | 0xC5 => some 'K'
  | 0xC6 => some 'L'
  | 0xC7 => some 'M'
  | 0xC8 => some 'N'
  | 0xC9 => some 'O'
  | 0xCA => some 'P'
  | 0xCB => some 'Q'
  | 0xCC => some 'R'
  | 0xCD => some 'S'
  | 0xCE => some 'T'
  | 0xCF => some 'U'
  | 0xD0 => some 'V'
  | 0xD1 => some 'W'
  | 0xD2 => some 'X'
  | 0xD3 => some 'Y'
  | 0xD4 => some 'Z'
  | 0xD5 => some 'a'
  | 0xD6 => some 'b'
  | 0xD7 => some 'c'
  | 0xD8 => some 'd'
  | 0xD9 => some 'e'
  | 0xDA => some 'f'
  | 0xDB => some 'g'
  | 0xDC => some 'h'
  | 0xDD => some 'i'
  | 0xDE => some 'j'
  | 0xDF => some 'k'
  | 0xE0 => some 'l'
  | 0xE1 => some 'm'
  | 0xE2 => some 'n'
  | 0xE3 => some 'o'
  | 0xE4 => some 'p'
  | 0xE5 => some 'q'
  | 0xE6 => some 'r'
  | 0xE7 => some 's'
  | 0xE8 => some 't'
  | 0xE9 => some 'u'
  | 0xEA => some 'v'
  | 0xEB => some 'w'
  | 0xEC => some 'x'
  | 0xED => some 'y'
  | 0xEE => some 'z'
  | 0xEF => some '►'
  | 0xF0 => some ':'
  | 0x1B => some 'é'
  | 0xFE => some '\n'
  | _ => none

/-- The decode loop of `decode_gba_string` (before the final `.strip()`).
The second argument is the remaining `max_len` budget (the Python loop index
`i` compared against `max_len`; a control code consumes two budget units). -/
def decodeCore : List Nat → Nat → Bool → List Char
  | [], _, _ => []
  | _ :: _, 0, _ => []
  | b :: rest, n + 1, stop =>
    if b = TEXT_TERMINATOR then []
    else if stop ∧ b ∈ PROMPT_CHARS then []
    else if b = 0xFC ∨ b = 0xFD then decodeCore (rest.drop 1) (n - 1) stop
    else
      match GBA_CHARMAP b with
      | some c => c :: decodeCore rest n stop
      | none => decodeCore rest n stop
termination_by raw _ _ => raw.length
decreasing_by
  all_goals simp [List.length_drop]
  all_goals omega

/-- The whitespace set stripped by Python `str.strip()` restricted to ASCII
(the characters the codec can produce are at most `' '` and `'\n'`). -/
def isPyWs (c : Char) : Bool :=
  c = ' ' ∨ c = '\t' ∨ c = '\n' ∨ c = '\r' ∨ c = Char.ofNat 11 ∨ c = Char.ofNat 12

/-- Python `str.strip()` on a character list. -/
def pyStrip (s : List Char) : List Char :=
  ((s.dropWhile isPyWs).reverse.dropWhile isPyWs).reverse

/-- `decode_gba_string(raw_bytes, max_len, stop_at_prompt)` from `text/encoding.py`. -/
def decode_gba_string (raw : List Nat) (maxLen : Nat := 500) (stopAtPrompt : Bool := false) :
    String :=
  ⟨pyStrip (decodeCore raw maxLen stopAtPrompt)⟩

/-! ## memory/reader.py -/

/-- `SnapshotSegment` from `memory/reader.py`; `endAddr` is the `end` property. -/
structure SnapshotSegment where
  start : Nat
  data : List Nat
deriving Repr, DecidableEq

/-- The `end` property of `SnapshotSegment` (`end` is reserved in Lean). -/
def SnapshotSegment.endAddr (s : SnapshotSegment) : Nat := s.start + s.data.length

/-- One step of `bisect.bisect_right` (CPython `bisect`): binary search for the
insertion point to the right of existing entries equal to `x`. -/
def bisectRightAux (a : List Nat) (x : Nat) : Nat → Nat → Nat
  | lo, hi =>
    if _h : lo < hi then
      let mid := (lo + hi) / 2
      if x < a.getD mid 0 then bisectRightAux a x lo mid
      else bisectRightAux a x (mid + 1) hi
    else lo
termination_by lo hi => hi - lo
decreasing_by
  all_goals omega

/-- `bisect.bisect_right(a, x)` as used by `SnapshotMemoryReader._segment_for`. -/
def bisect_right (a : List Nat) (x : Nat) : Nat := bisectRightAux a x 0 a.length

/-- `SnapshotMemoryReader` from `memory/reader.py`: `segments` plus the
precomputed `_starts` index (field `starts` here). -/
structure SnapshotMemoryReader where
  segments : List SnapshotSegment
  starts : List Nat
deriving Repr

/-- `SnapshotMemoryReader.from_ranges`: zip ranges with captured chunks, drop
zero-address entries and entries whose chunk is not a bytes value (`none`
models a non-bytes chunk), sort by segment start (Python `list.sort` —
stable, modelled by insertion sort), and record the start index. -/
def SnapshotMemoryReader.from_ranges (ranges : List (Nat × Nat))
    (chunks : List (Option (List Nat))) : SnapshotMemoryReader :=
  let segs : List SnapshotSegment :=
    (ranges.zip chunks).filterMap fun rc =>
      match rc.2 with
      | some chunk => if rc.1.1 ≠ 0 then some ⟨rc.1.1, chunk⟩ else none
      | none => none
  let sorted := segs.insertionSort fun s t => s.start ≤ t.start
  ⟨sorted, sorted.map SnapshotSegment.start⟩

/-- `SnapshotMemoryReader._segment_for(addr, size)`: `none` models the
`KeyError` raises (empty read / address not in snapshot / read spanning
missing bytes).  On success returns the owning segment and the offset. -/
def SnapshotMemoryReader.segment_for (r : SnapshotMemoryReader) (addr : Nat) (size : Int) :
    Option (SnapshotSegment × Nat) :=
  if size ≤ 0 then none
  else
    let i : Int := (bisect_right r.starts addr : Int) - 1
    if i < 0 ∨ i ≥ (r.segments.length : Int) then none
    else
      match r.segments.get? i.toNat with
      | none => none
      | some seg =>
        let off : Int := (addr : Int) - (seg.start : Int)
        let endA : Int := (addr : Int) + size
        if off < 0 ∨ endA > (seg.endAddr : Int) then none
        else some (seg, off.toNat)

/-- `SnapshotMemoryReader.u8`. -/
def SnapshotMemoryReader.u8 (r : SnapshotMemoryReader) (addr : Nat) : Option Nat :=
  (r.segment_for addr 1).map fun so => so.1.data.getD so.2 0

/-- `SnapshotMemoryReader.u16` (little endian). -/
def SnapshotMemoryReader.u16 (r : SnapshotMemoryReader) (addr : Nat) : Option Nat :=
  (r.segment_for addr 2).map fun so =>
    so.1.data.getD so.2 0 + (so.1.data.getD (so.2 + 1) 0) * 256

/-- `SnapshotMemoryReader.u32` (little endian). -/
def SnapshotMemoryReader.u32 (r : SnapshotMemoryReader) (addr : Nat) : Option Nat :=
  (r.segment_for addr 4).map fun so =>
    so.1.data.getD so.2 0 + (so.1.data.getD (so.2 + 1) 0) * 256 +
      (so.1.data.getD (so.2 + 2) 0) * 65536 + (so.1.data.getD (so.2 + 3) 0) * 16777216

/-- `SnapshotMemoryReader.read_bytes`. -/
def SnapshotMemoryReader.read_bytes (r : SnapshotMemoryReader) (addr : Nat) (size : Int) :
    Option (List Nat) :=
  (r.segment_for addr size).map fun so => (so.1.data.drop so.2).take size.toNat

/-- `LiveMemoryReader` from `memory/reader.py`: a reader backed by callables.
`read_range_bytes` may raise (modelled by `none`), in which case
`read_bytes` falls back to per-byte reads. -/
structure LiveMemoryReader where
  read8 : Nat → Nat
  read16 : Nat → Nat
  read32 : Nat → Nat
  read_range_bytes : Nat → Int → Option (List Nat)

/-- `LiveMemoryReader.u8` (the source masks with `& 0xFF`, i.e. `% 256`). -/
def LiveMemoryReader.u8 (L : LiveMemoryReader) (addr : Nat) : Nat := L.read8 addr % 256

/-- `LiveMemoryReader.u16` (masked with `& 0xFFFF`). -/
def LiveMemoryReader.u16 (L : LiveMemoryReader) (addr : Nat) : Nat := L.read16 addr % 65536

/-- `LiveMemoryReader.u32` (masked with `& 0xFFFFFFFF`). -/
def LiveMemoryReader.u32 (L : LiveMemoryReader) (addr : Nat) : Nat :=
  L.read32 addr % 4294967296

/-- `LiveMemoryReader.read_bytes`: empty for non-positive sizes, otherwise the
range callable with a per-byte fallback when that callable raises. -/
def LiveMemoryReader.read_bytes (L : LiveMemoryReader) (addr : Nat) (size : Int) : List Nat :=
  if size ≤ 0 then []
  else
    match L.read_range_bytes addr size with
    | some bs => bs
    | none => (List.range size.toNat).map fun i => L.u8 (addr + i)

/-- A live reader whose four callables are all backed by one byte oracle
`mem : Nat → Nat` (16/32-bit callables read little endian, as the mGBA
read functions the source plugs in do). -/
def mkLiveReader (mem : Nat → Nat) : LiveMemoryReader where
  read8 := fun a => mem a
  read16 := fun a => mem a + 256 * mem (a + 1)
  read32 := fun a =>
    mem a + 256 * mem (a + 1) + 65536 * mem (a + 2) + 16777216 * mem (a + 3)
  read_range_bytes := fun a n => some ((List.range n.toNat).map fun i => mem (a + i))

/-- A snapshot segment agrees with the byte oracle `mem` and holds bytes. -/
def SnapshotSegment.BackedBy (s : SnapshotSegment) (mem : Nat → Nat) : Prop :=
  (∀ i < s.data.length, s.data.getD i 0 = mem (s.start + i)) ∧ ∀ b ∈ s.data, b < 256

/-- Segments sorted by start address with no overlap between consecutive ones
(the data-model invariant of `MemorySnapshot`). -/
def SegmentsDisjointSorted : List SnapshotSegment → Prop :=
  List.Pairwise fun s t => s.endAddr ≤ t.start

/-- The requested range `[addr, addr+size)` lies inside segment `s`. -/
def SnapshotSegment.Contains (s : SnapshotSegment) (addr : Nat) (size : Int) : Prop :=
  (s.start : Int) ≤ (addr : Int) ∧ (addr : Int) + size ≤ (s.endAddr : Int)

/-! ## Task matching helpers (`ui/menus.py`, `ui/battle.py`) -/

/-- `x & 0xFFFFFFFE`: drop the Thumb tag bit (and bits above 31). -/
def maskPtr (x : Nat) : Nat := 2 * (x % 4294967296 / 2)

/-! ## A model of Python values

The classifier traffics in heterogeneous Python dicts (detector results and
the final classification record).  `PyVal` models the Python values that
occur there; a dict is an insertion-ordered association list. -/

inductive PyVal where
  | none
  | vBool (b : Bool)
  | vInt (n : Int)
  | vStr (s : String)
  | vList (xs : List PyVal)
  | vDict (entries : List (String × PyVal))
deriving Inhabited

/-- A Python dict (insertion ordered). -/
abbrev PyDict := List (String × PyVal)

/-- `d.get(k)` — `None` when the key is absent. -/
def PyDict.get (d : PyDict) (k : String) : PyVal :=
  match d.find? fun kv => kv.1 == k with
  | Option.some kv => kv.2
  | Option.none => PyVal.none

/-- `d[k] = v` — update in place when present, append otherwise. -/
def PyDict.set (d : PyDict) (k : String) (v : PyVal) : PyDict :=
  if d.any fun kv => kv.1 == k then d.map fun kv => if kv.1 == k then (k, v) else kv
  else d ++ [(k, v)]

/-- Python truthiness of the modelled values. -/
def PyVal.truthy : PyVal → Bool
  | .none => false
  | .vBool b => b
  | .vInt n => n ≠ 0
  | .vStr s => s ≠ ""
  | .vList xs => ¬ xs.isEmpty
  | .vDict d => ¬ d.isEmpty

/-- `int(v)` for the values `int(...)` is applied to in the classifier. -/
def PyVal.toInt : PyVal → Int
  | .vInt n => n
  | .vBool b => if b then 1 else 0
  | _ => 0

/-- `int(v or 0)`. -/
def PyVal.intOr0 (v : PyVal) : Int := if v.truthy then v.toInt else 0

/-- `isinstance(v, str)` refinement. -/
def PyVal.asStr : PyVal → Option String
  | .vStr s => Option.some s
  | _ => Option.none

/-- `isinstance(v, list)` refinement. -/
def PyVal.asList : PyVal → Option (List PyVal)
  | .vList xs => Option.some xs
  | _ => Option.none

/-- `isinstance(v, dict)` refinement. -/
def PyVal.asDict : PyVal → Option PyDict
  | .vDict d => Option.some d
  | _ => Option.none

/-- `isinstance(v, int)` refinement. -/
def PyVal.asInt : PyVal → Option Int
  | .vInt n => Option.some n
  | _ => Option.none

/-- `str(v or "")` for string-or-None values. -/
def PyVal.strOrEmpty : PyVal → String
  | .vStr s => s
  | _ => ""

/-! ## The address catalogue

Modelled from the spec: the repository's `constants/addresses` module (the
named constant table of addresses, offsets and sizes that every detector
imports) is not present under `src/`; only its uses are.  Per the spec it is
"one explicit, named constant table (address/offset/size catalogue)".  We
model it as a structure of natural-number constants; the properties the
classifier needs of it (distinctness of the detector-distinguishing callback
addresses, non-null task addresses) are collected in `Addrs.Wf` below. -/

structure Addrs where
  NUM_TASKS : Nat
  TASK_SIZE : Nat
  TASK_ISACTIVE_OFFSET : Nat
  TASK_FUNC_OFFSET : Nat
  TASK_DATA_OFFSET : Nat
  TEXTPRINTER_SIZE : Nat
  TEXTPRINTER_ACTIVE_OFFSET : Nat
  TEXTPRINTER_CURRENTCHAR_OFFSET : Nat
  WINDOW_NONE : Nat
  WINDOW_SIZE : Nat
  SMENU_CURSORPOS_OFFSET : Nat
  SMENU_WINDOWID_OFFSET : Nat
  SMENU_MINCURSORPOS_OFFSET : Nat
  SMENU_MAXCURSORPOS_OFFSET : Nat
  QUEST_LOG_WINDOW_COUNT : Nat
  QL_STATE_PLAYBACK : Nat
  QL_STATE_PLAYBACK_LAST : Nat
  BATTLE_MAX_BATTLERS : Nat
  BATTLE_POKEMON_SIZE : Nat
  GBATTLEMONS_SIZE : Nat
  BATTLE_TYPE_SAFARI : Nat
  DISPLAY_HEIGHT : Nat
  GDISPLAYEDSTRINGBATTLE_SIZE : Nat
  GSTRINGVAR1_SIZE : Nat
  GSTRINGVAR2_SIZE : Nat
  GSTRINGVAR3_SIZE : Nat
  GSTRINGVAR4_SIZE : Nat
  GBATTLETEXTBUFF_SIZE : Nat
  MULTI_PC : Nat
  GTASKS_ADDR : Nat
  STEXTPRINTERS_ADDR : Nat
  GSTRINGVAR1_ADDR : Nat
  GSTRINGVAR2_ADDR : Nat
  GSTRINGVAR3_ADDR : Nat
  GSTRINGVAR4_ADDR : Nat
  GDISPLAYEDSTRINGBATTLE_ADDR : Nat
  GBATTLETEXTBUFF1_ADDR : Nat
  GBATTLETEXTBUFF2_ADDR : Nat
  GBATTLETEXTBUFF3_ADDR : Nat
  SSAVE_INFO_WINDOWID_ADDR : Nat
  SYESNO_WINDOWID_ADDR : Nat
  GWINDOWS_ADDR : Nat
  SMENU_ADDR : Nat
  START_MENU_WINDOW_ID_ADDR : Nat
  START_MENU_NUM_ACTIONS_ADDR : Nat
  START_MENU_CURSOR_POS_ADDR : Nat
  START_MENU_ACTIONS_ADDR : Nat
  GQUEST_LOG_STATE_ADDR : Nat
  GQUEST_LOG_PLAYBACK_STATE_ADDR : Nat
  SQUEST_LOG_WINDOW_IDS_ADDR : Nat
  CB2_OVERWORLD_ADDR : Nat
  CB2_INIT_TITLE_SCREEN_ADDR : Nat
  CB2_TITLE_SCREEN_ADDR : Nat
  TASK_TITLE_SCREEN_PHASE1_ADDR : Nat
  TASK_TITLE_SCREEN_PHASE2_ADDR : Nat
  TASK_TITLE_SCREEN_PHASE3_ADDR : Nat
  CB2_LOAD_NAMING_SCREEN_ADDR : Nat
  CB2_NAMING_SCREEN_ADDR : Nat
  SNAMING_SCREEN_PTR_ADDR : Nat
  CONTROLS_GUIDE_TASK_FUNCS : List Nat
  PIKACHU_INTRO_TASK_FUNCS : List Nat
  CB2_FLY_MAP_ADDR : Nat
  CB2_OPEN_FLY_MAP_ADDR : Nat
  CB2_POKEDEX_ADDR : Nat
  CB2_OPEN_POKEDEX_ADDR : Nat
  CB2_POKE_STORAGE_ADDR : Nat
  CB2_RETURN_TO_POKE_STORAGE_ADDR : Nat
  TASK_BERRY_CRUSH_SHOW_RANKINGS_ADDR : Nat
  TASK_POKEMON_STORAGE_PC_MAIN_MENU_ADDR : Nat
  TASK_PLAYER_PC_PROCESS_MENU_INPUT_ADDRS : List Nat
  TASK_PLAYER_PC_PROCESS_MENU_INPUT_ADDR : Nat
  TASK_PLAYER_PC_DRAW_TOP_MENU_ADDR : Nat
  SITEM_STORAGE_MENU_PTR_ADDR : Nat
  ITEM_PC_TASK_FUNCS : List Nat
  ITEM_PC_SUBMENU_TASK_FUNCS : List Nat
  ITEM_STORAGE_MENU_PROCESS_INPUT_ADDR : Nat
  TASK_SHOW_START_MENU_ADDR : Nat
  START_MENU_TASK_ADDR : Nat
  CB2_TM_CASE_IDLE_ADDR : Nat
  CB2_TM_CASE_SETUP_ADDR : Nat
  CB2_BAG_MENU_RUN_ADDR : Nat
  CB2_BAG_ADDR : Nat
  GBAGMENU_PTR_ADDR : Nat
  GBAGPOSITION_ADDR : Nat
  BAGPOSITION_POCKET_OFFSET : Nat
  CB2_TRAINER_CARD_ADDR : Nat
  GSAVEBLOCK2_PTR_ADDR : Nat
  CB2_INIT_OPTION_MENU_ADDR : Nat
  CB2_OPTION_MENU_ADDR : Nat
  TASK_OPTION_MENU_FADEIN_ADDR : Nat
  TASK_OPTION_MENU_PROCESSINPUT_ADDR : Nat
  TASK_OPTION_MENU_SAVE_ADDR : Nat
  TASK_OPTION_MENU_FADEOUT_ADDR : Nat
  CB2_MAIN_MENU_ADDR : Nat
  CB2_INIT_MAIN_MENU_ADDR : Nat
  CB2_REINIT_MAIN_MENU_ADDR : Nat
  TASK_DISPLAY_MAIN_MENU_ADDR : Nat
  TASK_HIGHLIGHT_SELECTED_MAIN_MENU_ITEM_ADDR : Nat
  TASK_HANDLE_MAIN_MENU_INPUT_ADDR : Nat
  CB2_INIT_PARTY_MENU_ADDR : Nat
  CB2_UPDATE_PARTY_MENU_ADDR : Nat
  CB2_BUY_MENU_ADDR : Nat
  TASK_BUY_HOW_MANY_DIALOGUE_HANDLE_INPUT_ADDR : Nat
  TASK_BUY_HOW_MANY_DIALOGUE_INIT_ADDR : Nat
  TASK_RETURN_TO_ITEM_LIST_AFTER_ITEM_PURCHASE_ADDR : Nat
  TASK_BUY_MENU_ADDR : Nat
  SSHOPDATA_PTR_ADDR : Nat
  CB2_INIT_SUMMARY_SCREEN_ADDR : Nat
  CB2_SUMMARY_SCREEN_ADDR : Nat
  SMON_SUMMARY_SCREEN_PTR_ADDR : Nat
  SCRIPT_LIST_MENU_TASK_FUNCS : List Nat
  TASK_HANDLE_MULTICHOICE_INPUT_ADDR : Nat
  GSPECIALVAR_0X8004_ADDR : Nat
  GSPECIALVAR_0X8005_ADDR : Nat
  SFLOOR_NAME_POINTERS_ADDR : Nat
  SFLOOR_NAME_POINTERS_SIZE : Nat
  TEXT_WANT_WHICH_FLOOR_ADDR : Nat
  GTEXT_NOW_ON_ADDR : Nat
  TASK_RUSH_INJURED_POKEMON_TO_CENTER_ADDR : Nat
  GTEXT_PLAYER_SCURRIED_TO_CENTER_ADDR : Nat
  GTEXT_PLAYER_SCURRIED_BACK_HOME_ADDR : Nat
  TASK_SHOP_MENU_ADDR : Nat
  TASK_HANDLE_YES_NO_INPUT_ADDR : Nat
  TASK_CALL_YES_OR_NO_CALLBACK_ADDR : Nat
  TASK_NEW_GAME_BIRCH_SPEECH_CHOOSE_GENDER_ADDR : Nat
  TASK_NEW_GAME_BIRCH_SPEECH_SLIDE_OUT_OLD_GENDER_SPRITE_ADDR : Nat
  TASK_NEW_GAME_BIRCH_SPEECH_SLIDE_IN_NEW_GENDER_SPRITE_ADDR : Nat
  BIRCH_SPEECH_TASK_ADDRS_MASKED : List Nat
  GTEXT_WOULD_YOU_LIKE_TO_SAVE_THE_GAME_ADDR : Nat
  GTEXT_ALREADY_SAVE_FILE_WOULD_LIKE_TO_OVERWRITE_ADDR : Nat
  GTEXT_DIFFERENT_GAME_FILE_ADDR : Nat
  BATTLE_PLAYER_HANDLE_YES_NO_INPUT_ADDRS : List Nat
  BATTLE_HANDLE_INPUT_CHOOSE_TARGET_ADDRS : List Nat
  BATTLE_HANDLE_INPUT_CHOOSE_MOVE_ADDRS : List Nat
  BATTLE_HANDLE_INPUT_CHOOSE_ACTION_ADDRS : List Nat
  GBATTLESCRIPTCURRINSTR_ADDR : Nat
  GBATTLECOMMUNICATION_ADDR : Nat
  GBATTLETYPEFLAGS_ADDR : Nat
  GBATTLERSCOUNT_ADDR : Nat
  GABSENTBATTLERFLAGS_ADDR : Nat
  GBATTLERPOSITIONS_ADDR : Nat
  GBATTLEMONS_ADDR : Nat
  GACTIVEBATTLER_ADDR : Nat
  GBATTLERCONTROLLERFUNCS_ADDR : Nat
  GACTIONSELECTIONCURSOR_ADDR : Nat
  GMOVESELECTIONCURSOR_ADDR : Nat
  GMULTIUSEPLAYERCURSOR_ADDR : Nat
  GBATTLE_BG0_Y_ADDR : Nat
  BATTLER_BIT_SIDE : Nat
  BATTLER_BIT_FLANK : Nat
  SPOKE_STORAGE_PTR_ADDR : Nat
  POKEMON_DATA_SIZE : Nat

/-- `_LISTMENU_SILPHCO_FLOORS` from `ui/menus.py`. -/
def LISTMENU_SILPHCO_FLOORS : Int := 1

/-- `_ELEVATOR_MULTICHOICE_IDS` from `ui/menus.py`. -/
def ELEVATOR_MULTICHOICE_IDS : List Int := [20, 31, 42]

/-- `_SCRIPT_LIST_TASK_DATA_LIST_TASK_ID_INDEX` from `ui/menus.py`. -/
def SCRIPT_LIST_TASK_DATA_LIST_TASK_ID_INDEX : Nat := 14

/-- `TEXT_POINTER_REGIONS` from `text/text_printer.py`. -/
def TEXT_POINTER_REGIONS : List (Nat × Nat) :=
  [(0x02000000, 0x0203FFFF), (0x03000000, 0x03007FFF), (0x08000000, 0x09FFFFFF)]

/-- `TEXT_BUFFERS` from `text/text_printer.py`. -/
def TEXT_BUFFERS (A : Addrs) : List (Nat × Nat) :=
  [(A.GSTRINGVAR4_ADDR, A.GSTRINGVAR4_SIZE),
   (A.GSTRINGVAR1_ADDR, A.GSTRINGVAR1_SIZE),
   (A.GSTRINGVAR2_ADDR, A.GSTRINGVAR2_SIZE),
   (A.GSTRINGVAR3_ADDR, A.GSTRINGVAR3_SIZE),
   (A.GDISPLAYEDSTRINGBATTLE_ADDR, A.GDISPLAYEDSTRINGBATTLE_SIZE),
   (A.GBATTLETEXTBUFF1_ADDR, A.GBATTLETEXTBUFF_SIZE),
   (A.GBATTLETEXTBUFF2_ADDR, A.GBATTLETEXTBUFF_SIZE),
   (A.GBATTLETEXTBUFF3_ADDR, A.GBATTLETEXTBUFF_SIZE)]

/-- `TITLE_SCREEN_PRESS_START_VISIBLE_TEXT` from `ui/menus.py`. -/
def TITLE_SCREEN_PRESS_START_VISIBLE_TEXT : String :=
  "Pokémon FireRed Version\n PRESS START\n2004 Game Freak inc."

/-- The `_DialogBuffers` record captured by `get_dialog_state` in
`ui/dialog.py` (one field per snapshot range; `none` models a failed
capture of that range). -/
structure Buffers where
  field_locked : Bool
  in_battle : Bool
  callback2 : Nat
  tasks_raw : Option (List Nat) := Option.none
  text_printers_raw : Option (List Nat) := Option.none
  gstringvar4_raw : Option (List Nat) := Option.none
  start_menu_window_id : Option Nat := Option.none
  start_menu_num_actions : Option Nat := Option.none
  start_menu_cursor_pos : Option Nat := Option.none
  start_menu_actions_raw : Option (List Nat) := Option.none
  smenu_raw : Option (List Nat) := Option.none
  yesno_window_id : Option Nat := Option.none
  windows_raw : Option (List Nat) := Option.none
  save_info_window_id : Option Nat := Option.none
  quest_log_state_raw : Option (List Nat) := Option.none
  quest_log_playback_state_raw : Option (List Nat) := Option.none
  quest_log_window_ids_raw : Option (List Nat) := Option.none
  player_pc_item_page_info_raw : Option (List Nat) := Option.none
  item_storage_menu_ptr_raw : Option (List Nat) := Option.none
  item_pc_list_menu_state_raw : Option (List Nat) := Option.none
  poke_storage_ptr_raw : Option (List Nat) := Option.none
  poke_choose_box_menu_ptr_raw : Option (List Nat) := Option.none
  poke_in_party_menu_raw : Option (List Nat) := Option.none
  poke_current_box_option_raw : Option (List Nat) := Option.none
  poke_deposit_box_id_raw : Option (List Nat) := Option.none
  poke_cursor_area_raw : Option (List Nat) := Option.none
  poke_cursor_position_raw : Option (List Nat) := Option.none
  gdisplayedstringbattle_raw : Option (List Nat) := Option.none
  battle_script_curr_instr_raw : Option (List Nat) := Option.none
  battle_communication_raw : Option (List Nat) := Option.none
  battle_type_flags_raw : Option (List Nat) := Option.none
  battlers_count_raw : Option (List Nat) := Option.none
  absent_battlers_raw : Option (List Nat) := Option.none
  battler_positions_raw : Option (List Nat) := Option.none
  battle_mons_raw : Option (List Nat) := Option.none
  active_battler_raw : Option (List Nat) := Option.none
  battler_controller_funcs_raw : Option (List Nat) := Option.none
  action_selection_cursor_raw : Option (List Nat) := Option.none
  move_selection_cursor_raw : Option (List Nat) := Option.none
  multi_use_player_cursor_raw : Option (List Nat) := Option.none
  battle_bg0_y_raw : Option (List Nat) := Option.none
  party_menu_raw : Option (List Nat) := Option.none
  party_count_raw : Option (List Nat) := Option.none
  party_internal_ptr_raw : Option (List Nat) := Option.none
  party_raw : Option (List Nat) := Option.none

/-- The oracle for everything the classifier consults outside the captured
snapshot: live remote memory reads (`mgba.mgba_read*`), the script-context
helpers from the absent `player/snapshot.py` module, the save-info window
decoder (which issues its own remote reads), the static reference name
tables (external collaborators per the spec), and the post-gate bodies of
the detectors whose recognised-screen payloads no claim depends on.  The
gate (signal check) of every detector is embedded from the source; a body
oracle is consulted only after its detector's gate has fired. -/
structure Env where
  mem8 : Nat → Nat
  mem16 : Nat → Nat
  mem32 : Nat → Nat
  memRange : Nat → Nat → List Nat
  scriptWaitingAB : Bool
  saveInfoWindow : Option PyDict
  speciesName : Nat → Option String
  moveName : Nat → Option String
  itemName : Nat → Option String
  abilityName : Nat → Option String
  statusName : Nat → String
  namingBody : String → Nat → Option PyDict
  controlsBody : Nat → Option PyDict
  pikachuBody : Nat → Option PyDict
  questLogBody : Nat → Nat → List Nat → Option PyDict
  flyBody : Option PyDict
  pokedexBody : Option PyDict
  pokeStorageBody : Nat → Option PyDict
  berryBody : Nat → Nat → Nat → List Nat → Option PyDict
  pokeStoragePcMenuBody : Nat → Option PyDict
  playerPcMenuBody : Nat → Option PyDict
  itemStorageListBody : Nat → Nat → Option PyDict
  itemStorageMenuBody : Nat → Option PyDict
  startMenuBody : Nat → Option PyDict
  tmCaseBody : Option PyDict
  bagBody : Nat → Nat → Option PyDict
  trainerCardBody : Nat → Option PyDict
  optionMenuBody : Bool → Option PyDict
  titleMenuBody : Nat → Option PyDict
  partyMenuBody : Option PyDict
  shopBuyBody : Nat → Nat → String → Option PyDict
  summaryBody : Nat → List Nat → Option PyDict
  summarySelectMoveBody : Nat → List Nat → Option PyDict
  elevatorListBody : Nat → Nat → Option PyDict
  elevatorMultiBody : Nat → Int → Option PyDict
  shopChoiceBody : Nat → Option PyDict
  multichoiceBody : Nat → Int → Option PyDict
  genderBody : Int → Option PyDict

/-! ## Scheduler-task lookup (`ui/menus.py`) -/

/-- The captured-buffer loop shared by `_find_active_task_by_func` and
`_find_active_task_by_funcs`: walk the task slots from `i`, stop at a slot
that does not fit in the buffer (the `break`), skip inactive slots, and
return the first slot whose masked function pointer satisfies `p`. -/
def findTaskRawAux (A : Addrs) (raw : List Nat) (p : Nat → Bool) : Nat → Option Nat
  | i =>
    if _h : i < A.NUM_TASKS then
      let base := i * A.TASK_SIZE
      if base + A.TASK_SIZE > raw.length then Option.none
      else if u8_from raw (base + A.TASK_ISACTIVE_OFFSET) = 0 then
        findTaskRawAux A raw p (i + 1)
      else if p (maskPtr (u32le_from raw (base + A.TASK_FUNC_OFFSET))) then Option.some i
      else findTaskRawAux A raw p (i + 1)
    else Option.none
termination_by i => A.NUM_TASKS - i
decreasing_by
  all_goals omega

/-- The live-read loop of the task finders (no buffer, one remote read per
field). -/
def findTaskLive (A : Addrs) (env : Env) (p : Nat → Bool) : Option Nat :=
  (List.range A.NUM_TASKS).findSome? fun i =>
    let taskAddr := A.GTASKS_ADDR + i * A.TASK_SIZE
    if env.mem8 (taskAddr + A.TASK_ISACTIVE_OFFSET) = 0 then Option.none
    else if p (maskPtr (env.mem32 (taskAddr + A.TASK_FUNC_OFFSET))) then Option.some i
    else Option.none

/-- `_find_active_task_by_func(func_addr, tasks_raw)` from `ui/menus.py`. -/
def find_active_task_by_func (A : Addrs) (env : Env) (funcAddr : Nat)
    (tasksRaw : Option (List Nat)) : Option Nat :=
  if funcAddr = 0 then Option.none
  else
    let masked := maskPtr funcAddr
    match tasksRaw with
    | Option.some raw => findTaskRawAux A raw (fun x => x == masked) 0
    | Option.none => findTaskLive A env (fun x => x == masked)

/-- `_find_active_task_by_funcs(func_addrs, tasks_raw)` from `ui/menus.py`. -/
def find_active_task_by_funcs (A : Addrs) (env : Env) (funcAddrs : List Nat)
    (tasksRaw : Option (List Nat)) : Option Nat :=
  let maskedSet := (funcAddrs.filter fun a => a != 0).map maskPtr
  if maskedSet.isEmpty then Option.none
  else
    match tasksRaw with
    | Option.some raw => findTaskRawAux A raw (fun x => maskedSet.contains x) 0
    | Option.none => findTaskLive A env (fun x => maskedSet.contains x)

/-- `_read_task_data_u16(task_id, data_index, tasks_raw)` from `ui/menus.py`. -/
def read_task_data_u16 (A : Addrs) (env : Env) (taskId : Nat) (dataIndex : Nat)
    (tasksRaw : Option (List Nat)) : Nat :=
  match tasksRaw with
  | Option.some raw =>
    u16le_from raw (taskId * A.TASK_SIZE + A.TASK_DATA_OFFSET + dataIndex * 2)
  | Option.none =>
    env.mem16 (A.GTASKS_ADDR + taskId * A.TASK_SIZE + A.TASK_DATA_OFFSET + dataIndex * 2)

/-- `_read_menu_cursor_pos(smenu_raw)` from `ui/menus.py`. -/
def read_menu_cursor_pos (A : Addrs) (env : Env) (smenuRaw : Option (List Nat)) : Int :=
  match smenuRaw with
  | Option.some raw => s8_from_u8 (u8_from raw (A.SMENU_CURSORPOS_OFFSET : Int))
  | Option.none => s8_from_u8 (env.mem8 (A.SMENU_ADDR + A.SMENU_CURSORPOS_OFFSET))

/-- `_ptr_matches_any(ptr, candidates)` from `ui/battle.py`. -/
def ptr_matches_any (ptr : Nat) (cands : List Nat) : Bool :=
  if cands.isEmpty then false
  else cands.any fun c => maskPtr ptr == maskPtr c

/-- `_is_new_game_birch_speech_active(tasks_raw)` from `ui/menus.py` (the
masked task-address set comes from the symbol table, modelled as the
catalogue field `BIRCH_SPEECH_TASK_ADDRS_MASKED`). -/
def is_new_game_birch_speech_active (A : Addrs) (env : Env)
    (tasksRaw : Option (List Nat)) : Bool :=
  let taskAddrs := A.BIRCH_SPEECH_TASK_ADDRS_MASKED
  if taskAddrs.isEmpty then false
  else
    match tasksRaw with
    | Option.some raw =>
      if raw.length ≥ A.NUM_TASKS * A.TASK_SIZE then
        (findTaskRawAux A raw (fun x => taskAddrs.contains x) 0).isSome
      else
        (findTaskLive A env (fun x => taskAddrs.contains x)).isSome
    | Option.none => (findTaskLive A env (fun x => taskAddrs.contains x)).isSome

/-! ## Menu selection math (`ui/menus.py`)

`bag_selection` embeds lines 371–394 of `get_bag_menu_state` (scroll/row
clamps, total-entry computation, and the selected-index clamp); it returns
`(selectedIndex, selectedRow, scrollPos, totalEntries)`.  `tm_selection`
embeds lines 668–688 of `get_tm_case_state` and returns
`(selectedIndex, totalEntries)`. -/

def bag_selection (scrollPos selectedRow numItemStacks : Int) (hideCloseBag : Bool)
    (numShownItems : Int) : Int × Int × Int × Int :=
  let scroll := if scrollPos < 0 then 0 else scrollPos
  let row := if selectedRow < 0 then 0 else selectedRow
  let total0 := numItemStacks + (if hideCloseBag then 0 else 1)
  let total := if total0 < 0 then 0 else total0
  let sel0 := scroll + row
  let sr1 : Int × Int := if total ≤ 0 then (0, 0) else (sel0, row)
  let sr2 : Int × Int :=
    if total > 0 ∧ sr1.1 ≥ total then
      (total - 1, max 0 (min sr1.2 (max 0 (numShownItems - 1))))
    else sr1
  (sr2.1, sr2.2, scroll, total)

def tm_selection (scrollPos selectedRow numTms : Int) : Int × Int :=
  let total0 := numTms + 1
  let total := if total0 ≤ 0 then 1 else total0
  let scroll := if scrollPos < 0 then 0 else scrollPos
  let row := if selectedRow < 0 then 0 else selectedRow
  let sel0 := scroll + row
  let sel := if sel0 ≥ total then total - 1 else sel0
  (sel, total)

/-- The specification's selection formula:
`selectedIndex = clamp(scrollOffset + cursorRow, 0, totalEntries - 1)`. -/
def clampSpec (x lo hi : Int) : Int := max lo (min x hi)

/-! ## TextPrinter scanner (`text/text_printer.py`) -/

/-- A byte that ends a page (terminator or prompt). -/
def stopByte (b : Nat) : Bool := b == TEXT_TERMINATOR || PROMPT_CHARS.contains b

/-- `_get_text_buffer_for_ptr(ptr)`. -/
def get_text_buffer_for_ptr (A : Addrs) (ptr : Nat) : Option (Nat × Nat) :=
  (TEXT_BUFFERS A).find? fun bs => bs.1 ≤ ptr && ptr < bs.1 + bs.2

/-- `_get_region_bounds(ptr)`. -/
def get_region_bounds (ptr : Nat) : Option (Nat × Nat) :=
  TEXT_POINTER_REGIONS.find? fun se => se.1 ≤ ptr && ptr ≤ se.2

/-- `_extract_visible_text_from_raw(raw, offset, max_len)`: recover the page
that encloses `offset` by scanning back to the previous terminator/prompt
and forward to the next one, then decode it (stopping at prompts). -/
def extract_visible_text_from_raw (raw : List Nat) (offset0 : Int) (maxLen : Nat := 200) :
    String :=
  if raw.isEmpty then ""
  else
    let off1 : Int := if offset0 < 0 then 0 else offset0
    let offset : Nat := if off1 > (raw.length : Int) then raw.length else off1.toNat
    let searchEnd0 : Nat :=
      if offset > 0 ∧ PROMPT_CHARS.contains (raw.getD (offset - 1) 0) then offset - 1
      else if offset > 0 ∧ raw.getD (offset - 1) 0 = TEXT_TERMINATOR then offset - 1
      else offset
    let pageStart : Nat :=
      match (List.range searchEnd0).reverse.find? fun j => stopByte (raw.getD j 0) with
      | Option.some j => j + 1
      | Option.none => 0
    let pageEnd : Option Nat :=
      ((List.range raw.length).drop pageStart).find? fun j => stopByte (raw.getD j 0)
    let searchEnd : Nat :=
      match pageEnd with
      | Option.some pe => if searchEnd0 > pe then pe else searchEnd0
      | Option.none => searchEnd0
    if searchEnd < pageStart then ""
    else decode_gba_string ((raw.drop pageStart).take (searchEnd - pageStart)) maxLen true

/-- `_extract_visible_text_from_ptr(current_ptr)`: decode around a pointer,
from the owning named buffer when there is one, else from a ±512-byte
window clamped to the owning memory region. -/
def extract_visible_text_from_ptr (A : Addrs) (env : Env) (ptr : Nat) : String :=
  match get_text_buffer_for_ptr A ptr with
  | Option.some bs =>
    extract_visible_text_from_raw (env.memRange bs.1 bs.2) ((ptr : Int) - (bs.1 : Int))
  | Option.none =>
    match get_region_bounds ptr with
    | Option.none => ""
    | Option.some se =>
      let window : Nat := 512
      let base := max se.1 (ptr - window)
      let size := min (window * 2) (se.2 - base + 1)
      extract_visible_text_from_raw (env.memRange base size) ((ptr : Int) - (base : Int))

/-- The `_score(window_id, current_ptr)` helper of
`find_active_textprinter_text`. -/
def printerScore (A : Addrs) (windowId : Nat) (ptr : Nat) : Nat :=
  let base0 : Nat := if windowId = 0 then 100 else 0
  match get_text_buffer_for_ptr A ptr with
  | Option.some bs =>
    if bs.1 = A.GDISPLAYEDSTRINGBATTLE_ADDR then base0 + 90
    else if bs.1 = A.GSTRINGVAR4_ADDR then base0 + 80
    else if bs.1 = A.GSTRINGVAR1_ADDR ∨ bs.1 = A.GSTRINGVAR2_ADDR ∨ bs.1 = A.GSTRINGVAR3_ADDR then
      base0 + 70
    else if bs.1 = A.GBATTLETEXTBUFF1_ADDR ∨ bs.1 = A.GBATTLETEXTBUFF2_ADDR ∨
        bs.1 = A.GBATTLETEXTBUFF3_ADDR then base0 + 60
    else base0 + 50
  | Option.none =>
    match get_region_bounds ptr with
    | Option.none => base0
    | Option.some se => if se.1 = 0x08000000 then base0 + 20 else base0 + 40

/-- One candidate's decoding attempt inside `_decode_best` (known buffers
first, then the pointer-window fallback); accepted only when longer than
two characters. -/
def decodeCandidate (A : Addrs) (env : Env) (gsv4 gdisp : List Nat) (ptr : Nat) :
    Option String :=
  let try1 : Option String :=
    if A.GDISPLAYEDSTRINGBATTLE_ADDR ≤ ptr ∧
        ptr < A.GDISPLAYEDSTRINGBATTLE_ADDR + A.GDISPLAYEDSTRINGBATTLE_SIZE ∧
        ptr - A.GDISPLAYEDSTRINGBATTLE_ADDR < gdisp.length then
      let text := extract_visible_text_from_raw gdisp
        ((ptr : Int) - (A.GDISPLAYEDSTRINGBATTLE_ADDR : Int)) 200
      if text ≠ "" ∧ text.length > 2 then Option.some text else Option.none
    else Option.none
  match try1 with
  | Option.some t => Option.some t
  | Option.none =>
    let try2 : Option String :=
      if A.GSTRINGVAR4_ADDR ≤ ptr ∧ ptr < A.GSTRINGVAR4_ADDR + A.GSTRINGVAR4_SIZE ∧
          ptr - A.GSTRINGVAR4_ADDR < gsv4.length then
        let text := extract_visible_text_from_raw gsv4
          ((ptr : Int) - (A.GSTRINGVAR4_ADDR : Int)) 200
        if text ≠ "" ∧ text.length > 2 then Option.some text else Option.none
      else Option.none
    match try2 with
    | Option.some t => Option.some t
    | Option.none =>
      let text := extract_visible_text_from_ptr A env ptr
      if text ≠ "" ∧ text.length > 2 then Option.some text else Option.none

/-- `_decode_best(candidates)`: sort by score descending (stable, as Python
`list.sort`; window ids break ties by construction order) and return the
first candidate that decodes to more than two characters. -/
def decodeBest (A : Addrs) (env : Env) (gsv4 gdisp : List Nat)
    (candidates : List (Nat × Nat × Nat)) : Option String :=
  if candidates.isEmpty then Option.none
  else
    let sorted := candidates.insertionSort fun a b =>
      a.1 > b.1 ∨ (a.1 = b.1 ∧ a.2.1 ≤ b.2.1)
    sorted.findSome? fun c => decodeCandidate A env gsv4 gdisp c.2.2

/-- `find_active_textprinter_text` from `text/text_printer.py`: scan the 32
printer slots, score active slots, decode the best candidate, optionally
falling back to the inactive window-0 printer. -/
def find_active_textprinter_text (A : Addrs) (env : Env)
    (textPrintersRaw : Option (List Nat)) (gstringvar4Raw : Option (List Nat))
    (gdisplayedRaw : Option (List Nat)) (includeInactiveWindow0 : Bool := false) :
    Option String :=
  match textPrintersRaw with
  | Option.none =>
    let candidates : List (Nat × Nat × Nat) :=
      (List.range 32).filterMap fun i =>
        let printerAddr := A.STEXTPRINTERS_ADDR + i * A.TEXTPRINTER_SIZE
        if env.mem8 (printerAddr + A.TEXTPRINTER_ACTIVE_OFFSET) = 0 then Option.none
        else
          let ptr := env.mem32 (printerAddr + A.TEXTPRINTER_CURRENTCHAR_OFFSET)
          if ptr = 0 then Option.none
          else Option.some (printerScore A i ptr, i, ptr)
    let gsv4 := match gstringvar4Raw with
      | Option.some r => r
      | Option.none => env.memRange A.GSTRINGVAR4_ADDR 500
    let gdisp := match gdisplayedRaw with
      | Option.some r => r
      | Option.none => env.memRange A.GDISPLAYEDSTRINGBATTLE_ADDR A.GDISPLAYEDSTRINGBATTLE_SIZE
    match decodeBest A env gsv4 gdisp candidates with
    | Option.some t => Option.some t
    | Option.none =>
      if includeInactiveWindow0 then
        let ptr0 := env.mem32 (A.STEXTPRINTERS_ADDR + A.TEXTPRINTER_CURRENTCHAR_OFFSET)
        if ptr0 ≠ 0 then decodeBest A env gsv4 gdisp [(printerScore A 0 ptr0, 0, ptr0)]
        else Option.none
      else Option.none
  | Option.some praw =>
    let gsv4 := match gstringvar4Raw with
      | Option.some r => r
      | Option.none => env.memRange A.GSTRINGVAR4_ADDR 500
    let gdisp := match gdisplayedRaw with
      | Option.some r => r
      | Option.none => env.memRange A.GDISPLAYEDSTRINGBATTLE_ADDR A.GDISPLAYEDSTRINGBATTLE_SIZE
    let candidates : List (Nat × Nat × Nat) :=
      (List.range 32).filterMap fun (i : Nat) =>
        if u8_from praw (i * A.TEXTPRINTER_SIZE + A.TEXTPRINTER_ACTIVE_OFFSET) = 0 then
          Option.none
        else
          let ptr := u32le_from praw (i * A.TEXTPRINTER_SIZE + A.TEXTPRINTER_CURRENTCHAR_OFFSET)
          if ptr = 0 then Option.none
          else Option.some (printerScore A i ptr, i, ptr)
    match decodeBest A env gsv4 gdisp candidates with
    | Option.some t => Option.some t
    | Option.none =>
      if includeInactiveWindow0 then
        let ptr0 := u32le_from praw (A.TEXTPRINTER_CURRENTCHAR_OFFSET : Int)
        if ptr0 ≠ 0 then decodeBest A env gsv4 gdisp [(printerScore A 0 ptr0, 0, ptr0)]
        else Option.none
      else Option.none

/-- `get_textprinter_text_for_window(window_id, ...)` from
`text/text_printer.py`. -/
def get_textprinter_text_for_window (A : Addrs) (env : Env) (windowId : Int)
    (textPrintersRaw : Option (List Nat)) (gstringvar4Raw : Option (List Nat))
    (gdisplayedRaw : Option (List Nat)) (includeInactive : Bool := false) :
    Option String :=
  if windowId < 0 ∨ windowId ≥ 32 then Option.none
  else
    let wid := windowId.toNat
    let step : Option Nat :=
      match textPrintersRaw with
      | Option.none =>
        let printerAddr := A.STEXTPRINTERS_ADDR + wid * A.TEXTPRINTER_SIZE
        let active := env.mem8 (printerAddr + A.TEXTPRINTER_ACTIVE_OFFSET)
        if active = 0 ∧ ¬ includeInactive then Option.none
        else Option.some (env.mem32 (printerAddr + A.TEXTPRINTER_CURRENTCHAR_OFFSET))
      | Option.some praw =>
        let base := wid * A.TEXTPRINTER_SIZE
        let active := u8_from praw (base + A.TEXTPRINTER_ACTIVE_OFFSET)
        if active = 0 ∧ ¬ includeInactive then Option.none
        else Option.some (u32le_from praw (base + A.TEXTPRINTER_CURRENTCHAR_OFFSET))
    match step with
    | Option.none => Option.none
    | Option.some ptr =>
      if ptr = 0 then Option.none
      else
        let try1 : Option String :=
          if A.GDISPLAYEDSTRINGBATTLE_ADDR ≤ ptr ∧
              ptr < A.GDISPLAYEDSTRINGBATTLE_ADDR + A.GDISPLAYEDSTRINGBATTLE_SIZE then
            match gdisplayedRaw with
            | Option.some gdisp =>
              if ptr - A.GDISPLAYEDSTRINGBATTLE_ADDR < gdisp.length then
                let text := extract_visible_text_from_raw gdisp
                  ((ptr : Int) - (A.GDISPLAYEDSTRINGBATTLE_ADDR : Int)) 200
                if text ≠ "" then Option.some text else Option.none
              else Option.none
            | Option.none => Option.none
          else Option.none
        match try1 with
        | Option.some t => Option.some t
        | Option.none =>
          let try2 : Option String :=
            if A.GSTRINGVAR4_ADDR ≤ ptr ∧ ptr < A.GSTRINGVAR4_ADDR + A.GSTRINGVAR4_SIZE then
              let gsv4 := match gstringvar4Raw with
                | Option.some r => r
                | Option.none => env.memRange A.GSTRINGVAR4_ADDR 500
              if ptr - A.GSTRINGVAR4_ADDR < gsv4.length then
                let text := extract_visible_text_from_raw gsv4
                  ((ptr : Int) - (A.GSTRINGVAR4_ADDR : Int)) 200
                if text ≠ "" then Option.some text else Option.none
              else Option.none
            else Option.none
          match try2 with
          | Option.some t => Option.some t
          | Option.none =>
            let text := extract_visible_text_from_ptr A env ptr
            if text ≠ "" then Option.some text else Option.none

/-- The page-flush step of `get_full_dialog_text`. -/
def flushPage (cur : List Nat) (acc : List String) : List String :=
  if cur.isEmpty then acc
  else
    let t := decode_gba_string cur 200 false
    if t ≠ "" then acc ++ [t] else acc

/-- The page-splitting loop of `get_full_dialog_text`. -/
def fullDialogPagesAux : List Nat → List Nat → List String → List String
  | [], cur, acc => flushPage cur acc
  | b :: rest, cur, acc =>
    if b = TEXT_TERMINATOR then flushPage cur acc
    else if PROMPT_CHARS.contains b then fullDialogPagesAux rest [] (flushPage cur acc)
    else fullDialogPagesAux rest (cur ++ [b]) acc

/-- `get_full_dialog_text(raw)` from `text/text_printer.py`: split the
dialog buffer into decoded pages (empty pages discarded). -/
def get_full_dialog_text (A : Addrs) (env : Env) (raw0 : Option (List Nat)) : Option PyDict :=
  let raw := match raw0 with
    | Option.some r => r
    | Option.none => env.memRange A.GSTRINGVAR4_ADDR 500
  if raw.isEmpty then Option.none
  else
    let pages := fullDialogPagesAux raw [] []
    if pages.isEmpty then Option.none
    else
      Option.some
        [("pages", PyVal.vList (pages.map PyVal.vStr)),
         ("pageCount", PyVal.vInt pages.length),
         ("fullText", PyVal.vStr (String.intercalate "\n" pages))]

/-! ## Battle UI reconstruction (`ui/battle.py`) -/

/-- `str(v)` (Python) for the modelled values. -/
def PyVal.pyStr : PyVal → String
  | .vStr s => s
  | .vInt n => toString n
  | .vBool b => if b then "True" else "False"
  | .none => "None"
  | .vList _ => "?"
  | .vDict _ => "?"

/-- Python `str.rstrip()` (trailing-whitespace strip). -/
def pyRstrip (s : String) : String := ⟨(s.data.reverse.dropWhile isPyWs).reverse⟩

/-- `_battle_position_name(pos)`. -/
def battle_position_name (pos : Nat) : String :=
  match pos % 256 with
  | 0 => "PLAYER_LEFT"
  | 1 => "OPPONENT_LEFT"
  | 2 => "PLAYER_RIGHT"
  | 3 => "OPPONENT_RIGHT"
  | _ => "UNKNOWN_" ++ toString pos

/-- `_battle_side_from_pos(pos)`. -/
def battle_side_from_pos (A : Addrs) (pos : Nat) : String :=
  if pos &&& A.BATTLER_BIT_SIDE = 0 then "player" else "enemy"

/-- `_battle_flank_from_pos(pos)`. -/
def battle_flank_from_pos (A : Addrs) (pos : Nat) : String :=
  if pos &&& A.BATTLER_BIT_FLANK = 0 then "left" else "right"

/-- `_battle_screen_position_name(pos)`. -/
def battle_screen_position_name (A : Addrs) (pos : Nat) : String :=
  let posI := pos % 256
  if battle_side_from_pos A posI = "enemy" then
    if battle_flank_from_pos A posI = "left" then "OPPONENT_RIGHT" else "OPPONENT_LEFT"
  else battle_position_name posI

/-- `_battle_screen_flank_from_pos(pos)`. -/
def battle_screen_flank_from_pos (A : Addrs) (pos : Nat) : String :=
  let side := battle_side_from_pos A pos
  let flank := battle_flank_from_pos A pos
  if side = "enemy" then (if flank = "right" then "left" else "right") else flank

/-- `_parse_battle_pokemon(raw)`, restricted to the keys consumed by the
embedded battle-menu reconstruction (`speciesId`, `moves`, `pp`); the purely
informational keys (names, hp, status, types) feed only display layers that
no claim depends on. -/
def parse_battle_pokemon (A : Addrs) (env : Env) (raw : List Nat) : PyDict :=
  if raw.isEmpty ∨ raw.length < A.BATTLE_POKEMON_SIZE then
    [("speciesId", PyVal.vInt 0),
     ("moves", PyVal.vList [PyVal.none, PyVal.none, PyVal.none, PyVal.none]),
     ("pp", PyVal.vList [PyVal.vInt 0, PyVal.vInt 0, PyVal.vInt 0, PyVal.vInt 0])]
  else
    let movesRaw := (List.range 4).map fun i => u16le_from raw (0x0C + i * 2)
    let pp := (List.range 4).map fun i => u8_from raw (0x24 + i)
    let moves := movesRaw.map fun m =>
      if m ≠ 0 then
        match env.moveName m with
        | Option.some s => PyVal.vStr s
        | Option.none => PyVal.none
      else PyVal.none
    [("speciesId", PyVal.vInt (u16le_from raw 0)),
     ("moves", PyVal.vList moves),
     ("pp", PyVal.vList (pp.map fun v => PyVal.vInt v))]

/-- `_battle_mon_display_name_from_raw(mon_raw)`. -/
def battle_mon_display_name_from_raw (A : Addrs) (env : Env) (raw : List Nat) :
    Option String :=
  if raw.isEmpty ∨ raw.length < A.BATTLE_POKEMON_SIZE then Option.none
  else
    let speciesId := u16le_from raw 0
    if speciesId = 0 then Option.none
    else
      let nick := decode_gba_string ((raw.drop 0x30).take 11) 11 false
      if nick ≠ "" then Option.some nick else env.speciesName speciesId

/-- `_build_battle_ui_state(...)` from `ui/battle.py`: infer the concrete
battle menu (yes/no, target, move, action selection) from one controller
function pointer plus the cursors. -/
def build_battle_ui_state (A : Addrs) (env : Env) (battleTypeFlags : Nat)
    (battlersCount : Nat) (absentFlags : Nat) (positions : List Nat)
    (battleMonsRaw : List Nat) (activeBattler : Nat) (controllerFunc : Nat)
    (actionCursor : Nat) (moveCursor : Nat) (multiCursor : Nat) : Option PyDict :=
  let active := activeBattler % 256
  let actionCur := actionCursor % 256
  let moveCur := moveCursor % 256
  let multiCur := multiCursor % 256
  if ptr_matches_any controllerFunc A.BATTLE_PLAYER_HANDLE_YES_NO_INPUT_ADDRS then
    let options := ["YES", "NO"]
    let cursor : Nat := if multiCur = 0 then 0 else 1
    Option.some
      [("type", PyVal.vStr "battleYesNo"),
       ("activeBattlerId", PyVal.vInt active),
       ("cursorPosition", PyVal.vInt cursor),
       ("selectedOption",
         if cursor < options.length then PyVal.vStr (options.getD cursor "") else PyVal.none),
       ("options", PyVal.vList (options.map PyVal.vStr)),
       ("layout", PyVal.vStr "list")]
  else if ptr_matches_any controllerFunc A.BATTLE_HANDLE_INPUT_CHOOSE_TARGET_ADDRS then
    let maxId := if 0 < battlersCount ∧ battlersCount ≤ A.BATTLE_MAX_BATTLERS then
      battlersCount else A.BATTLE_MAX_BATTLERS
    let targets0 : List PyDict :=
      (List.range maxId).filterMap fun battlerId =>
        if absentFlags &&& (2 ^ battlerId) ≠ 0 then Option.none
        else
          let pos := if battlerId < positions.length then positions.getD battlerId 0
            else battlerId
          let monRaw := if battleMonsRaw.isEmpty then []
            else (battleMonsRaw.drop (battlerId * A.BATTLE_POKEMON_SIZE)).take
              A.BATTLE_POKEMON_SIZE
          let name := match battle_mon_display_name_from_raw A env monRaw with
            | Option.some n => n
            | Option.none => battle_screen_position_name A pos
          Option.some
            [("battlerId", PyVal.vInt battlerId),
             ("position", PyVal.vStr (battle_screen_position_name A pos)),
             ("side", PyVal.vStr (battle_side_from_pos A pos)),
             ("flank", PyVal.vStr (battle_screen_flank_from_pos A pos)),
             ("name", PyVal.vStr name)]
    let gridKey : PyDict → Nat := fun t =>
      let row := if (t.get "side").strOrEmpty = "enemy" then 0 else 1
      let col := if (t.get "flank").strOrEmpty = "left" then 0 else 1
      row * 2 + col
    let targets := ((targets0.zip (List.range targets0.length)).insertionSort fun a b =>
      gridKey a.1 < gridKey b.1 ∨ (gridKey a.1 = gridKey b.1 ∧ a.2 ≤ b.2)).map Prod.fst
    let cursorIndex : Nat :=
      match (List.range targets.length).find?
          (fun i => ((targets.getD i []).get "battlerId").toInt == (multiCur : Int)) with
      | Option.some i => i
      | Option.none => 0
    let options := targets.map fun t =>
      (t.get "position").strOrEmpty ++ ": " ++ (t.get "name").strOrEmpty
    let selected := if cursorIndex < options.length then
      PyVal.vStr (options.getD cursorIndex "") else PyVal.none
    Option.some
      [("type", PyVal.vStr "battleTarget"),
       ("activeBattlerId", PyVal.vInt active),
       ("cursorBattlerId", PyVal.vInt multiCur),
       ("cursorPosition", PyVal.vInt cursorIndex),
       ("selectedOption", selected),
       ("options", PyVal.vList (options.map PyVal.vStr)),
       ("targets", PyVal.vList (targets.map PyVal.vDict)),
       ("layout", PyVal.vStr "list")]
  else if ptr_matches_any controllerFunc A.BATTLE_HANDLE_INPUT_CHOOSE_MOVE_ADDRS then
    let monRaw := if battleMonsRaw.isEmpty then []
      else (battleMonsRaw.drop (active * A.BATTLE_POKEMON_SIZE)).take A.BATTLE_POKEMON_SIZE
    let mon := parse_battle_pokemon A env monRaw
    let movesList : List PyVal := match (mon.get "moves").asList with
      | Option.some ms => ms
      | Option.none => []
    let moveNames0 := movesList.map fun m => if m.truthy then m.pyStr else "—"
    let ppList : List PyVal := match (mon.get "pp").asList with
      | Option.some ps => ps
      | Option.none => []
    let pp0 := ppList.map PyVal.toInt
    let moveNames := moveNames0 ++ List.replicate (4 - moveNames0.length) "—"
    let pp := pp0 ++ List.replicate (4 - pp0.length) (0 : Int)
    let cursor : Nat := if moveCur < moveNames.length then moveCur else 0
    Option.some
      [("type", PyVal.vStr "battleMoves"),
       ("activeBattlerId", PyVal.vInt active),
       ("cursorPosition", PyVal.vInt cursor),
       ("selectedOption",
         if cursor < moveNames.length then PyVal.vStr (moveNames.getD cursor "")
         else PyVal.none),
       ("options", PyVal.vList (moveNames.map PyVal.vStr)),
       ("pp", PyVal.vList (pp.map PyVal.vInt)),
       ("layout", PyVal.vStr "grid2x2")]
  else if ptr_matches_any controllerFunc A.BATTLE_HANDLE_INPUT_CHOOSE_ACTION_ADDRS then
    let options := if battleTypeFlags &&& A.BATTLE_TYPE_SAFARI ≠ 0 then
      ["BALL", "POKéBLOCK", "GO NEAR", "RUN"]
    else ["FIGHT", "BAG", "POKéMON", "RUN"]
    let cursor : Nat := if actionCur < 4 then actionCur else 0
    Option.some
      [("type", PyVal.vStr "battleActions"),
       ("activeBattlerId", PyVal.vInt active),
       ("cursorPosition", PyVal.vInt cursor),
       ("selectedOption",
         if cursor < options.length then PyVal.vStr (options.getD cursor "") else PyVal.none),
       ("options", PyVal.vList (options.map PyVal.vStr)),
       ("layout", PyVal.vStr "grid2x2")]
  else Option.none

/-- `_format_battle_ui_lines(ui_state)`. -/
def format_battle_ui_lines (ui : PyDict) : List String :=
  let options := match (ui.get "options").asList with
    | Option.some xs => xs
    | Option.none => []
  let cursor := (ui.get "cursorPosition").intOr0
  let layout := let lv := ui.get "layout"
    if lv.truthy then lv.pyStr else "list"
  if layout = "grid2x2" ∧ options.length ≥ 4 then
    let topLeft := (if cursor = 0 then "►" else " ") ++ (options.getD 0 PyVal.none).pyStr
    let topRight := (if cursor = 1 then "►" else "") ++ (options.getD 1 PyVal.none).pyStr
    let bottomLeft := (if cursor = 2 then "►" else " ") ++ (options.getD 2 PyVal.none).pyStr
    let bottomRight := (if cursor = 3 then "►" else "") ++ (options.getD 3 PyVal.none).pyStr
    [pyRstrip (topLeft ++ " " ++ topRight), pyRstrip (bottomLeft ++ " " ++ bottomRight)]
  else
    (options.zip (List.range options.length)).map fun oi =>
      (if (oi.2 : Int) = cursor then "►" else " ") ++ oi.1.pyStr

/-- `_decode_battle_displayed_string(raw)`. -/
def decode_battle_displayed_string (A : Addrs) (env : Env) (raw0 : Option (List Nat)) :
    Option String :=
  let raw := match raw0 with
    | Option.some r =>
      if r.isEmpty then env.memRange A.GDISPLAYEDSTRINGBATTLE_ADDR A.GDISPLAYEDSTRINGBATTLE_SIZE
      else r
    | Option.none => env.memRange A.GDISPLAYEDSTRINGBATTLE_ADDR A.GDISPLAYEDSTRINGBATTLE_SIZE
  if raw.isEmpty then Option.none
  else
    let txt := decode_gba_string raw 200 true
    if txt ≠ "" then Option.some txt else Option.none

/-- `_detect_battle_ui_state(...)` from `ui/battle.py`: find the battler
whose controller function matches one of the four known input handlers (in
priority order), with script-driven yes/no and BG0 scroll fallbacks. -/
def detect_battle_ui_state (A : Addrs) (env : Env) (battleTypeFlags : Nat)
    (battlersCount : Nat) (absentFlags : Nat) (positions : List Nat)
    (battleMonsRaw : List Nat) (activeBattlerFallback : Nat)
    (controllerFuncsRaw : List Nat) (actionSelectionCursorRaw : List Nat)
    (moveSelectionCursorRaw : List Nat) (multiCursor : Nat) (bg0Y : Option Nat)
    (battleScriptCurrInstrRaw : Option (List Nat))
    (battleCommunicationRaw : Option (List Nat)) : Option PyDict :=
  let controllerFuncs : List Nat :=
    if ¬ controllerFuncsRaw.isEmpty ∧
        controllerFuncsRaw.length ≥ A.BATTLE_MAX_BATTLERS * 4 then
      (List.range A.BATTLE_MAX_BATTLERS).map fun i => u32le_from controllerFuncsRaw (i * 4)
    else List.replicate A.BATTLE_MAX_BATTLERS 0
  let actionCursors : List Nat :=
    if ¬ actionSelectionCursorRaw.isEmpty ∧
        actionSelectionCursorRaw.length ≥ A.BATTLE_MAX_BATTLERS then
      actionSelectionCursorRaw.take A.BATTLE_MAX_BATTLERS
    else List.replicate A.BATTLE_MAX_BATTLERS 0
  let moveCursors : List Nat :=
    if ¬ moveSelectionCursorRaw.isEmpty ∧
        moveSelectionCursorRaw.length ≥ A.BATTLE_MAX_BATTLERS then
      moveSelectionCursorRaw.take A.BATTLE_MAX_BATTLERS
    else List.replicate A.BATTLE_MAX_BATTLERS 0
  let priorityLists := [A.BATTLE_PLAYER_HANDLE_YES_NO_INPUT_ADDRS,
    A.BATTLE_HANDLE_INPUT_CHOOSE_TARGET_ADDRS,
    A.BATTLE_HANDLE_INPUT_CHOOSE_MOVE_ADDRS,
    A.BATTLE_HANDLE_INPUT_CHOOSE_ACTION_ADDRS]
  let fromPriority : Option PyDict :=
    priorityLists.findSome? fun addrList =>
      (List.range controllerFuncs.length).findSome? fun battlerId =>
        let func := controllerFuncs.getD battlerId 0
        if ptr_matches_any func addrList then
          build_battle_ui_state A env battleTypeFlags battlersCount absentFlags positions
            battleMonsRaw battlerId func (actionCursors.getD battlerId 0)
            (moveCursors.getD battlerId 0) multiCursor
        else Option.none
  match fromPriority with
  | Option.some d => Option.some d
  | Option.none =>
    let battlerId0 := activeBattlerFallback % 256
    let battlerId := if battlerId0 ≥ A.BATTLE_MAX_BATTLERS then 0 else battlerId0
    let scriptPtr : Nat :=
      match battleScriptCurrInstrRaw with
      | Option.some r => if ¬ r.isEmpty ∧ r.length ≥ 4 then u32le_from r 0
        else env.mem32 A.GBATTLESCRIPTCURRINSTR_ADDR
      | Option.none => env.mem32 A.GBATTLESCRIPTCURRINSTR_ADDR
    let scriptYesNo : Option PyDict :=
      if scriptPtr ≠ 0 then
        let cmd := env.mem8 scriptPtr % 256
        if cmd = 0x5A ∨ cmd = 0x5B ∨ cmd = 0x67 then
          let options := ["YES", "NO"]
          let cursorRaw : Nat :=
            match battleCommunicationRaw with
            | Option.some r => if ¬ r.isEmpty ∧ r.length > 1 then r.getD 1 0
              else env.mem8 (A.GBATTLECOMMUNICATION_ADDR + 1)
            | Option.none => env.mem8 (A.GBATTLECOMMUNICATION_ADDR + 1)
          let cursor : Nat := if cursorRaw = 0 then 0 else 1
          Option.some
            [("type", PyVal.vStr "battleYesNo"),
             ("activeBattlerId", PyVal.vInt battlerId),
             ("cursorPosition", PyVal.vInt cursor),
             ("selectedOption",
               if cursor < options.length then PyVal.vStr (options.getD cursor "")
               else PyVal.none),
             ("options", PyVal.vList (options.map PyVal.vStr)),
             ("layout", PyVal.vStr "list")]
        else Option.none
      else Option.none
    match scriptYesNo with
    | Option.some d => Option.some d
    | Option.none =>
      match bg0Y with
      | Option.none => Option.none
      | Option.some y =>
        if y = A.DISPLAY_HEIGHT ∧ ¬ A.BATTLE_HANDLE_INPUT_CHOOSE_ACTION_ADDRS.isEmpty then
          build_battle_ui_state A env battleTypeFlags battlersCount absentFlags positions
            battleMonsRaw battlerId (A.BATTLE_HANDLE_INPUT_CHOOSE_ACTION_ADDRS.getD 0 0)
            (actionCursors.getD battlerId 0) (moveCursors.getD battlerId 0) multiCursor
        else if y = A.DISPLAY_HEIGHT * 2 ∧
            ¬ A.BATTLE_HANDLE_INPUT_CHOOSE_MOVE_ADDRS.isEmpty then
          build_battle_ui_state A env battleTypeFlags battlersCount absentFlags positions
            battleMonsRaw battlerId (A.BATTLE_HANDLE_INPUT_CHOOSE_MOVE_ADDRS.getD 0 0)
            (actionCursors.getD battlerId 0) (moveCursors.getD battlerId 0) multiCursor
        else Option.none

/-! ## Detector gates

Each screen detector from `ui/menus.py` / `ui/pokedex.py` / `ui/fly_map.py`
is embedded with its distinguishing signal check (callback address, task
set, pointer validity) translated from the source; the payload constructed
after the gate has fired is supplied by the corresponding `Env` body oracle
(no claim depends on those payloads, and they read live memory and the
external name tables). -/

/-- Python `s.strip()` as a `String` operation. -/
def pyStripS (s : String) : String := ⟨pyStrip s.data⟩

/-- `_read_gba_cstring(ptr, max_len)` from `ui/menus.py`: decode a
terminator-delimited string read live at `ptr`. -/
def read_gba_cstring (env : Env) (ptr : Nat) (maxLen : Nat := 64) : String :=
  if ptr = 0 then "" else decode_gba_string (env.memRange ptr maxLen) maxLen false

/-- `get_title_screen_press_start_state(callback2, tasks_raw)` — fully
embedded (its payload is pure). -/
def get_title_screen_press_start_state (A : Addrs) (env : Env) (callback2 : Nat)
    (tasksRaw : Option (List Nat)) : Option PyDict :=
  let cb2Masked := maskPtr callback2
  let titleCb2 := [maskPtr A.CB2_INIT_TITLE_SCREEN_ADDR, maskPtr A.CB2_TITLE_SCREEN_ADDR]
  let titleTasks := [maskPtr A.TASK_TITLE_SCREEN_PHASE1_ADDR,
    maskPtr A.TASK_TITLE_SCREEN_PHASE2_ADDR, maskPtr A.TASK_TITLE_SCREEN_PHASE3_ADDR]
  let liveScan : Option Nat :=
    (List.range A.NUM_TASKS).findSome? fun i =>
      let taskAddr := A.GTASKS_ADDR + i * A.TASK_SIZE
      if env.mem8 (taskAddr + A.TASK_ISACTIVE_OFFSET) = 0 then Option.none
      else
        let f := maskPtr (env.mem32 (taskAddr + A.TASK_FUNC_OFFSET))
        if titleTasks.contains f then Option.some f else Option.none
  let firstMatch : Option Nat :=
    match tasksRaw with
    | Option.some raw =>
      if raw.length ≥ A.NUM_TASKS * A.TASK_SIZE then
        (List.range A.NUM_TASKS).findSome? fun i =>
          let base := i * A.TASK_SIZE
          if u8_from raw (base + A.TASK_ISACTIVE_OFFSET) = 0 then Option.none
          else
            let f := maskPtr (u32le_from raw (base + A.TASK_FUNC_OFFSET))
            if titleTasks.contains f then Option.some f else Option.none
      else liveScan
    | Option.none => liveScan
  let anyTaskActive := firstMatch.isSome
  let phase : PyVal :=
    match firstMatch with
    | Option.some f =>
      if f = maskPtr A.TASK_TITLE_SCREEN_PHASE1_ADDR then PyVal.vStr "phase1"
      else if f = maskPtr A.TASK_TITLE_SCREEN_PHASE2_ADDR then PyVal.vStr "phase2"
      else if f = maskPtr A.TASK_TITLE_SCREEN_PHASE3_ADDR then PyVal.vStr "pressStart"
      else PyVal.none
    | Option.none => PyVal.none
  if ¬ titleCb2.contains cb2Masked ∧ ¬ anyTaskActive then Option.none
  else Option.some [("type", PyVal.vStr "titleScreen"), ("phase", phase)]

/-- `get_naming_screen_state(callback2)`: callback gate, then the naming
screen pointer must be non-null. -/
def get_naming_screen_state (A : Addrs) (env : Env) (callback2 : Nat) : Option PyDict :=
  let cb2Masked := maskPtr callback2
  let phase : Option String :=
    if cb2Masked = maskPtr A.CB2_LOAD_NAMING_SCREEN_ADDR then Option.some "loading"
    else if cb2Masked = maskPtr A.CB2_NAMING_SCREEN_ADDR then Option.some "active"
    else Option.none
  match phase with
  | Option.none => Option.none
  | Option.some ph =>
    let nsPtr := env.mem32 A.SNAMING_SCREEN_PTR_ADDR
    if nsPtr = 0 then Option.none
    else env.namingBody ph nsPtr

/-- `get_controls_guide_state(tasks_raw)`: task-set gate. -/
def get_controls_guide_state (A : Addrs) (env : Env) (tasksRaw : Option (List Nat)) :
    Option PyDict :=
  match find_active_task_by_funcs A env A.CONTROLS_GUIDE_TASK_FUNCS tasksRaw with
  | Option.none => Option.none
  | Option.some tid => env.controlsBody tid

/-- `get_pikachu_intro_state(tasks_raw, ...)`: task-set gate. -/
def get_pikachu_intro_state (A : Addrs) (env : Env) (tasksRaw : Option (List Nat)) :
    Option PyDict :=
  match find_active_task_by_funcs A env A.PIKACHU_INTRO_TASK_FUNCS tasksRaw with
  | Option.none => Option.none
  | Option.some tid => env.pikachuBody tid

/-- `get_quest_log_playback_state(...)`: quest-log state gate. -/
def get_quest_log_playback_state (A : Addrs) (env : Env)
    (questLogStateRaw questLogPlaybackStateRaw questLogWindowIdsRaw : Option (List Nat)) :
    Option PyDict :=
  let qlState : Nat :=
    match questLogStateRaw with
    | Option.some r => if r.length ≥ 1 then r.getD 0 0 else env.mem8 A.GQUEST_LOG_STATE_ADDR
    | Option.none => env.mem8 A.GQUEST_LOG_STATE_ADDR
  if qlState ≠ A.QL_STATE_PLAYBACK ∧ qlState ≠ A.QL_STATE_PLAYBACK_LAST then Option.none
  else
    let playback : Nat :=
      match questLogPlaybackStateRaw with
      | Option.some r =>
        if r.length ≥ 1 then r.getD 0 0 else env.mem8 A.GQUEST_LOG_PLAYBACK_STATE_ADDR
      | Option.none => env.mem8 A.GQUEST_LOG_PLAYBACK_STATE_ADDR
    let windowIds : List Nat :=
      match questLogWindowIdsRaw with
      | Option.some r =>
        if r.length ≥ A.QUEST_LOG_WINDOW_COUNT then r.take A.QUEST_LOG_WINDOW_COUNT
        else env.memRange A.SQUEST_LOG_WINDOW_IDS_ADDR A.QUEST_LOG_WINDOW_COUNT
      | Option.none => env.memRange A.SQUEST_LOG_WINDOW_IDS_ADDR A.QUEST_LOG_WINDOW_COUNT
    if windowIds.length < A.QUEST_LOG_WINDOW_COUNT then Option.none
    else env.questLogBody qlState playback windowIds

/-- `get_fly_map_state(...)` (`ui/fly_map.py`): callback gate. -/
def get_fly_map_state (A : Addrs) (env : Env) (callback2 : Nat) : Option PyDict :=
  let cb2 := maskPtr callback2
  let cands := ([A.CB2_FLY_MAP_ADDR, A.CB2_OPEN_FLY_MAP_ADDR].filter fun a => a != 0).map maskPtr
  if cands.isEmpty ∨ ¬ cands.contains cb2 then Option.none
  else env.flyBody

/-- `get_pokedex_state(callback2, ...)` (`ui/pokedex.py`): callback gate. -/
def get_pokedex_state (A : Addrs) (env : Env) (callback2 : Nat) : Option PyDict :=
  let cb2 := maskPtr callback2
  let cands := ([A.CB2_POKEDEX_ADDR, A.CB2_OPEN_POKEDEX_ADDR].filter fun a => a != 0).map maskPtr
  if cands.isEmpty ∨ ¬ cands.contains cb2 then Option.none
  else env.pokedexBody

/-- `get_pokemon_storage_system_state(...)`: callback gate. -/
def get_pokemon_storage_system_state (A : Addrs) (env : Env) (callback2 : Nat)
    (storagePtrRaw : Option (List Nat)) : Option PyDict :=
  let masked := maskPtr callback2
  if masked ≠ maskPtr A.CB2_POKE_STORAGE_ADDR ∧
      masked ≠ maskPtr A.CB2_RETURN_TO_POKE_STORAGE_ADDR then Option.none
  else
    let storagePtr : Nat :=
      match storagePtrRaw with
      | Option.some r =>
        if r.length ≥ 4 then u32le_from r 0 else env.mem32 A.SPOKE_STORAGE_PTR_ADDR
      | Option.none => env.mem32 A.SPOKE_STORAGE_PTR_ADDR
    env.pokeStorageBody storagePtr

/-- The captured-buffer scan of `get_berry_crush_rankings_state` (with its
`break` on a short buffer). -/
def berryFindRaw (A : Addrs) (raw : List Nat) (target : Nat) :
    Nat → Option (Nat × Nat × Nat × List Nat)
  | i =>
    if _h : i < A.NUM_TASKS then
      let base := i * A.TASK_SIZE
      if base + A.TASK_SIZE > raw.length then Option.none
      else if u8_from raw (base + A.TASK_ISACTIVE_OFFSET) = 0 then berryFindRaw A raw target (i + 1)
      else if maskPtr (u32le_from raw (base + A.TASK_FUNC_OFFSET)) ≠ target then
        berryFindRaw A raw target (i + 1)
      else
        let state := u16le_from raw (base + A.TASK_DATA_OFFSET)
        let windowId := u16le_from raw (base + A.TASK_DATA_OFFSET + 2)
        let pressing := (List.range 4).map fun j =>
          u16le_from raw (base + A.TASK_DATA_OFFSET + (j + 2) * 2)
        Option.some (i, state, windowId, pressing)
    else Option.none
termination_by i => A.NUM_TASKS - i
decreasing_by
  all_goals omega

/-- `get_berry_crush_rankings_state(tasks_raw)`: task gate + rendering-state
bound (`state >= 3` means fade/cleanup, reported as not recognised). -/
def get_berry_crush_rankings_state (A : Addrs) (env : Env) (tasksRaw : Option (List Nat)) :
    Option PyDict :=
  let target := maskPtr A.TASK_BERRY_CRUSH_SHOW_RANKINGS_ADDR
  if target = 0 then Option.none
  else
    let found : Option (Nat × Nat × Nat × List Nat) :=
      match tasksRaw with
      | Option.some raw =>
        if raw.length ≥ A.NUM_TASKS * A.TASK_SIZE then berryFindRaw A raw target 0
        else
          (List.range A.NUM_TASKS).findSome? fun i =>
            let taskAddr := A.GTASKS_ADDR + i * A.TASK_SIZE
            if env.mem8 (taskAddr + A.TASK_ISACTIVE_OFFSET) = 0 then Option.none
            else if maskPtr (env.mem32 (taskAddr + A.TASK_FUNC_OFFSET)) ≠ target then Option.none
            else
              Option.some (i, env.mem16 (taskAddr + A.TASK_DATA_OFFSET),
                env.mem16 (taskAddr + A.TASK_DATA_OFFSET + 2),
                (List.range 4).map fun j => env.mem16 (taskAddr + A.TASK_DATA_OFFSET + (j + 2) * 2))
      | Option.none =>
        (List.range A.NUM_TASKS).findSome? fun i =>
          let taskAddr := A.GTASKS_ADDR + i * A.TASK_SIZE
          if env.mem8 (taskAddr + A.TASK_ISACTIVE_OFFSET) = 0 then Option.none
          else if maskPtr (env.mem32 (taskAddr + A.TASK_FUNC_OFFSET)) ≠ target then Option.none
          else
            Option.some (i, env.mem16 (taskAddr + A.TASK_DATA_OFFSET),
              env.mem16 (taskAddr + A.TASK_DATA_OFFSET + 2),
              (List.range 4).map fun j => env.mem16 (taskAddr + A.TASK_DATA_OFFSET + (j + 2) * 2))
    match found with
    | Option.none => Option.none
    | Option.some f =>
      if f.2.1 ≥ 3 then Option.none
      else env.berryBody f.1 f.2.1 f.2.2.1 f.2.2.2

/-- `get_pokemon_storage_pc_menu_state(tasks_raw, smenu_raw)`: task gate. -/
def get_pokemon_storage_pc_menu_state (A : Addrs) (env : Env)
    (tasksRaw : Option (List Nat)) : Option PyDict :=
  match find_active_task_by_func A env A.TASK_POKEMON_STORAGE_PC_MAIN_MENU_ADDR tasksRaw with
  | Option.none => Option.none
  | Option.some tid => env.pokeStoragePcMenuBody tid

/-- `get_player_pc_menu_state(tasks_raw, smenu_raw)`: task gate over the
candidate function list. -/
def get_player_pc_menu_state (A : Addrs) (env : Env) (tasksRaw : Option (List Nat)) :
    Option PyDict :=
  let cands := (A.TASK_PLAYER_PC_PROCESS_MENU_INPUT_ADDRS.filter fun a => a != 0) ++
    (if A.TASK_PLAYER_PC_PROCESS_MENU_INPUT_ADDR ≠ 0 then
      [A.TASK_PLAYER_PC_PROCESS_MENU_INPUT_ADDR] else []) ++
    (if A.TASK_PLAYER_PC_DRAW_TOP_MENU_ADDR ≠ 0 then [A.TASK_PLAYER_PC_DRAW_TOP_MENU_ADDR]
     else [])
  match find_active_task_by_funcs A env cands tasksRaw with
  | Option.none => Option.none
  | Option.some tid => env.playerPcMenuBody tid

/-- `get_item_storage_list_state(...)`: non-null state pointer, then the
Item PC task gate. -/
def get_item_storage_list_state (A : Addrs) (env : Env) (tasksRaw : Option (List Nat))
    (itemStorageMenuPtrRaw : Option (List Nat)) : Option PyDict :=
  let menuPtr : Nat :=
    match itemStorageMenuPtrRaw with
    | Option.some r =>
      if r.length ≥ 4 then u32le_from r 0 else env.mem32 A.SITEM_STORAGE_MENU_PTR_ADDR
    | Option.none => env.mem32 A.SITEM_STORAGE_MENU_PTR_ADDR
  if menuPtr = 0 then Option.none
  else
    match find_active_task_by_funcs A env A.ITEM_PC_TASK_FUNCS tasksRaw with
    | Option.none => Option.none
    | Option.some tid => env.itemStorageListBody menuPtr tid

/-- `get_item_storage_menu_state(tasks_raw, smenu_raw)`: task gate. -/
def get_item_storage_menu_state (A : Addrs) (env : Env) (tasksRaw : Option (List Nat)) :
    Option PyDict :=
  match find_active_task_by_func A env A.ITEM_STORAGE_MENU_PROCESS_INPUT_ADDR tasksRaw with
  | Option.none => Option.none
  | Option.some tid => env.itemStorageMenuBody tid

/-- `get_start_menu_state(...)`: task gate, then the window-id and
action-count sanity checks. -/
def get_start_menu_state (A : Addrs) (env : Env) (tasksRaw : Option (List Nat))
    (startMenuWindowId startMenuNumActions : Option Nat) : Option PyDict :=
  if (find_active_task_by_func A env A.TASK_SHOW_START_MENU_ADDR tasksRaw).isNone ∧
      (find_active_task_by_func A env A.START_MENU_TASK_ADDR tasksRaw).isNone then Option.none
  else
    let windowId : Nat :=
      match startMenuWindowId with
      | Option.some w => w
      | Option.none => env.mem8 A.START_MENU_WINDOW_ID_ADDR
    if windowId = A.WINDOW_NONE then Option.none
    else
      let numActions : Nat :=
        match startMenuNumActions with
        | Option.some n => n
        | Option.none => env.mem8 A.START_MENU_NUM_ACTIONS_ADDR
      if numActions = 0 ∨ numActions > 9 then Option.none
      else env.startMenuBody windowId

/-- `get_tm_case_state(...)`: callback gate. -/
def get_tm_case_state (A : Addrs) (env : Env) (callback2 : Nat) : Option PyDict :=
  let cb2Masked := maskPtr callback2
  if cb2Masked ≠ maskPtr A.CB2_TM_CASE_IDLE_ADDR ∧
      cb2Masked ≠ maskPtr A.CB2_TM_CASE_SETUP_ADDR then Option.none
  else env.tmCaseBody

/-- `get_bag_menu_state(...)`: callback gate, then a non-null bag pointer
and an in-range pocket id. -/
def get_bag_menu_state (A : Addrs) (env : Env) (callback2 : Nat) : Option PyDict :=
  let cb2Masked := maskPtr callback2
  if cb2Masked ≠ maskPtr A.CB2_BAG_MENU_RUN_ADDR ∧ cb2Masked ≠ maskPtr A.CB2_BAG_ADDR then
    Option.none
  else
    let bagMenuPtr := env.mem32 A.GBAGMENU_PTR_ADDR
    if bagMenuPtr = 0 then Option.none
    else
      let pocketId := env.mem8 (A.GBAGPOSITION_ADDR + A.BAGPOSITION_POCKET_OFFSET)
      if pocketId > 4 then Option.none
      else env.bagBody bagMenuPtr pocketId

/-- `get_trainer_card_state(callback2)`: callback gate, non-null SaveBlock2
pointer. -/
def get_trainer_card_state (A : Addrs) (env : Env) (callback2 : Nat) : Option PyDict :=
  if maskPtr callback2 ≠ maskPtr A.CB2_TRAINER_CARD_ADDR then Option.none
  else
    let sb2Ptr := env.mem32 A.GSAVEBLOCK2_PTR_ADDR
    if sb2Ptr = 0 then Option.none
    else env.trainerCardBody sb2Ptr

/-- The raw/live "is any task in this masked set active" scan used by the
option-menu, title-menu, title-screen and gender detectors (loop without
the short-buffer `break`; callers check the buffer length first). -/
def anyTaskInSet (A : Addrs) (env : Env) (maskedSet : List Nat)
    (tasksRaw : Option (List Nat)) : Bool :=
  match tasksRaw with
  | Option.some raw =>
    if raw.length ≥ A.NUM_TASKS * A.TASK_SIZE then
      (List.range A.NUM_TASKS).any fun i =>
        let base := i * A.TASK_SIZE
        u8_from raw (base + A.TASK_ISACTIVE_OFFSET) ≠ 0 &&
          maskedSet.contains (maskPtr (u32le_from raw (base + A.TASK_FUNC_OFFSET)))
    else
      (List.range A.NUM_TASKS).any fun i =>
        let taskAddr := A.GTASKS_ADDR + i * A.TASK_SIZE
        env.mem8 (taskAddr + A.TASK_ISACTIVE_OFFSET) ≠ 0 &&
          maskedSet.contains (maskPtr (env.mem32 (taskAddr + A.TASK_FUNC_OFFSET)))
  | Option.none =>
    (List.range A.NUM_TASKS).any fun i =>
      let taskAddr := A.GTASKS_ADDR + i * A.TASK_SIZE
      env.mem8 (taskAddr + A.TASK_ISACTIVE_OFFSET) ≠ 0 &&
        maskedSet.contains (maskPtr (env.mem32 (taskAddr + A.TASK_FUNC_OFFSET)))

/-- `get_option_menu_state(callback2, tasks_raw)`: callback-or-task gate,
non-null SaveBlock2 pointer. -/
def get_option_menu_state (A : Addrs) (env : Env) (callback2 : Nat)
    (tasksRaw : Option (List Nat)) : Option PyDict :=
  let cb2Masked := maskPtr callback2
  let optionTasks := [maskPtr A.TASK_OPTION_MENU_FADEIN_ADDR,
    maskPtr A.TASK_OPTION_MENU_PROCESSINPUT_ADDR, maskPtr A.TASK_OPTION_MENU_SAVE_ADDR,
    maskPtr A.TASK_OPTION_MENU_FADEOUT_ADDR]
  let optionTaskActive := anyTaskInSet A env optionTasks tasksRaw
  if cb2Masked ≠ maskPtr A.CB2_INIT_OPTION_MENU_ADDR ∧
      cb2Masked ≠ maskPtr A.CB2_OPTION_MENU_ADDR ∧ ¬ optionTaskActive then Option.none
  else
    let sb2Ptr := env.mem32 A.GSAVEBLOCK2_PTR_ADDR
    if sb2Ptr = 0 then Option.none
    else env.optionMenuBody optionTaskActive

/-- `get_title_menu_state(callback2, tasks_raw)`: callback-or-task gate,
then one of the three main-menu tasks must resolve. -/
def get_title_menu_state (A : Addrs) (env : Env) (callback2 : Nat)
    (tasksRaw : Option (List Nat)) : Option PyDict :=
  let cb2Masked := maskPtr callback2
  let mainMenuCb2 := [maskPtr A.CB2_MAIN_MENU_ADDR, maskPtr A.CB2_INIT_MAIN_MENU_ADDR,
    maskPtr A.CB2_REINIT_MAIN_MENU_ADDR]
  let mainMenuTasks := [maskPtr A.TASK_DISPLAY_MAIN_MENU_ADDR,
    maskPtr A.TASK_HIGHLIGHT_SELECTED_MAIN_MENU_ITEM_ADDR,
    maskPtr A.TASK_HANDLE_MAIN_MENU_INPUT_ADDR]
  let taskActive := anyTaskInSet A env mainMenuTasks tasksRaw
  if ¬ mainMenuCb2.contains cb2Masked ∧ ¬ taskActive then Option.none
  else
    let tid : Option Nat :=
      match find_active_task_by_func A env A.TASK_HANDLE_MAIN_MENU_INPUT_ADDR tasksRaw with
      | Option.some t => Option.some t
      | Option.none =>
        match find_active_task_by_func A env
            A.TASK_HIGHLIGHT_SELECTED_MAIN_MENU_ITEM_ADDR tasksRaw with
        | Option.some t => Option.some t
        | Option.none => find_active_task_by_func A env A.TASK_DISPLAY_MAIN_MENU_ADDR tasksRaw
    match tid with
    | Option.none => Option.none
    | Option.some t => env.titleMenuBody t

/-- `get_party_menu_state(...)`: callback gate. -/
def get_party_menu_state (A : Addrs) (env : Env) (callback2 : Nat) : Option PyDict :=
  let cb2Masked := maskPtr callback2
  if cb2Masked ≠ maskPtr A.CB2_INIT_PARTY_MENU_ADDR ∧
      cb2Masked ≠ maskPtr A.CB2_UPDATE_PARTY_MENU_ADDR then Option.none
  else env.partyMenuBody

/-- `get_shop_buy_menu_state(callback2, tasks_raw)`: callback gate, then one
of the four buy-menu tasks, then a non-null shop-data address. -/
def get_shop_buy_menu_state (A : Addrs) (env : Env) (callback2 : Nat)
    (tasksRaw : Option (List Nat)) : Option PyDict :=
  if maskPtr callback2 ≠ maskPtr A.CB2_BUY_MENU_ADDR then Option.none
  else
    let cands : List (Nat × String) :=
      [(A.TASK_BUY_HOW_MANY_DIALOGUE_HANDLE_INPUT_ADDR, "howMany"),
       (A.TASK_BUY_HOW_MANY_DIALOGUE_INIT_ADDR, "howMany"),
       (A.TASK_RETURN_TO_ITEM_LIST_AFTER_ITEM_PURCHASE_ADDR, "postPurchase"),
       (A.TASK_BUY_MENU_ADDR, "itemList")]
    let found : Option (Nat × Nat × String) :=
      cands.findSome? fun fl =>
        if fl.1 = 0 then Option.none
        else
          match find_active_task_by_func A env fl.1 tasksRaw with
          | Option.some tid => Option.some (tid, fl.1, fl.2)
          | Option.none => Option.none
    match found with
    | Option.none => Option.none
    | Option.some tfl =>
      if A.SSHOPDATA_PTR_ADDR = 0 then Option.none
      else env.shopBuyBody tfl.1 tfl.2.1 tfl.2.2

/-- `get_pokemon_summary_state(callback2, ...)`: callback gate, then a sane
EWRAM screen pointer and screen-mode/page bounds. -/
def get_pokemon_summary_state (A : Addrs) (env : Env) (callback2 : Nat) : Option PyDict :=
  let cb2Masked := maskPtr callback2
  if cb2Masked ≠ maskPtr A.CB2_INIT_SUMMARY_SCREEN_ADDR ∧
      cb2Masked ≠ maskPtr A.CB2_SUMMARY_SCREEN_ADDR then Option.none
  else
    let screenPtr := env.mem32 A.SMON_SUMMARY_SCREEN_PTR_ADDR
    if screenPtr = 0 then Option.none
    else if ¬ (0x02000000 ≤ screenPtr ∧ screenPtr ≤ 0x0203FFFF) then Option.none
    else
      let rawTail := env.memRange (screenPtr + 0x3000) 0x2F4
      if rawTail.length < 0x2F4 then Option.none
      else
        let mode := u8_from rawTail 0x208
        let curPage := u8_from rawTail 0x214
        if mode = 2 ∨ mode = 3 then Option.none
        else if mode > 5 ∨ curPage > 5 then Option.none
        else env.summaryBody screenPtr rawTail

/-- `get_pokemon_summary_select_move_state(callback2, tasks_raw)`: pointer
and mode gates (the callback is only advisory for this screen). -/
def get_pokemon_summary_select_move_state (A : Addrs) (env : Env) (callback2 : Nat) :
    Option PyDict :=
  let cb2Masked := maskPtr callback2
  let isSummaryCallback := cb2Masked = maskPtr A.CB2_INIT_SUMMARY_SCREEN_ADDR ∨
    cb2Masked = maskPtr A.CB2_SUMMARY_SCREEN_ADDR
  let screenPtr := env.mem32 A.SMON_SUMMARY_SCREEN_PTR_ADDR
  if screenPtr = 0 then Option.none
  else if ¬ (0x02000000 ≤ screenPtr ∧ screenPtr ≤ 0x0203FFFF) then Option.none
  else
    let rawTail := env.memRange (screenPtr + 0x3000) 0x2F4
    if rawTail.length < 0x2F4 then Option.none
    else
      let mode := u8_from rawTail 0x208
      if mode ≠ 2 ∧ mode ≠ 3 then Option.none
      else if ¬ isSummaryCallback ∧ u8_from rawTail 0x270 > 6 then Option.none
      else
        let currPage := u8_from rawTail 0x214
        if currPage > 5 then Option.none
        else
          let summary := (rawTail.drop 0x028).take 0x1D8
          let monRaw := (rawTail.drop 0x290).take A.POKEMON_DATA_SIZE
          if summary.length < 0x1D8 ∨ monRaw.length < A.POKEMON_DATA_SIZE then Option.none
          else env.summarySelectMoveBody screenPtr rawTail

/-- `_read_elevator_floor_name()` from `ui/menus.py`. -/
def read_elevator_floor_name (A : Addrs) (env : Env) : Option Nat × Option String :=
  if A.GSPECIALVAR_0X8005_ADDR = 0 then (Option.none, Option.none)
  else
    let floorIdx := env.mem16 A.GSPECIALVAR_0X8005_ADDR
    if A.SFLOOR_NAME_POINTERS_ADDR = 0 then (Option.some floorIdx, Option.none)
    else
      let tableCount := if A.SFLOOR_NAME_POINTERS_SIZE > 0 then
        A.SFLOOR_NAME_POINTERS_SIZE / 4 else 0
      if tableCount = 0 ∨ floorIdx ≥ tableCount then (Option.some floorIdx, Option.none)
      else
        let ptr := env.mem32 (A.SFLOOR_NAME_POINTERS_ADDR + floorIdx * 4)
        if ptr = 0 then (Option.some floorIdx, Option.none)
        else
          let name := read_gba_cstring env ptr 32
          if name ≠ "" then (Option.some floorIdx, Option.some name)
          else (Option.some floorIdx, Option.none)

/-- `get_elevator_menu_state(...)`: script list-menu path gated by the list
tasks and the Silph Co list id, multichoice path gated by the multichoice
task and the elevator multichoice ids. -/
def get_elevator_menu_state (A : Addrs) (env : Env) (tasksRaw : Option (List Nat))
    (textPrintersRaw gstringvar4Raw gdisplayedRaw : Option (List Nat)) : Option PyDict :=
  let p0 := get_textprinter_text_for_window A env 0 textPrintersRaw gstringvar4Raw
    gdisplayedRaw true
  let _prompt : String :=
    match p0 with
    | Option.some s =>
      if s ≠ "" then s
      else
        let c := read_gba_cstring env A.TEXT_WANT_WHICH_FLOOR_ADDR 128
        if c ≠ "" then c else "Which floor do you want?"
    | Option.none =>
      let c := read_gba_cstring env A.TEXT_WANT_WHICH_FLOOR_ADDR 128
      if c ≠ "" then c else "Which floor do you want?"
  let fromList : Option PyDict :=
    match find_active_task_by_funcs A env A.SCRIPT_LIST_MENU_TASK_FUNCS tasksRaw with
    | Option.none => Option.none
    | Option.some tid =>
      let listMenuType : Int :=
        if A.GSPECIALVAR_0X8004_ADDR ≠ 0 then (env.mem16 A.GSPECIALVAR_0X8004_ADDR : Int)
        else -1
      if listMenuType = LISTMENU_SILPHCO_FLOORS then
        let listTaskId := read_task_data_u16 A env tid
          SCRIPT_LIST_TASK_DATA_LIST_TASK_ID_INDEX tasksRaw
        env.elevatorListBody tid listTaskId
      else Option.none
  match fromList with
  | Option.some d => Option.some d
  | Option.none =>
    match find_active_task_by_func A env A.TASK_HANDLE_MULTICHOICE_INPUT_ADDR tasksRaw with
    | Option.none => Option.none
    | Option.some multiTid =>
      let mcId := s16_from_u16 (read_task_data_u16 A env multiTid 7 tasksRaw)
      if ¬ ELEVATOR_MULTICHOICE_IDS.contains mcId then Option.none
      else env.elevatorMultiBody multiTid mcId

/-- `get_shop_choice_menu_state(tasks_raw, smenu_raw)`: task gate. -/
def get_shop_choice_menu_state (A : Addrs) (env : Env) (tasksRaw : Option (List Nat)) :
    Option PyDict :=
  match find_active_task_by_func A env A.TASK_SHOP_MENU_ADDR tasksRaw with
  | Option.none => Option.none
  | Option.some tid => env.shopChoiceBody tid

/-- `get_multichoice_menu_state(...)`: task gate plus multichoice-id range
check. -/
def get_multichoice_menu_state (A : Addrs) (env : Env) (tasksRaw : Option (List Nat)) :
    Option PyDict :=
  match find_active_task_by_func A env A.TASK_HANDLE_MULTICHOICE_INPUT_ADDR tasksRaw with
  | Option.none => Option.none
  | Option.some tid =>
    let mcId := s16_from_u16 (read_task_data_u16 A env tid 7 tasksRaw)
    if mcId < 0 ∨ mcId > 512 then Option.none
    else env.multichoiceBody tid mcId

/-- `get_new_game_birch_gender_menu_state(...)`: gender task gate. -/
def get_new_game_birch_gender_menu_state (A : Addrs) (env : Env)
    (tasksRaw : Option (List Nat)) (smenuRaw : Option (List Nat)) : Option PyDict :=
  let genderTasks := ([A.TASK_NEW_GAME_BIRCH_SPEECH_CHOOSE_GENDER_ADDR,
    A.TASK_NEW_GAME_BIRCH_SPEECH_SLIDE_OUT_OLD_GENDER_SPRITE_ADDR,
    A.TASK_NEW_GAME_BIRCH_SPEECH_SLIDE_IN_NEW_GENDER_SPRITE_ADDR].filter
      fun a => a != 0).map maskPtr
  if genderTasks.isEmpty then Option.none
  else if ¬ anyTaskInSet A env genderTasks tasksRaw then Option.none
  else env.genderBody (read_menu_cursor_pos A env smenuRaw)

/-- The common result tail of `get_yes_no_menu_state`. -/
def yesNoResult (A : Addrs) (env : Env) (smenuRaw : Option (List Nat)) : PyDict :=
  let cursorPos := read_menu_cursor_pos A env smenuRaw
  let options := ["YES", "NO"]
  let selected : String :=
    if 0 ≤ cursorPos ∧ cursorPos < (options.length : Int) then
      options.getD cursorPos.toNat "" else "UNKNOWN"
  [("type", PyVal.vStr "yesNo"), ("cursorPosition", PyVal.vInt cursorPos),
   ("selectedOption", PyVal.vStr selected),
   ("options", PyVal.vList (options.map PyVal.vStr))]

/-- `get_yes_no_menu_state(...)` — fully embedded: task-driven yes/no menus
plus the window-validated fallback for promptless yes/no boxes. -/
def get_yes_no_menu_state (A : Addrs) (env : Env) (tasksRaw : Option (List Nat))
    (yesnoWindowId : Option Nat) (smenuRaw windowsRaw : Option (List Nat)) : Option PyDict :=
  if (find_active_task_by_func A env A.TASK_HANDLE_YES_NO_INPUT_ADDR tasksRaw).isSome ∨
      (find_active_task_by_func A env A.TASK_CALL_YES_OR_NO_CALLBACK_ADDR tasksRaw).isSome then
    Option.some (yesNoResult A env smenuRaw)
  else
    let wid : Nat :=
      match yesnoWindowId with
      | Option.some w => w
      | Option.none => env.mem8 A.SYESNO_WINDOWID_ADDR
    if wid = A.WINDOW_NONE ∨ wid ≥ 32 then Option.none
    else
      let winBg : Nat :=
        match windowsRaw with
        | Option.some wr => u8_from wr (wid * A.WINDOW_SIZE)
        | Option.none => env.mem8 (A.GWINDOWS_ADDR + wid * A.WINDOW_SIZE)
      let winHeight : Nat :=
        match windowsRaw with
        | Option.some wr => u8_from wr (wid * A.WINDOW_SIZE + 4)
        | Option.none => env.mem8 (A.GWINDOWS_ADDR + wid * A.WINDOW_SIZE + 4)
      if winBg = 0xFF then Option.none
      else if winHeight < 4 then Option.none
      else
        let menuWindowId : Nat :=
          match smenuRaw with
          | Option.some sr => u8_from sr (A.SMENU_WINDOWID_OFFSET : Int)
          | Option.none => env.mem8 (A.SMENU_ADDR + A.SMENU_WINDOWID_OFFSET)
        let minCursor : Int :=
          match smenuRaw with
          | Option.some sr => s8_from_u8 (u8_from sr (A.SMENU_MINCURSORPOS_OFFSET : Int))
          | Option.none => s8_from_u8 (env.mem8 (A.SMENU_ADDR + A.SMENU_MINCURSORPOS_OFFSET))
        let maxCursor : Int :=
          match smenuRaw with
          | Option.some sr => s8_from_u8 (u8_from sr (A.SMENU_MAXCURSORPOS_OFFSET : Int))
          | Option.none => s8_from_u8 (env.mem8 (A.SMENU_ADDR + A.SMENU_MAXCURSORPOS_OFFSET))
        if menuWindowId ≠ wid then Option.none
        else if minCursor ≠ 0 ∨ maxCursor ≠ 1 then Option.none
        else Option.some (yesNoResult A env smenuRaw)

/-! ## The classifier (`ui/dialog.py`, `get_dialog_state` / `_compute`) -/

/-- The `mode` argument of `_compute`. -/
inductive Mode where
  | snapshot
  | slow
deriving DecidableEq

/-- `d.get(k, dflt)`. -/
def PyDict.getDef (d : PyDict) (k : String) (dflt : PyVal) : PyVal :=
  match d.find? fun kv => kv.1 == k with
  | Option.some kv => kv.2
  | Option.none => dflt

/-- `v is not None`. -/
def PyVal.isNotNone : PyVal → Bool
  | .none => false
  | _ => true

/-- Truthiness of an optional string. -/
def truthyOS : Option String → Bool
  | Option.some s => s ≠ ""
  | Option.none => false

/-- Python `s.split()` (whitespace split, empties dropped). -/
def splitWsAux : List Char → List Char → List String → List String
  | [], cur, acc => if cur.isEmpty then acc else acc ++ [⟨cur⟩]
  | c :: rest, cur, acc =>
    if isPyWs c then
      if cur.isEmpty then splitWsAux rest [] acc else splitWsAux rest [] (acc ++ [⟨cur⟩])
    else splitWsAux rest (cur ++ [c]) acc

/-- `_norm_text(s)` from `_compute`: collapse whitespace, strip, lowercase. -/
def norm_text (s : String) : String :=
  (pyStripS (String.intercalate " " (splitWsAux s.data [] []))).toLower

/-- Python `needle in hay` for strings (substring containment). -/
def strContains (hay needle : List Char) : Bool :=
  (List.range (hay.length + 1)).any fun i => needle.isPrefixOf (hay.drop i)

/-- `_append_section_once(base, section)` from `_compute`. -/
def append_section_once (base : PyVal) (sect : String) : PyVal :=
  let sec := pyStripS sect
  if sec = "" then base
  else
    let baseTxt := pyStripS base.strOrEmpty
    if baseTxt = "" then PyVal.vStr sec
    else if strContains (norm_text baseTxt).data (norm_text sec).data then PyVal.vStr baseTxt
    else PyVal.vStr (baseTxt ++ "\n\n" ++ sec)

/-- `_default_result(...)` from `get_dialog_state`: the record returned for
an unrecognised screen. -/
def default_result (fieldLocked window0PrinterActive : Bool) : PyDict :=
  [("inDialog", PyVal.vBool false),
   ("fieldControlsLocked", PyVal.vBool fieldLocked),
   ("textPrinterActive", PyVal.vBool window0PrinterActive),
   ("menuType", PyVal.none),
   ("visibleText", PyVal.none),
   ("allPages", PyVal.none),
   ("currentPage", PyVal.vInt 0),
   ("pageCount", PyVal.vInt 0),
   ("startMenu", PyVal.none),
   ("bagMenu", PyVal.none),
   ("tmCase", PyVal.none),
   ("partyMenu", PyVal.none),
   ("summaryScreen", PyVal.none),
   ("trainerCard", PyVal.none),
   ("optionMenu", PyVal.none),
   ("titleMenu", PyVal.none),
   ("titleScreen", PyVal.none),
   ("saveInfo", PyVal.none),
   ("choiceMenu", PyVal.none),
   ("itemStorage", PyVal.none),
   ("pokemonStorage", PyVal.none),
   ("playerPcMenu", PyVal.none),
   ("berryCrushRankings", PyVal.none),
   ("battleUi", PyVal.none),
   ("pokedex", PyVal.none),
   ("flyMap", PyVal.none),
   ("elevatorMenu", PyVal.none),
   ("controlsGuide", PyVal.none),
   ("pikachuIntro", PyVal.none),
   ("questLogPlayback", PyVal.none),
   ("whiteOutRecovery", PyVal.none)]

/-- `_save_info_window_visible()` from `_compute`. -/
def save_info_window_visible (A : Addrs) (env : Env) (B : Buffers) : Bool :=
  let wid : Nat :=
    match B.save_info_window_id with
    | Option.some w => w
    | Option.none => env.mem8 A.SSAVE_INFO_WINDOWID_ADDR
  wid ≠ A.WINDOW_NONE ∧ wid < 32

/-- `_any_text_printer_active()` from `_compute`. -/
def any_text_printer_active (A : Addrs) (env : Env) (B : Buffers) : Bool :=
  let liveAny : Bool := (List.range 32).any fun i =>
    env.mem8 (A.STEXTPRINTERS_ADDR + i * A.TEXTPRINTER_SIZE + A.TEXTPRINTER_ACTIVE_OFFSET) ≠ 0
  match B.text_printers_raw with
  | Option.some r =>
    if r.length ≥ 32 * A.TEXTPRINTER_SIZE then
      (List.range 32).any fun i =>
        u8_from r (i * A.TEXTPRINTER_SIZE + A.TEXTPRINTER_ACTIVE_OFFSET) ≠ 0
    else liveAny
  | Option.none => liveAny

/-- `_read_save_prompt_fallback()` from `_compute`. -/
def read_save_prompt_fallback (A : Addrs) (env : Env) (B : Buffers) : Option String :=
  let txt := get_textprinter_text_for_window A env 0 B.text_printers_raw B.gstringvar4_raw
    B.gdisplayedstringbattle_raw true
  let step3 : Option String :=
    [A.GTEXT_WOULD_YOU_LIKE_TO_SAVE_THE_GAME_ADDR,
     A.GTEXT_ALREADY_SAVE_FILE_WOULD_LIKE_TO_OVERWRITE_ADDR,
     A.GTEXT_DIFFERENT_GAME_FILE_ADDR].findSome? fun ai =>
      if ai = 0 then Option.none
      else
        let t := decode_gba_string (env.memRange ai 160) 160 true
        if pyStripS t ≠ "" then Option.some (pyStripS t) else Option.none
  let step2 : Option String :=
    let gsv4 := match B.gstringvar4_raw with
      | Option.some r => r
      | Option.none => env.memRange A.GSTRINGVAR4_ADDR 500
    let guess := decode_gba_string gsv4 200 true
    if pyStripS guess ≠ "" then Option.some (pyStripS guess) else step3
  match txt with
  | Option.some s => if pyStripS s ≠ "" then Option.some (pyStripS s) else step2
  | Option.none => step2

/-- `_read_whiteout_recovery_state()` from `_compute`: the whiteout
recovery overlay ("scurried to a POKéMON CENTER"). -/
def read_whiteout_recovery_state (A : Addrs) (env : Env) (B : Buffers) : Option PyDict :=
  if A.TASK_RUSH_INJURED_POKEMON_TO_CENTER_ADDR = 0 then Option.none
  else
    match find_active_task_by_func A env A.TASK_RUSH_INJURED_POKEMON_TO_CENTER_ADDR
        B.tasks_raw with
    | Option.none => Option.none
    | Option.some tid =>
      let state := read_task_data_u16 A env tid 0 B.tasks_raw
      if state ≠ 1 ∧ state ≠ 4 then Option.none
      else
        let windowId := read_task_data_u16 A env tid 1 B.tasks_raw
        let visible0 : Option String :=
          if windowId < 32 ∧ windowId ≠ A.WINDOW_NONE then
            get_textprinter_text_for_window A env windowId B.text_printers_raw
              B.gstringvar4_raw B.gdisplayedstringbattle_raw true
          else Option.none
        let visible1 : Option String :=
          if truthyOS visible0 then visible0
          else
            let gsv4 := match B.gstringvar4_raw with
              | Option.some r => r
              | Option.none => env.memRange A.GSTRINGVAR4_ADDR 500
            let guess := decode_gba_string gsv4 220 true
            if pyStripS guess ≠ "" then Option.some (pyStripS guess) else Option.none
        let visible2 : Option String :=
          if truthyOS visible1 then visible1
          else
            [A.GTEXT_PLAYER_SCURRIED_TO_CENTER_ADDR,
             A.GTEXT_PLAYER_SCURRIED_BACK_HOME_ADDR].findSome? fun ai =>
              if ai = 0 then Option.none
              else
                let t := decode_gba_string (env.memRange ai 180) 180 true
                if pyStripS t ≠ "" then Option.some (pyStripS t) else Option.none
        Option.some
          [("taskId", PyVal.vInt tid), ("state", PyVal.vInt state),
           ("windowId", PyVal.vInt windowId),
           ("visibleText",
             match visible2 with
             | Option.some s => PyVal.vStr s
             | Option.none => PyVal.none)]

/-- The recurring "append a choice menu's option lines under the visible
text" pattern of `_compute` (with a `►` marker on the cursor row). -/
def choiceLines (cm : PyDict) : List String :=
  let cursor := (cm.getDef "cursorPosition" (PyVal.vInt 0)).intOr0
  let options := match (cm.get "options").asList with
    | Option.some l => l
    | Option.none => []
  (options.zip (List.range options.length)).map fun oi =>
    (if (oi.2 : Int) = cursor then "►" else " ") ++ oi.1.pyStr

/-- Append joined choice lines below the current `visibleText` (used by the
storage / item-storage / bag / party / fallback branches). -/
def appendChoiceText (result : PyDict) (lines : List String) : PyDict :=
  let ct := String.intercalate "\n" lines
  if ct = "" then result
  else if (result.get "visibleText").truthy then
    result.set "visibleText"
      (PyVal.vStr ((result.get "visibleText").strOrEmpty ++ "\n\n" ++ ct))
  else result.set "visibleText" (PyVal.vStr ct)

/-- The "find which dialog page matches the visible text" loop of
`_compute` (first match wins). -/
def findPageIdx (pages : List PyVal) (txt : String) : Option Nat :=
  (List.range pages.length).find? fun i =>
    pyStripS txt == pyStripS (pages.getD i PyVal.none).pyStr

/-- Python `a or b` over detector results (a dict result is falsy only when
empty). -/
def pyOr (a b : Option PyDict) : Option PyDict :=
  match a with
  | Option.some d => if d.isEmpty then b else Option.some d
  | Option.none => b

/-- The arguments `_compute`'s detector cascade threads through every step. -/
structure CCtx where
  B : Buffers
  mode : Mode
  cb2 : Nat
  inDialog : Bool
  dialogReadSafe : Bool

/-- The final fall-through of `_compute` (lines 1203–1315): text-printer
scan, save-info window, dialog pages, and the generic choice-menu chain. -/
def chFinal (A : Addrs) (env : Env) (c : CCtx) (result : PyDict) : PyDict :=
  let visible := find_active_textprinter_text A env c.B.text_printers_raw
    c.B.gstringvar4_raw c.B.gdisplayedstringbattle_raw c.dialogReadSafe
  let r1 := if truthyOS visible then
    result.set "visibleText" (PyVal.vStr (visible.getD "")) else result
  let r2 :=
    if save_info_window_visible A env c.B then
      match env.saveInfoWindow with
      | Option.some si =>
        let r := r1.set "saveInfo" (PyVal.vDict si)
        match (si.get "visibleText").asStr with
        | Option.some s =>
          if s ≠ "" then
            if (r.get "visibleText").truthy then
              r.set "visibleText" (PyVal.vStr (s ++ "\n\n" ++ (r.get "visibleText").strOrEmpty))
            else r.set "visibleText" (PyVal.vStr s)
          else r
        | Option.none => r
      | Option.none => r1
    else r1
  let r3 :=
    if c.dialogReadSafe then
      match get_full_dialog_text A env c.B.gstringvar4_raw with
      | Option.some dd =>
        let r := (r2.set "allPages" (dd.get "pages")).set "pageCount" (dd.get "pageCount")
        let pagesL := match (dd.get "pages").asList with
          | Option.some l => l
          | Option.none => []
        if truthyOS visible ∧ (dd.get "pages").truthy then
          match findPageIdx pagesL (visible.getD "") with
          | Option.some i => r.set "currentPage" (PyVal.vInt (i + 1))
          | Option.none => r
        else r
      | Option.none => r2
    else r2
  let choiceMenu := pyOr (get_shop_choice_menu_state A env c.B.tasks_raw)
    (pyOr (get_multichoice_menu_state A env c.B.tasks_raw)
      (pyOr (get_yes_no_menu_state A env c.B.tasks_raw c.B.yesno_window_id c.B.smenu_raw
          c.B.windows_raw)
        (pyOr (get_new_game_birch_gender_menu_state A env c.B.tasks_raw c.B.smenu_raw)
          (get_player_pc_menu_state A env c.B.tasks_raw))))
  let r7 : PyDict :=
    match choiceMenu with
    | Option.none => r3
    | Option.some cm =>
      let r4 := r3.set "choiceMenu" (PyVal.vDict cm)
      let promptOk : Option String :=
        match (cm.get "promptText").asStr with
        | Option.some p => if p ≠ "" then Option.some p else Option.none
        | Option.none => Option.none
      let r5 :=
        match promptOk with
        | Option.some p =>
          if (cm.get "type").asStr = Option.some "multichoice" ∧
              (cm.get "multichoiceId").intOr0 = (A.MULTI_PC : Int) then
            r4.set "visibleText" (PyVal.vStr p)
          else if ¬ (r4.get "visibleText").truthy then r4.set "visibleText" (PyVal.vStr p)
          else r4
        | Option.none =>
          if (cm.get "type").strOrEmpty = "yesNo" ∧ save_info_window_visible A env c.B then
            match read_save_prompt_fallback A env c.B with
            | Option.some sp =>
              r4.set "visibleText" (append_section_once (r4.get "visibleText") sp)
            | Option.none => r4
          else r4
      let r6 :=
        if c.mode = Mode.snapshot ∧ ¬ (r5.get "visibleText").truthy then
          let pv := find_active_textprinter_text A env c.B.text_printers_raw
            c.B.gstringvar4_raw c.B.gdisplayedstringbattle_raw true
          if truthyOS pv then r5.set "visibleText" (PyVal.vStr (pv.getD ""))
          else
            let guess := match c.B.gstringvar4_raw with
              | Option.some g => if ¬ g.isEmpty then decode_gba_string g 200 true else ""
              | Option.none => ""
            if guess ≠ "" then r5.set "visibleText" (PyVal.vStr guess) else r5
        else r5
      appendChoiceText r6 (choiceLines cm)
  let pagesV := r7.get "allPages"
  let r8 : PyDict :=
    if ¬ (r7.get "visibleText").truthy then
      match pagesV.asList with
      | Option.some l =>
        if ¬ l.isEmpty then
          let current := (r7.get "currentPage").intOr0
          let idx : Nat := if 0 < current ∧ current ≤ (l.length : Int) then
            (current - 1).toNat else 0
          r7.set "visibleText" (l.getD idx PyVal.none)
        else r7
      | Option.none => r7
    else r7
  let r9 : PyDict :=
    if (r8.get "pageCount").intOr0 = 1 ∧ (r8.get "currentPage").intOr0 = 0 then
      r8.set "currentPage" (PyVal.vInt 1)
    else r8
  let hasEvidence : Bool := (r9.get "visibleText").truthy || (r9.get "choiceMenu").truthy ||
    (r9.get "saveInfo").truthy
  if c.inDialog || hasEvidence then
    (r9.set "inDialog" (PyVal.vBool true)).set "menuType" (PyVal.vStr "dialog")
  else r9

/-- The in-battle branch of `_compute` (lines 1085–1201): battle text plus
`_detect_battle_ui_state`. -/
def chBattle (A : Addrs) (env : Env) (c : CCtx) (result : PyDict) : PyDict :=
  if ¬ c.B.in_battle then chFinal A env c result
  else
    let battleText0 : Option String :=
      if c.mode = Mode.snapshot then
        find_active_textprinter_text A env c.B.text_printers_raw c.B.gstringvar4_raw
          c.B.gdisplayedstringbattle_raw true
      else find_active_textprinter_text A env Option.none Option.none Option.none true
    let battleText : Option String :=
      if truthyOS battleText0 then battleText0
      else decode_battle_displayed_string A env c.B.gdisplayedstringbattle_raw
    let battleTypeFlags : Nat :=
      match c.B.battle_type_flags_raw with
      | Option.some r => if r.length ≥ 4 then u32le_from r 0
        else env.mem32 A.GBATTLETYPEFLAGS_ADDR
      | Option.none => env.mem32 A.GBATTLETYPEFLAGS_ADDR
    let battlersCount : Nat :=
      match c.B.battlers_count_raw with
      | Option.some r => if r.length ≥ 1 then r.getD 0 0 else env.mem8 A.GBATTLERSCOUNT_ADDR
      | Option.none => env.mem8 A.GBATTLERSCOUNT_ADDR
    let absentFlags : Nat :=
      match c.B.absent_battlers_raw with
      | Option.some r => if r.length ≥ 1 then r.getD 0 0
        else env.mem8 A.GABSENTBATTLERFLAGS_ADDR
      | Option.none => env.mem8 A.GABSENTBATTLERFLAGS_ADDR
    let positions : List Nat :=
      match c.B.battler_positions_raw with
      | Option.some r => if r.length ≥ A.BATTLE_MAX_BATTLERS then r.take A.BATTLE_MAX_BATTLERS
        else env.memRange A.GBATTLERPOSITIONS_ADDR A.BATTLE_MAX_BATTLERS
      | Option.none => env.memRange A.GBATTLERPOSITIONS_ADDR A.BATTLE_MAX_BATTLERS
    let battleMonsRaw : List Nat :=
      match c.B.battle_mons_raw with
      | Option.some r => if r.length ≥ A.GBATTLEMONS_SIZE then r
        else env.memRange A.GBATTLEMONS_ADDR A.GBATTLEMONS_SIZE
      | Option.none => env.memRange A.GBATTLEMONS_ADDR A.GBATTLEMONS_SIZE
    let activeBattler : Nat :=
      match c.B.active_battler_raw with
      | Option.some r => if r.length ≥ 1 then r.getD 0 0 else env.mem8 A.GACTIVEBATTLER_ADDR
      | Option.none => env.mem8 A.GACTIVEBATTLER_ADDR
    let controllerFuncsRaw : List Nat :=
      match c.B.battler_controller_funcs_raw with
      | Option.some r => if r.length ≥ A.BATTLE_MAX_BATTLERS * 4 then r
        else env.memRange A.GBATTLERCONTROLLERFUNCS_ADDR (A.BATTLE_MAX_BATTLERS * 4)
      | Option.none => env.memRange A.GBATTLERCONTROLLERFUNCS_ADDR (A.BATTLE_MAX_BATTLERS * 4)
    let actionCursors : List Nat :=
      match c.B.action_selection_cursor_raw with
      | Option.some r => if r.length ≥ A.BATTLE_MAX_BATTLERS then r
        else env.memRange A.GACTIONSELECTIONCURSOR_ADDR A.BATTLE_MAX_BATTLERS
      | Option.none => env.memRange A.GACTIONSELECTIONCURSOR_ADDR A.BATTLE_MAX_BATTLERS
    let moveCursors : List Nat :=
      match c.B.move_selection_cursor_raw with
      | Option.some r => if r.length ≥ A.BATTLE_MAX_BATTLERS then r
        else env.memRange A.GMOVESELECTIONCURSOR_ADDR A.BATTLE_MAX_BATTLERS
      | Option.none => env.memRange A.GMOVESELECTIONCURSOR_ADDR A.BATTLE_MAX_BATTLERS
    let multiCursor : Nat :=
      match c.B.multi_use_player_cursor_raw with
      | Option.some r => if r.length ≥ 1 then r.getD 0 0
        else env.mem8 A.GMULTIUSEPLAYERCURSOR_ADDR
      | Option.none => env.mem8 A.GMULTIUSEPLAYERCURSOR_ADDR
    let bg0Y : Nat :=
      match c.B.battle_bg0_y_raw with
      | Option.some r => if r.length ≥ 2 then u16le_from r 0 else env.mem16 A.GBATTLE_BG0_Y_ADDR
      | Option.none => env.mem16 A.GBATTLE_BG0_Y_ADDR
    let uiState := detect_battle_ui_state A env battleTypeFlags battlersCount absentFlags
      positions battleMonsRaw activeBattler controllerFuncsRaw actionCursors moveCursors
      multiCursor (Option.some bg0Y) c.B.battle_script_curr_instr_raw
      c.B.battle_communication_raw
    let lines0 : List String :=
      match battleText with
      | Option.some t => if t ≠ "" then [t] else []
      | Option.none => []
    match uiState with
    | Option.some u =>
      let r1 := result.set "battleUi" (PyVal.vDict u)
      let r2 := r1.set "menuType" (u.get "type")
      let r3 := r2.set "choiceMenu" (PyVal.vDict
        [("type", u.get "type"),
         ("cursorPosition", u.getDef "cursorPosition" (PyVal.vInt 0)),
         ("selectedOption", u.get "selectedOption"),
         ("options", u.getDef "options" (PyVal.vList []))])
      let menuLines := format_battle_ui_lines u
      let lines :=
        if ¬ menuLines.isEmpty then
          if ¬ lines0.isEmpty then lines0 ++ [""] ++ menuLines else lines0 ++ menuLines
        else lines0
      if ¬ lines.isEmpty then
        r3.set "visibleText" (PyVal.vStr (String.intercalate "\n" lines))
      else r3
    | Option.none =>
      let r1 := result.set "menuType" (PyVal.vStr "battle")
      if ¬ lines0.isEmpty then
        r1.set "visibleText" (PyVal.vStr (String.intercalate "\n" lines0))
      else r1

/-- The slow-mode generic choice-menu block of `_compute` (lines 1007–1083);
in slow mode with no dialog evidence it always returns here. -/
def chSlowBlock (A : Addrs) (env : Env) (c : CCtx) (result : PyDict) : PyDict :=
  if ¬ (c.mode = Mode.slow ∧ ¬ c.inDialog) then chBattle A env c result
  else
    let choiceMenu := pyOr (get_shop_choice_menu_state A env c.B.tasks_raw)
      (pyOr (get_multichoice_menu_state A env c.B.tasks_raw)
        (pyOr (get_yes_no_menu_state A env c.B.tasks_raw c.B.yesno_window_id c.B.smenu_raw
            c.B.windows_raw)
          (get_player_pc_menu_state A env c.B.tasks_raw)))
    match choiceMenu with
    | Option.none => result
    | Option.some cm =>
      let r1 := ((result.set "inDialog" (PyVal.vBool true)).set "menuType"
        (PyVal.vStr "dialog")).set "choiceMenu" (PyVal.vDict cm)
      let visible := find_active_textprinter_text A env Option.none Option.none Option.none
        true
      let r2 :=
        if truthyOS visible then r1.set "visibleText" (PyVal.vStr (visible.getD ""))
        else
          let guess := match c.B.gstringvar4_raw with
            | Option.some g => decode_gba_string g 200 true
            | Option.none => decode_gba_string (env.memRange A.GSTRINGVAR4_ADDR 500) 200 true
          if guess ≠ "" then r1.set "visibleText" (PyVal.vStr guess) else r1
      let promptOk : Option String :=
        match (cm.get "promptText").asStr with
        | Option.some p => if p ≠ "" then Option.some p else Option.none
        | Option.none => Option.none
      let r3 :=
        match promptOk with
        | Option.some p =>
          if (r2.get "visibleText").truthy then
            r2.set "visibleText"
              (PyVal.vStr ((r2.get "visibleText").strOrEmpty ++ "\n\n" ++ p))
          else r2.set "visibleText" (PyVal.vStr p)
        | Option.none =>
          if (cm.get "type").strOrEmpty = "yesNo" ∧ save_info_window_visible A env c.B then
            match read_save_prompt_fallback A env c.B with
            | Option.some sp =>
              r2.set "visibleText" (append_section_once (r2.get "visibleText") sp)
            | Option.none => r2
          else r2
      let r4 := appendChoiceText r3 (choiceLines cm)
      if save_info_window_visible A env c.B then
        match env.saveInfoWindow with
        | Option.some si =>
          let r5 := r4.set "saveInfo" (PyVal.vDict si)
          match (si.get "visibleText").asStr with
          | Option.some s =>
            if s ≠ "" then
              if (r5.get "visibleText").truthy then
                r5.set "visibleText"
                  (PyVal.vStr (s ++ "\n\n" ++ (r5.get "visibleText").strOrEmpty))
              else r5.set "visibleText" (PyVal.vStr s)
            else r5
          | Option.none => r5
        | Option.none => r4
      else r4

/-- The whiteout-recovery step of the cascade (lines 990–1005). -/
def chWhiteout (A : Addrs) (env : Env) (c : CCtx) (result : PyDict) : PyDict :=
  match read_whiteout_recovery_state A env c.B with
  | Option.none => chSlowBlock A env c result
  | Option.some w =>
    let r1 := ((result.set "inDialog" (PyVal.vBool true)).set "menuType"
      (PyVal.vStr "dialog")).set "whiteOutRecovery" (PyVal.vDict w)
    let r2 :=
      match (w.get "visibleText").asStr with
      | Option.some s =>
        if pyStripS s ≠ "" then r1.set "visibleText" (PyVal.vStr (pyStripS s)) else r1
      | Option.none => r1
    match get_full_dialog_text A env c.B.gstringvar4_raw with
    | Option.some dd =>
      let r := (r2.set "allPages" (dd.get "pages")).set "pageCount" (dd.get "pageCount")
      if (r.get "currentPage").intOr0 = 0 ∧ (r.get "pageCount").intOr0 > 0 then
        r.set "currentPage" (PyVal.vInt 1)
      else r
    | Option.none => r2

/-- The elevator-menu step of the cascade (lines 975–988). -/
def chElevator (A : Addrs) (env : Env) (c : CCtx) (result : PyDict) : PyDict :=
  match get_elevator_menu_state A env c.B.tasks_raw c.B.text_printers_raw
      c.B.gstringvar4_raw c.B.gdisplayedstringbattle_raw with
  | Option.none => chWhiteout A env c result
  | Option.some e =>
    ((((result.set "menuType" (PyVal.vStr "elevatorMenu")).set "inDialog"
      (PyVal.vBool true)).set "choiceMenu" (PyVal.vDict e)).set "elevatorMenu"
      (PyVal.vDict e)).set "visibleText" (e.get "visibleText")

/-- Summary move-replace step (lines 966–973). -/
def chSummaryMove (A : Addrs) (env : Env) (c : CCtx) (result : PyDict) : PyDict :=
  match get_pokemon_summary_select_move_state A env c.cb2 with
  | Option.none => chElevator A env c result
  | Option.some s =>
    ((((result.set "menuType" (PyVal.vStr "summaryMoveReplace")).set "inDialog"
      (PyVal.vBool true)).set "summaryScreen" (PyVal.vDict s)).set "choiceMenu"
      (s.get "choiceMenu")).set "visibleText" (s.get "visibleText")

/-- Summary-screen step (lines 952–964). -/
def chSummary (A : Addrs) (env : Env) (c : CCtx) (result : PyDict) : PyDict :=
  match get_pokemon_summary_state A env c.cb2 with
  | Option.none => chSummaryMove A env c result
  | Option.some s =>
    ((((result.set "menuType" (PyVal.vStr "summaryScreen")).set "inDialog"
      (PyVal.vBool true)).set "summaryScreen" (PyVal.vDict s)).set "choiceMenu"
      (s.get "choiceMenu")).set "visibleText" (s.get "visibleText")

/-- Shop buy-menu step (lines 944–950). -/
def chShopBuy (A : Addrs) (env : Env) (c : CCtx) (result : PyDict) : PyDict :=
  match get_shop_buy_menu_state A env c.cb2 c.B.tasks_raw with
  | Option.none => chSummary A env c result
  | Option.some sb =>
    (((result.set "menuType" (PyVal.vStr "shopBuyMenu")).set "inDialog"
      (PyVal.vBool true)).set "choiceMenu" (PyVal.vDict sb)).set "visibleText"
      (sb.get "visibleText")

/-- Party-menu step (lines 882–942), including its yes/no overlay and
dialog-page context. -/
def chParty (A : Addrs) (env : Env) (c : CCtx) (result : PyDict) : PyDict :=
  match get_party_menu_state A env c.cb2 with
  | Option.none => chShopBuy A env c result
  | Option.some pm =>
    let r1 := ((result.set "menuType" (PyVal.vStr "partyMenu")).set "inDialog"
      (PyVal.vBool true)).set "partyMenu" (PyVal.vDict pm)
    let yesno := get_yes_no_menu_state A env c.B.tasks_raw c.B.yesno_window_id
      c.B.smenu_raw c.B.windows_raw
    let r2 :=
      match yesno with
      | Option.some ym => r1.set "choiceMenu" (PyVal.vDict ym)
      | Option.none => r1.set "choiceMenu" (pm.get "actionMenu")
    let r3 := r2.set "visibleText" (pm.get "visibleText")
    let r4 : PyDict :=
      match get_full_dialog_text A env c.B.gstringvar4_raw with
      | Option.some dd =>
        let r := (r3.set "allPages" (dd.get "pages")).set "pageCount" (dd.get "pageCount")
        let pagesL := match (dd.get "pages").asList with
          | Option.some l => l
          | Option.none => []
        let r' :=
          match (pm.get "bottomText").asStr with
          | Option.some bt =>
            if bt ≠ "" ∧ ((dd.get "pages").asList).isSome then
              match findPageIdx pagesL bt with
              | Option.some i => r.set "currentPage" (PyVal.vInt (i + 1))
              | Option.none => r
            else r
          | Option.none => r
        if (r'.get "pageCount").intOr0 = 1 ∧ (r'.get "currentPage").intOr0 = 0 then
          r'.set "currentPage" (PyVal.vInt 1)
        else r'
      | Option.none => r3
    match yesno with
    | Option.some ym => appendChoiceText r4 (choiceLines ym)
    | Option.none => r4

/-- Title-menu step (lines 870–880). -/
def chTitleMenu (A : Addrs) (env : Env) (c : CCtx) (result : PyDict) : PyDict :=
  match get_title_menu_state A env c.cb2 c.B.tasks_raw with
  | Option.none => chParty A env c result
  | Option.some tm =>
    let r1 := ((result.set "menuType" (PyVal.vStr "titleMenu")).set "inDialog"
      (PyVal.vBool true)).set "titleMenu" (PyVal.vDict tm)
    let opts := match (tm.getDef "options" (PyVal.vList [])).asList with
      | Option.some l => l
      | Option.none => []
    let lines := opts.map fun o =>
      let od := match o.asDict with
        | Option.some d => d
        | Option.none => []
      pyRstrip ((if (od.get "selected").truthy then "►" else "") ++
        (od.getDef "name" (PyVal.vStr "")).pyStr)
    r1.set "visibleText" (PyVal.vStr (String.intercalate "\n" (lines.filter fun l => l ≠ "")))

/-- Option-menu step (lines 852–868). -/
def chOption (A : Addrs) (env : Env) (c : CCtx) (result : PyDict) : PyDict :=
  match get_option_menu_state A env c.cb2 c.B.tasks_raw with
  | Option.none => chTitleMenu A env c result
  | Option.some om =>
    let r1 := ((result.set "menuType" (PyVal.vStr "optionMenu")).set "inDialog"
      (PyVal.vBool true)).set "optionMenu" (PyVal.vDict om)
    let cursor := (om.getDef "cursorPosition" (PyVal.vInt 0)).toInt
    let mark : Int → String := fun k => if cursor = k then "►" else " "
    let lines :=
      [mark 0 ++ "TEXT SPEED: " ++ (om.get "textSpeed").pyStr,
       mark 1 ++ "BATTLE SCENE: " ++ (om.get "battleScene").pyStr,
       mark 2 ++ "BATTLE STYLE: " ++ (om.get "battleStyle").pyStr,
       mark 3 ++ "SOUND: " ++ (om.get "sound").pyStr,
       mark 4 ++ "BUTTON MODE: " ++ (om.get "buttonMode").pyStr,
       mark 5 ++ "FRAME: TYPE" ++ (om.get "frameType").pyStr,
       mark 6 ++ "CANCEL"]
    r1.set "visibleText" (PyVal.vStr ("OPTION\n" ++ String.intercalate "\n" lines))

/-- Trainer-card step (lines 836–850). -/
def chTrainer (A : Addrs) (env : Env) (c : CCtx) (result : PyDict) : PyDict :=
  match get_trainer_card_state A env c.cb2 with
  | Option.none => chOption A env c result
  | Option.some tc =>
    let r1 := ((result.set "menuType" (PyVal.vStr "trainerCard")).set "inDialog"
      (PyVal.vBool true)).set "trainerCard" (PyVal.vDict tc)
    let badgeStr := (tc.get "badgeCount").pyStr ++ "/8 badges"
    r1.set "visibleText" (PyVal.vStr
      ("TRAINER CARD\n" ++ "IDNo." ++ (tc.get "trainerIdFormatted").pyStr ++ "\n" ++
       "NAME: " ++ (tc.get "playerName").pyStr ++ "\n" ++
       "MONEY: " ++ (tc.get "moneyFormatted").pyStr ++ "\n" ++
       "TIME: " ++ (tc.get "playTime").pyStr ++ "\n" ++
       "BADGES: " ++ badgeStr))

/-- Bag-menu step (lines 735–834): bag list, item-message window,
dialog-page context and stacked yes/no. -/
def chBag (A : Addrs) (env : Env) (c : CCtx) (result : PyDict) : PyDict :=
  match get_bag_menu_state A env c.cb2 with
  | Option.none => chTrainer A env c result
  | Option.some bm =>
    let r1 := ((((result.set "menuType" (PyVal.vStr "bagMenu")).set "inDialog"
      (PyVal.vBool true)).set "bagMenu" (PyVal.vDict bm)).set "choiceMenu"
      (bm.get "contextMenu")).set "visibleText" (bm.get "visibleText")
    let mwid : Option Int :=
      match (bm.get "messageWindowId").asInt with
      | Option.some w =>
        if w ≠ (A.WINDOW_NONE : Int) ∧ 0 ≤ w ∧ w < 32 then Option.some w else Option.none
      | Option.none => Option.none
    let messageText0 : Option String :=
      match mwid with
      | Option.some w =>
        get_textprinter_text_for_window A env w c.B.text_printers_raw c.B.gstringvar4_raw
          c.B.gdisplayedstringbattle_raw true
      | Option.none => Option.none
    let dialogData : Option PyDict :=
      match mwid with
      | Option.some _ => get_full_dialog_text A env c.B.gstringvar4_raw
      | Option.none => Option.none
    let r2 : PyDict :=
      match mwid, dialogData with
      | Option.some _, Option.some dd =>
        (r1.set "allPages" (dd.get "pages")).set "pageCount" (dd.get "pageCount")
      | _, _ => r1
    let yesno := get_yes_no_menu_state A env c.B.tasks_raw c.B.yesno_window_id
      c.B.smenu_raw c.B.windows_raw
    let r3 :=
      match yesno with
      | Option.some ym => r2.set "choiceMenu" (PyVal.vDict ym)
      | Option.none => r2
    let pagesL : List PyVal :=
      match dialogData with
      | Option.some dd =>
        match (dd.get "pages").asList with
        | Option.some l => l
        | Option.none => []
      | Option.none => []
    let mtr : Option String × PyDict :=
      match mwid with
      | Option.none => (messageText0, r3)
      | Option.some _ =>
        if ¬ truthyOS messageText0 then
          if ¬ pagesL.isEmpty then
            if yesno.isSome then
              (Option.some (pagesL.getLastD PyVal.none).pyStr,
                r3.set "currentPage" (PyVal.vInt pagesL.length))
            else
              (Option.some (pagesL.headD PyVal.none).pyStr,
                r3.set "currentPage" (PyVal.vInt 1))
          else
            let gsv4 := match c.B.gstringvar4_raw with
              | Option.some g => if ¬ g.isEmpty then g else env.memRange A.GSTRINGVAR4_ADDR 500
              | Option.none => env.memRange A.GSTRINGVAR4_ADDR 500
            let guess := decode_gba_string gsv4 200 true
            let mt := if guess ≠ "" then Option.some guess else Option.none
            if truthyOS mt ∧ (r3.get "pageCount").intOr0 = 1 then
              (mt, r3.set "currentPage" (PyVal.vInt 1))
            else (mt, r3)
        else (messageText0, r3)
    let r4 : PyDict :=
      match mwid with
      | Option.none => mtr.2
      | Option.some _ =>
        let r := if truthyOS mtr.1 then
          mtr.2.set "visibleText" (PyVal.vStr (mtr.1.getD "")) else mtr.2
        let r' :=
          if truthyOS mtr.1 ∧ (r.get "currentPage").intOr0 = 0 then
            if ¬ pagesL.isEmpty then
              match findPageIdx pagesL (mtr.1.getD "") with
              | Option.some i => r.set "currentPage" (PyVal.vInt (i + 1))
              | Option.none => r
            else r
          else r
        if (r'.get "pageCount").intOr0 = 1 ∧ (r'.get "currentPage").intOr0 = 0 then
          r'.set "currentPage" (PyVal.vInt 1)
        else r'
    match yesno with
    | Option.some ym => appendChoiceText r4 (choiceLines ym)
    | Option.none => r4

/-- TM-case step (lines 721–733). -/
def chTmCase (A : Addrs) (env : Env) (c : CCtx) (result : PyDict) : PyDict :=
  match get_tm_case_state A env c.cb2 with
  | Option.none => chBag A env c result
  | Option.some tm =>
    ((((result.set "menuType" (PyVal.vStr "tmCase")).set "inDialog"
      (PyVal.vBool true)).set "tmCase" (PyVal.vDict tm)).set "choiceMenu"
      (tm.get "contextMenu")).set "visibleText" (tm.get "visibleText")

/-- Start-menu step (lines 703–719). -/
def chStart (A : Addrs) (env : Env) (c : CCtx) (result : PyDict) : PyDict :=
  match get_start_menu_state A env c.B.tasks_raw c.B.start_menu_window_id
      c.B.start_menu_num_actions with
  | Option.none => chTmCase A env c result
  | Option.some sm =>
    let r1 := ((result.set "menuType" (PyVal.vStr "startMenu")).set "inDialog"
      (PyVal.vBool true)).set "startMenu" (PyVal.vDict sm)
    let opts := match (sm.getDef "options" (PyVal.vList [])).asList with
      | Option.some l => l
      | Option.none => []
    let lines := opts.map fun o =>
      let od := match o.asDict with
        | Option.some d => d
        | Option.none => []
      (if (od.get "selected").truthy then "►" else "") ++ (od.getDef "name" (PyVal.vStr "")).pyStr
    r1.set "visibleText" (PyVal.vStr (String.intercalate "\n" lines))

/-- Item-storage main-menu step (lines 694–701). -/
def chItemMenu (A : Addrs) (env : Env) (c : CCtx) (result : PyDict) : PyDict :=
  match get_item_storage_menu_state A env c.B.tasks_raw with
  | Option.none => chStart A env c result
  | Option.some im =>
    ((((result.set "inDialog" (PyVal.vBool true)).set "menuType"
      (PyVal.vStr "itemStorageMenu")).set "itemStorage" (PyVal.vDict im)).set "choiceMenu"
      (PyVal.vDict im)).set "visibleText" (im.get "visibleText")

/-- Item-storage list step (lines 652–692), with its context menu and the
toss-confirmation yes/no. -/
def chItemList (A : Addrs) (env : Env) (c : CCtx) (result : PyDict) : PyDict :=
  match get_item_storage_list_state A env c.B.tasks_raw c.B.item_storage_menu_ptr_raw with
  | Option.none => chItemMenu A env c result
  | Option.some il =>
    let r1 := (((result.set "inDialog" (PyVal.vBool true)).set "menuType"
      (PyVal.vStr "itemStorageList")).set "itemStorage" (PyVal.vDict il)).set "visibleText"
      (il.get "visibleText")
    let r2 :=
      match (il.get "contextMenu").asDict with
      | Option.some cmd => r1.set "choiceMenu" (PyVal.vDict cmd)
      | Option.none => r1
    match get_yes_no_menu_state A env c.B.tasks_raw c.B.yesno_window_id c.B.smenu_raw
        c.B.windows_raw with
    | Option.some ym =>
      appendChoiceText (r2.set "choiceMenu" (PyVal.vDict ym)) (choiceLines ym)
    | Option.none => r2

/-- Player-PC menu step (lines 643–650). -/
def chPlayerPc (A : Addrs) (env : Env) (c : CCtx) (result : PyDict) : PyDict :=
  match get_player_pc_menu_state A env c.B.tasks_raw with
  | Option.none => chItemList A env c result
  | Option.some pc =>
    ((((result.set "inDialog" (PyVal.vBool true)).set "menuType"
      (PyVal.vStr "playerPcMenu")).set "choiceMenu" (PyVal.vDict pc)).set "playerPcMenu"
      (PyVal.vDict pc)).set "visibleText" (pc.get "visibleText")

/-- Storage-system PC main-menu step (lines 635–641). -/
def chStoragePc (A : Addrs) (env : Env) (c : CCtx) (result : PyDict) : PyDict :=
  match get_pokemon_storage_pc_menu_state A env c.B.tasks_raw with
  | Option.none => chPlayerPc A env c result
  | Option.some pc =>
    (((result.set "inDialog" (PyVal.vBool true)).set "menuType"
      (PyVal.vStr "pokemonStoragePcMenu")).set "choiceMenu" (PyVal.vDict pc)).set
      "visibleText" (pc.get "visibleText")

/-- Berry-crush rankings step (lines 627–633). -/
def chBerry (A : Addrs) (env : Env) (c : CCtx) (result : PyDict) : PyDict :=
  match get_berry_crush_rankings_state A env c.B.tasks_raw with
  | Option.none => chStoragePc A env c result
  | Option.some bc =>
    (((result.set "inDialog" (PyVal.vBool true)).set "menuType"
      (PyVal.vStr "berryCrushRankings")).set "berryCrushRankings" (PyVal.vDict bc)).set
      "visibleText" (bc.get "visibleText")

/-- Pokémon-storage (box UI) step (lines 584–625). -/
def chPokeStorage (A : Addrs) (env : Env) (c : CCtx) (result : PyDict) : PyDict :=
  match get_pokemon_storage_system_state A env c.cb2 c.B.poke_storage_ptr_raw with
  | Option.none => chBerry A env c result
  | Option.some ps =>
    let r1 := (((result.set "inDialog" (PyVal.vBool true)).set "menuType"
      (PyVal.vStr "pokemonStorage")).set "pokemonStorage" (PyVal.vDict ps)).set
      "visibleText" (ps.get "visibleText")
    let r2 :=
      if (ps.get "actionMenu").isNotNone then r1.set "choiceMenu" (ps.get "actionMenu")
      else r1
    match get_yes_no_menu_state A env c.B.tasks_raw c.B.yesno_window_id c.B.smenu_raw
        c.B.windows_raw with
    | Option.some ym =>
      appendChoiceText (r2.set "choiceMenu" (PyVal.vDict ym)) (choiceLines ym)
    | Option.none => r2

/-- Pokédex step (lines 570–582). -/
def chPokedex (A : Addrs) (env : Env) (c : CCtx) (result : PyDict) : PyDict :=
  match get_pokedex_state A env c.cb2 with
  | Option.none => chPokeStorage A env c result
  | Option.some pd =>
    ((((result.set "inDialog" (PyVal.vBool true)).set "menuType"
      (PyVal.vStr "pokedex")).set "pokedex" (PyVal.vDict pd)).set "choiceMenu"
      (pd.get "choiceMenu")).set "visibleText" (pd.get "visibleText")

/-- Fly-map step (lines 556–568). -/
def chFly (A : Addrs) (env : Env) (c : CCtx) (result : PyDict) : PyDict :=
  match get_fly_map_state A env c.cb2 with
  | Option.none => chPokedex A env c result
  | Option.some fm =>
    (((result.set "inDialog" (PyVal.vBool true)).set "menuType"
      (PyVal.vStr "flyMap")).set "flyMap" (PyVal.vDict fm)).set "visibleText"
      (fm.get "visibleText")

/-- Quest-log playback step (lines 541–554). -/
def chQuest (A : Addrs) (env : Env) (c : CCtx) (result : PyDict) : PyDict :=
  match get_quest_log_playback_state A env c.B.quest_log_state_raw
      c.B.quest_log_playback_state_raw c.B.quest_log_window_ids_raw with
  | Option.none => chFly A env c result
  | Option.some ql =>
    (((result.set "inDialog" (PyVal.vBool true)).set "menuType"
      (PyVal.vStr "questLogPlayback")).set "questLogPlayback" (PyVal.vDict ql)).set
      "visibleText" (ql.get "visibleText")

/-- Pikachu-intro step (lines 525–539). -/
def chPikachu (A : Addrs) (env : Env) (c : CCtx) (result : PyDict) : PyDict :=
  match get_pikachu_intro_state A env c.B.tasks_raw with
  | Option.none => chQuest A env c result
  | Option.some pi2 =>
    let r1 := (((((result.set "inDialog" (PyVal.vBool true)).set "menuType"
      (PyVal.vStr "pikachuIntro")).set "pikachuIntro" (PyVal.vDict pi2)).set "visibleText"
      (pi2.get "visibleText")).set "allPages" (pi2.get "allPages")).set "pageCount"
      (PyVal.vInt (pi2.get "pageCount").intOr0)
    let pageD := let pv := pi2.get "page"
      if pv.truthy then
        match pv.asDict with
        | Option.some d => d
        | Option.none => []
      else []
    r1.set "currentPage" (PyVal.vInt (PyDict.get pageD "number").intOr0)

/-- Controls-guide step (lines 514–523). -/
def chControls (A : Addrs) (env : Env) (c : CCtx) (result : PyDict) : PyDict :=
  match get_controls_guide_state A env c.B.tasks_raw with
  | Option.none => chPikachu A env c result
  | Option.some cg =>
    let r1 := (((((result.set "inDialog" (PyVal.vBool true)).set "menuType"
      (PyVal.vStr "controlsGuide")).set "controlsGuide" (PyVal.vDict cg)).set "visibleText"
      (cg.get "visibleText")).set "allPages" (cg.get "allPages")).set "pageCount"
      (PyVal.vInt (cg.get "pageCount").intOr0)
    let pageD := let pv := cg.get "page"
      if pv.truthy then
        match pv.asDict with
        | Option.some d => d
        | Option.none => []
      else []
    r1.set "currentPage" (PyVal.vInt (PyDict.get pageD "number").intOr0)

/-- Naming-screen step (lines 506–512). -/
def chNaming (A : Addrs) (env : Env) (c : CCtx) (result : PyDict) : PyDict :=
  match get_naming_screen_state A env c.cb2 with
  | Option.none => chControls A env c result
  | Option.some nm =>
    ((((result.set "inDialog" (PyVal.vBool true)).set "menuType"
      (PyVal.vStr "namingScreen")).set "choiceMenu" (PyVal.vDict nm))).set "visibleText"
      (nm.get "visibleText")

/-- Title-screen step (lines 498–504) — the head of the detector cascade. -/
def chTitle (A : Addrs) (env : Env) (c : CCtx) (result : PyDict) : PyDict :=
  match get_title_screen_press_start_state A env c.cb2 c.B.tasks_raw with
  | Option.none => chNaming A env c result
  | Option.some ts =>
    ((((result.set "inDialog" (PyVal.vBool true)).set "menuType"
      (PyVal.vStr "titleScreen")).set "titleScreen" (PyVal.vDict ts))).set "visibleText"
      (PyVal.vStr TITLE_SCREEN_PRESS_START_VISIBLE_TEXT)

/-- The `window0_printer_active` preamble of `_compute`. -/
def window0PrinterActive (A : Addrs) (env : Env) (B : Buffers) : Bool :=
  match B.text_printers_raw with
  | Option.some r => u8_from r (A.TEXTPRINTER_ACTIVE_OFFSET : Int) ≠ 0
  | Option.none => env.mem8 (A.STEXTPRINTERS_ADDR + A.TEXTPRINTER_ACTIVE_OFFSET) ≠ 0

/-- The `in_dialog` preamble of `_compute`: battle counts, field lock only
together with printed text or a script waiting for a button press. -/
def inDialogFlag (A : Addrs) (env : Env) (B : Buffers) : Bool :=
  if B.in_battle then true
  else if B.field_locked then window0PrinterActive A env B || env.scriptWaitingAB
  else false

/-- The fast-path condition of `_compute` (lines 464–489): idle overworld
with no battle, no field lock, no open start-menu / yes-no / save-info
window and no active text printer. -/
def fastPathCond (A : Addrs) (env : Env) (B : Buffers) (cb2 : Nat) : Bool :=
  let cb2Masked := maskPtr cb2
  let overworldCb2 := if A.CB2_OVERWORLD_ADDR ≠ 0 then maskPtr A.CB2_OVERWORLD_ADDR else 0
  let startMenuOpen : Bool :=
    match B.start_menu_window_id with
    | Option.some w => w ≠ A.WINDOW_NONE
    | Option.none => false
  let yesnoOpen : Bool :=
    match B.yesno_window_id with
    | Option.some w => w ≠ A.WINDOW_NONE
    | Option.none => false
  ¬ B.in_battle && ¬ B.field_locked && overworldCb2 ≠ 0 && cb2Masked == overworldCb2 &&
    ¬ startMenuOpen && ¬ yesnoOpen && ¬ save_info_window_visible A env B &&
    ¬ any_text_printer_active A env B

/-- `_compute(buffers, mode)` from `ui/dialog.py`: preamble, fast path, and
the ordered detector cascade.  `get_dialog_state` with a complete snapshot
is `compute` at `Mode.snapshot` over the captured buffers. -/
def compute (A : Addrs) (env : Env) (B : Buffers) (mode : Mode) : PyDict :=
  let cb2 := B.callback2 % 4294967296
  let w0 := window0PrinterActive A env B
  let result0 := default_result B.field_locked w0
  let inDialog := inDialogFlag A env B
  let result1 := result0.set "inDialog" (PyVal.vBool inDialog)
  if fastPathCond A env B cb2 then result1
  else
    let dialogReadSafe := inDialog || is_new_game_birch_speech_active A env B.tasks_raw
    chTitle A env ⟨B, mode, cb2, inDialog, dialogReadSafe⟩ result1

/-- Modelled from the spec: "running the full chain" — the classifier with
the fast-path block removed, used to state the fast path's claimed
equivalence.  Identical to `compute` except that the detector cascade is
always entered. -/
def computeFullChain (A : Addrs) (env : Env) (B : Buffers) (mode : Mode) : PyDict :=
  let cb2 := B.callback2 % 4294967296
  let w0 := window0PrinterActive A env B
  let result0 := default_result B.field_locked w0
  let inDialog := inDialogFlag A env B
  let result1 := result0.set "inDialog" (PyVal.vBool inDialog)
  let dialogReadSafe := inDialog || is_new_game_birch_speech_active A env B.tasks_raw
  chTitle A env ⟨B, mode, cb2, inDialog, dialogReadSafe⟩ result1

/-- The catalogue well-formedness the classifier relies on: the overworld
callback is distinct (after masking) from every callback address that gates
a screen detector.  On the real address catalogue these are distinct linker
symbols. -/
def Addrs.Wf (A : Addrs) : Prop :=
  let ow := maskPtr A.CB2_OVERWORLD_ADDR
  ow ≠ maskPtr A.CB2_INIT_TITLE_SCREEN_ADDR ∧
  ow ≠ maskPtr A.CB2_TITLE_SCREEN_ADDR ∧
  ow ≠ maskPtr A.CB2_LOAD_NAMING_SCREEN_ADDR ∧
  ow ≠ maskPtr A.CB2_NAMING_SCREEN_ADDR ∧
  ow ≠ maskPtr A.CB2_FLY_MAP_ADDR ∧
  ow ≠ maskPtr A.CB2_OPEN_FLY_MAP_ADDR ∧
  ow ≠ maskPtr A.CB2_POKEDEX_ADDR ∧
  ow ≠ maskPtr A.CB2_OPEN_POKEDEX_ADDR ∧
  ow ≠ maskPtr A.CB2_POKE_STORAGE_ADDR ∧
  ow ≠ maskPtr A.CB2_RETURN_TO_POKE_STORAGE_ADDR ∧
  ow ≠ maskPtr A.CB2_TM_CASE_IDLE_ADDR ∧
  ow ≠ maskPtr A.CB2_TM_CASE_SETUP_ADDR ∧
  ow ≠ maskPtr A.CB2_BAG_MENU_RUN_ADDR ∧
  ow ≠ maskPtr A.CB2_BAG_ADDR ∧
  ow ≠ maskPtr A.CB2_TRAINER_CARD_ADDR ∧
  ow ≠ maskPtr A.CB2_INIT_OPTION_MENU_ADDR ∧
  ow ≠ maskPtr A.CB2_OPTION_MENU_ADDR ∧
  ow ≠ maskPtr A.CB2_MAIN_MENU_ADDR ∧
  ow ≠ maskPtr A.CB2_INIT_MAIN_MENU_ADDR ∧
  ow ≠ maskPtr A.CB2_REINIT_MAIN_MENU_ADDR ∧
  ow ≠ maskPtr A.CB2_INIT_PARTY_MENU_ADDR ∧
  ow ≠ maskPtr A.CB2_UPDATE_PARTY_MENU_ADDR ∧
  ow ≠ maskPtr A.CB2_BUY_MENU_ADDR ∧
  ow ≠ maskPtr A.CB2_INIT_SUMMARY_SCREEN_ADDR ∧
  ow ≠ maskPtr A.CB2_SUMMARY_SCREEN_ADDR

/-! ## Concrete test fixtures

A small concrete address catalogue, oracle and snapshot buffers used to
instantiate the theorems on executable inputs.  All catalogue addresses are
distinct even numbers, so every masked comparison behaves as on the real
symbol table. -/

def A0 : Addrs where
  NUM_TASKS := 2
  TASK_SIZE := 8
  TASK_ISACTIVE_OFFSET := 4
  TASK_FUNC_OFFSET := 0
  TASK_DATA_OFFSET := 6
  TEXTPRINTER_SIZE := 4
  TEXTPRINTER_ACTIVE_OFFSET := 0
  TEXTPRINTER_CURRENTCHAR_OFFSET := 0
  WINDOW_NONE := 255
  WINDOW_SIZE := 6
  SMENU_CURSORPOS_OFFSET := 0
  SMENU_WINDOWID_OFFSET := 1
  SMENU_MINCURSORPOS_OFFSET := 2
  SMENU_MAXCURSORPOS_OFFSET := 3
  QUEST_LOG_WINDOW_COUNT := 3
  QL_STATE_PLAYBACK := 2
  QL_STATE_PLAYBACK_LAST := 3
  BATTLE_MAX_BATTLERS := 4
  BATTLE_POKEMON_SIZE := 1
  GBATTLEMONS_SIZE := 0
  BATTLE_TYPE_SAFARI := 8
  DISPLAY_HEIGHT := 160
  GDISPLAYEDSTRINGBATTLE_SIZE := 4
  GSTRINGVAR1_SIZE := 4
  GSTRINGVAR2_SIZE := 4
  GSTRINGVAR3_SIZE := 4
  GSTRINGVAR4_SIZE := 4
  GBATTLETEXTBUFF_SIZE := 4
  MULTI_PC := 6
  GTASKS_ADDR := 3000
  STEXTPRINTERS_ADDR := 3100
  GSTRINGVAR1_ADDR := 3200
  GSTRINGVAR2_ADDR := 3210
  GSTRINGVAR3_ADDR := 3220
  GSTRINGVAR4_ADDR := 3230
  GDISPLAYEDSTRINGBATTLE_ADDR := 3240
  GBATTLETEXTBUFF1_ADDR := 3250
  GBATTLETEXTBUFF2_ADDR := 3260
  GBATTLETEXTBUFF3_ADDR := 3270
  SSAVE_INFO_WINDOWID_ADDR := 3280
  SYESNO_WINDOWID_ADDR := 3282
  GWINDOWS_ADDR := 3290
  SMENU_ADDR := 3300
  START_MENU_WINDOW_ID_ADDR := 3310
  START_MENU_NUM_ACTIONS_ADDR := 3312
  START_MENU_CURSOR_POS_ADDR := 3314
  START_MENU_ACTIONS_ADDR := 3316
  GQUEST_LOG_STATE_ADDR := 3320
  GQUEST_LOG_PLAYBACK_STATE_ADDR := 3322
  SQUEST_LOG_WINDOW_IDS_ADDR := 3324
  CB2_OVERWORLD_ADDR := 1000
  CB2_INIT_TITLE_SCREEN_ADDR := 1002
  CB2_TITLE_SCREEN_ADDR := 1004
  TASK_TITLE_SCREEN_PHASE1_ADDR := 1006
  TASK_TITLE_SCREEN_PHASE2_ADDR := 1008
  TASK_TITLE_SCREEN_PHASE3_ADDR := 1010
  CB2_LOAD_NAMING_SCREEN_ADDR := 1012
  CB2_NAMING_SCREEN_ADDR := 1014
  SNAMING_SCREEN_PTR_ADDR := 2000
  CONTROLS_GUIDE_TASK_FUNCS := [1016]
  PIKACHU_INTRO_TASK_FUNCS := [1018]
  CB2_FLY_MAP_ADDR := 1020
  CB2_OPEN_FLY_MAP_ADDR := 1022
  CB2_POKEDEX_ADDR := 1024
  CB2_OPEN_POKEDEX_ADDR := 1026
  CB2_POKE_STORAGE_ADDR := 1028
  CB2_RETURN_TO_POKE_STORAGE_ADDR := 1030
  TASK_BERRY_CRUSH_SHOW_RANKINGS_ADDR := 1032
  TASK_POKEMON_STORAGE_PC_MAIN_MENU_ADDR := 1034
  TASK_PLAYER_PC_PROCESS_MENU_INPUT_ADDRS := [1036]
  TASK_PLAYER_PC_PROCESS_MENU_INPUT_ADDR := 1038
  TASK_PLAYER_PC_DRAW_TOP_MENU_ADDR := 1040
  SITEM_STORAGE_MENU_PTR_ADDR := 2004
  ITEM_PC_TASK_FUNCS := [1042]
  ITEM_PC_SUBMENU_TASK_FUNCS := [1044]
  ITEM_STORAGE_MENU_PROCESS_INPUT_ADDR := 1046
  TASK_SHOW_START_MENU_ADDR := 1048
  START_MENU_TASK_ADDR := 1050
  CB2_TM_CASE_IDLE_ADDR := 1052
  CB2_TM_CASE_SETUP_ADDR := 1054
  CB2_BAG_MENU_RUN_ADDR := 1056
  CB2_BAG_ADDR := 1058
  GBAGMENU_PTR_ADDR := 2008
  GBAGPOSITION_ADDR := 2012
  BAGPOSITION_POCKET_OFFSET := 0
  CB2_TRAINER_CARD_ADDR := 1060
  GSAVEBLOCK2_PTR_ADDR := 2016
  CB2_INIT_OPTION_MENU_ADDR := 1062
  CB2_OPTION_MENU_ADDR := 1064
  TASK_OPTION_MENU_FADEIN_ADDR := 1066
  TASK_OPTION_MENU_PROCESSINPUT_ADDR := 1068
  TASK_OPTION_MENU_SAVE_ADDR := 1070
  TASK_OPTION_MENU_FADEOUT_ADDR := 1072
  CB2_MAIN_MENU_ADDR := 1074
  CB2_INIT_MAIN_MENU_ADDR := 1076
  CB2_REINIT_MAIN_MENU_ADDR := 1078
  TASK_DISPLAY_MAIN_MENU_ADDR := 1080
  TASK_HIGHLIGHT_SELECTED_MAIN_MENU_ITEM_ADDR := 1082
  TASK_HANDLE_MAIN_MENU_INPUT_ADDR := 1084
  CB2_INIT_PARTY_MENU_ADDR := 1086
  CB2_UPDATE_PARTY_MENU_ADDR := 1088
  CB2_BUY_MENU_ADDR := 1090
  TASK_BUY_HOW_MANY_DIALOGUE_HANDLE_INPUT_ADDR := 1092
  TASK_BUY_HOW_MANY_DIALOGUE_INIT_ADDR := 1094
  TASK_RETURN_TO_ITEM_LIST_AFTER_ITEM_PURCHASE_ADDR := 1096
  TASK_BUY_MENU_ADDR := 1098
  SSHOPDATA_PTR_ADDR := 2020
  CB2_INIT_SUMMARY_SCREEN_ADDR := 1100
  CB2_SUMMARY_SCREEN_ADDR := 1102
  SMON_SUMMARY_SCREEN_PTR_ADDR := 2024
  SCRIPT_LIST_MENU_TASK_FUNCS := [1104]
  TASK_HANDLE_MULTICHOICE_INPUT_ADDR := 1106
  GSPECIALVAR_0X8004_ADDR := 2028
  GSPECIALVAR_0X8005_ADDR := 2032
  SFLOOR_NAME_POINTERS_ADDR := 0
  SFLOOR_NAME_POINTERS_SIZE := 0
  TEXT_WANT_WHICH_FLOOR_ADDR := 0
  GTEXT_NOW_ON_ADDR := 0
  TASK_RUSH_INJURED_POKEMON_TO_CENTER_ADDR := 0
  GTEXT_PLAYER_SCURRIED_TO_CENTER_ADDR := 0
  GTEXT_PLAYER_SCURRIED_BACK_HOME_ADDR := 0
  TASK_SHOP_MENU_ADDR := 1108
  TASK_HANDLE_YES_NO_INPUT_ADDR := 1110
  TASK_CALL_YES_OR_NO_CALLBACK_ADDR := 1112
  TASK_NEW_GAME_BIRCH_SPEECH_CHOOSE_GENDER_ADDR := 1114
  TASK_NEW_GAME_BIRCH_SPEECH_SLIDE_OUT_OLD_GENDER_SPRITE_ADDR := 1116
  TASK_NEW_GAME_BIRCH_SPEECH_SLIDE_IN_NEW_GENDER_SPRITE_ADDR := 1118
  BIRCH_SPEECH_TASK_ADDRS_MASKED := []
  GTEXT_WOULD_YOU_LIKE_TO_SAVE_THE_GAME_ADDR := 0
  GTEXT_ALREADY_SAVE_FILE_WOULD_LIKE_TO_OVERWRITE_ADDR := 0
  GTEXT_DIFFERENT_GAME_FILE_ADDR := 0
  BATTLE_PLAYER_HANDLE_YES_NO_INPUT_ADDRS := [1200]
  BATTLE_HANDLE_INPUT_CHOOSE_TARGET_ADDRS := [1202]
  BATTLE_HANDLE_INPUT_CHOOSE_MOVE_ADDRS := [1204]
  BATTLE_HANDLE_INPUT_CHOOSE_ACTION_ADDRS := [1206]
  GBATTLESCRIPTCURRINSTR_ADDR := 2036
  GBATTLECOMMUNICATION_ADDR := 2040
  GBATTLETYPEFLAGS_ADDR := 2044
  GBATTLERSCOUNT_ADDR := 2048
  GABSENTBATTLERFLAGS_ADDR := 2052
  GBATTLERPOSITIONS_ADDR := 2056
  GBATTLEMONS_ADDR := 2060
  GACTIVEBATTLER_ADDR := 2064
  GBATTLERCONTROLLERFUNCS_ADDR := 2068
  GACTIONSELECTIONCURSOR_ADDR := 2072
  GMOVESELECTIONCURSOR_ADDR := 2076
  GMULTIUSEPLAYERCURSOR_ADDR := 2080
  GBATTLE_BG0_Y_ADDR := 2084
  BATTLER_BIT_SIDE := 1
  BATTLER_BIT_FLANK := 2
  SPOKE_STORAGE_PTR_ADDR := 2088
  POKEMON_DATA_SIZE := 4

/-- A live-memory oracle that reads all zero and recognises nothing. -/
def env0 : Env where
  mem8 := fun _ => 0
  mem16 := fun _ => 0
  mem32 := fun _ => 0
  memRange := fun _ _ => []
  scriptWaitingAB := false
  saveInfoWindow := Option.none
  speciesName := fun _ => Option.none
  moveName := fun _ => Option.none
  itemName := fun _ => Option.none
  abilityName := fun _ => Option.none
  statusName := fun _ => ""
  namingBody := fun _ _ => Option.none
  controlsBody := fun _ => Option.none
  pikachuBody := fun _ => Option.none
  questLogBody := fun _ _ _ => Option.none
  flyBody := Option.none
  pokedexBody := Option.none
  pokeStorageBody := fun _ => Option.none
  berryBody := fun _ _ _ _ => Option.none
  pokeStoragePcMenuBody := fun _ => Option.none
  playerPcMenuBody := fun _ => Option.none
  itemStorageListBody := fun _ _ => Option.none
  itemStorageMenuBody := fun _ => Option.none
  startMenuBody := fun _ => Option.none
  tmCaseBody := Option.none
  bagBody := fun _ _ => Option.none
  trainerCardBody := fun _ => Option.none
  optionMenuBody := fun _ => Option.none
  titleMenuBody := fun _ => Option.none
  partyMenuBody := Option.none
  shopBuyBody := fun _ _ _ => Option.none
  summaryBody := fun _ _ => Option.none
  summarySelectMoveBody := fun _ _ => Option.none
  elevatorListBody := fun _ _ => Option.none
  elevatorMultiBody := fun _ _ => Option.none
  shopChoiceBody := fun _ => Option.none
  multichoiceBody := fun _ _ => Option.none
  genderBody := fun _ => Option.none

/-- A captured task buffer with every slot inactive. -/
def trZ : List Nat := List.replicate 16 0

/-- A captured task buffer whose slot 0 runs `Task_TitleScreenPhase3`
(function pointer `1010 = 0x3F2`, little endian) and is active. -/
def tr1 : List Nat := [242, 3, 0, 0, 1, 0, 0, 0, 0, 0, 0, 0, 0, 0, 0, 0]

/-- A captured task buffer whose slot 0 is active with a null function
pointer. -/
def tr7 : List Nat := [0, 0, 0, 0, 1, 0, 0, 0, 0, 0, 0, 0, 0, 0, 0, 0]

/-- A captured text-printer buffer with all 32 printers inactive. -/
def prZ : List Nat := List.replicate 128 0

/-- An idle-overworld snapshot: no battle, no field lock, overworld
callback, all menu windows closed, all printers inactive. -/
def B4 : Buffers :=
  { field_locked := false
    in_battle := false
    callback2 := 1000
    tasks_raw := Option.some trZ
    text_printers_raw := Option.some prZ
    gstringvar4_raw := Option.some [255]
    start_menu_window_id := Option.some 255
    yesno_window_id := Option.some 255
    windows_raw := Option.some []
    save_info_window_id := Option.some 255
    smenu_raw := Option.some []
    quest_log_state_raw := Option.some [0]
    quest_log_playback_state_raw := Option.some [0]
    quest_log_window_ids_raw := Option.some [0, 0, 0]
    item_storage_menu_ptr_raw := Option.some [0, 0, 0, 0]
    poke_storage_ptr_raw := Option.some [0, 0, 0, 0] }

/-- The idle-overworld snapshot of `B4` with a title-screen scheduler task
still active (the state right after the title fades into the overworld
callback). -/
def B1 : Buffers := { B4 with tasks_raw := Option.some tr1 }

/-- An in-battle snapshot at the action-selection menu: two battlers, no
absent battlers, battler 0's controller on the choose-action handler
(`1206 = 0x4B6`), action cursor 1, non-safari type flags. -/
def B6 : Buffers :=
  { B4 with
    in_battle := true
    callback2 := 888
    gstringvar4_raw := Option.some []
    gdisplayedstringbattle_raw := Option.some []
    battle_script_curr_instr_raw := Option.some [0, 0, 0, 0]
    battle_communication_raw := Option.some [0, 0]
    battle_type_flags_raw := Option.some [0, 0, 0, 0]
    battlers_count_raw := Option.some [2]
    absent_battlers_raw := Option.some [0]
    battler_positions_raw := Option.some [0, 1, 2, 3]
    battle_mons_raw := Option.some []
    active_battler_raw := Option.some [0]
    battler_controller_funcs_raw :=
      Option.some [182, 4, 0, 0, 0, 0, 0, 0, 0, 0, 0, 0, 0, 0, 0, 0]
    action_selection_cursor_raw := Option.some [1, 0, 0, 0]
    move_selection_cursor_raw := Option.some [0, 0, 0, 0]
    multi_use_player_cursor_raw := Option.some [0]
    battle_bg0_y_raw := Option.some [0, 0] }

/-- A one-segment snapshot capture used to instantiate the reader theorems. -/
def seg0 : SnapshotSegment := ⟨100, [1, 2, 3, 4]⟩

/-- The byte oracle backing `seg0` (`mem0 (100 + i) = seg0.data[i]`). -/
def mem0 : Nat → Nat := fun a => a - 99

instance : IsTotal SnapshotSegment fun s t => s.start ≤ t.start :=
  ⟨fun a b => Nat.le_total a.start b.start⟩

instance : IsTrans SnapshotSegment fun s t => s.start ≤ t.start :=
  ⟨fun _ _ _ h1 h2 => Nat.le_trans h1 h2⟩

/-! # Theorems -/

/-! ## Codec lemmas -/

lemma decodeCore_terminator (raw : List Nat) (n : Nat) (stop : Bool) :
    decodeCore (TEXT_TERMINATOR :: raw) n stop = [] := by
  cases n with
  | zero => simp [decodeCore]
  | succ k => simp [decodeCore]

lemma decodeCore_prompt (raw : List Nat) (n : Nat) (p : Nat) (hp : p ∈ PROMPT_CHARS) :
    decodeCore (p :: raw) n true = [] := by
  have hpt : p = 0xFA ∨ p = 0xFB := by
    simpa [PROMPT_CHARS] using hp
  cases n with
  | zero => simp [decodeCore]
  | succ k =>
    rcases hpt with h | h <;> subst h <;> simp [decodeCore, TEXT_TERMINATOR, PROMPT_CHARS]

lemma decodeCore_mapped (raw : List Nat) (n : Nat) (stop : Bool) (b : Nat) (c : Char)
    (hmap : GBA_CHARMAP b = Option.some c) (ht : b ≠ TEXT_TERMINATOR)
    (hp : b ∉ PROMPT_CHARS) (hc : b ≠ 0xFC) (hd : b ≠ 0xFD) (hn : 0 < n) :
    decodeCore (b :: raw) n stop = c :: decodeCore raw (n - 1) stop := by
  obtain ⟨m, rfl⟩ : ∃ m, n = m + 1 := ⟨n - 1, by omega⟩
  simp [decodeCore, ht, hp, hc, hd, hmap, Nat.add_sub_cancel]

lemma decodeCore_control (raw : List Nat) (n : Nat) (stop : Bool) (b x : Nat)
    (hb : b = 0xFC ∨ b = 0xFD) (hn : 2 ≤ n) :
    decodeCore (b :: x :: raw) n stop = decodeCore raw (n - 2) stop := by
  obtain ⟨m, rfl⟩ : ∃ m, n = m + 2 := ⟨n - 2, by omega⟩
  rcases hb with h | h <;> subst h <;>
    simp [decodeCore, TEXT_TERMINATOR, PROMPT_CHARS, Nat.add_sub_cancel]

lemma decodeCore_unmapped (raw : List Nat) (n : Nat) (stop : Bool) (b : Nat)
    (hmap : GBA_CHARMAP b = Option.none) (ht : b ≠ TEXT_TERMINATOR) (hp : b ∉ PROMPT_CHARS)
    (hc : b ≠ 0xFC) (hd : b ≠ 0xFD) (hn : 0 < n) :
    decodeCore (b :: raw) n stop = decodeCore raw (n - 1) stop := by
  obtain ⟨m, rfl⟩ : ∃ m, n = m + 1 := ⟨n - 1, by omega⟩
  simp [decodeCore, ht, hp, hc, hd, hmap, Nat.add_sub_cancel]

lemma head?_dropWhile_ws (p : Char → Bool) (l : List Char) :
    ∀ c, (l.dropWhile p).head? = Option.some c → p c = false := by
  induction l with
  | nil => intro c h; simp [List.dropWhile] at h
  | cons a t ih =>
    intro c h
    by_cases hp : p a
    · rw [List.dropWhile_cons_of_pos hp] at h
      exact ih c h
    · rw [List.dropWhile_cons_of_neg hp] at h
      simp at h
      subst h
      simpa using hp

lemma getLast?_dropWhile_ws (p : Char → Bool) (l : List Char)
    (h : l.dropWhile p ≠ []) : (l.dropWhile p).getLast? = l.getLast? := by
  induction l with
  | nil => simp [List.dropWhile] at h
  | cons a t ih =>
    by_cases hp : p a
    · rw [List.dropWhile_cons_of_pos hp] at h ⊢
      have ht : t ≠ [] := by
        intro he
        subst he
        simp [List.dropWhile] at h
      rw [ih h]
      cases t with
      | nil => exact absurd rfl ht
      | cons b u => simp [List.getLast?_cons_cons]
    · rw [List.dropWhile_cons_of_neg hp]

lemma pyStrip_head (l : List Char) :
    ∀ c, (pyStrip l).head? = Option.some c → isPyWs c = false := by
  intro c h
  unfold pyStrip at h
  rw [List.head?_reverse] at h
  by_cases hnil : ((l.dropWhile isPyWs).reverse.dropWhile isPyWs) = []
  · rw [hnil] at h
    simp at h
  · rw [getLast?_dropWhile_ws isPyWs _ hnil, List.getLast?_reverse] at h
    exact head?_dropWhile_ws isPyWs l c h

lemma pyStrip_getLast (l : List Char) :
    ∀ c, (pyStrip l).getLast? = Option.some c → isPyWs c = false := by
  intro c h
  unfold pyStrip at h
  rw [List.getLast?_reverse] at h
  exact head?_dropWhile_ws isPyWs _ c h

/-- C9: the byte-field readers are total Lean functions (they cannot raise),
and for every slice and every integer offset they return `0` as soon as the
offset is negative or `offset + width` exceeds the slice length. -/
theorem C9_byte_readers_total (raw : List Nat) (offset : Int) :
    (offset < 0 ∨ offset + 1 > (raw.length : Int) → u8_from raw offset = 0) ∧
    (offset < 0 ∨ offset + 2 > (raw.length : Int) → u16le_from raw offset = 0) ∧
    (offset < 0 ∨ offset + 4 > (raw.length : Int) → u32le_from raw offset = 0) := by
  refine ⟨fun h => ?_, fun h => ?_, fun h => ?_⟩
  · unfold u8_from
    rw [if_pos]
    omega
  · unfold u16le_from
    rw [if_pos]
    omega
  · unfold u32le_from
    rw [if_pos]
    omega

theorem C9_byte_readers_total_witness :
    u8_from [1, 2, 3] (-1) = 0 ∧ u16le_from [1, 2, 3] 2 = 0 ∧ u32le_from [1, 2, 3] 0 = 0 :=
  ⟨(C9_byte_readers_total [1, 2, 3] (-1)).1 (by decide),
   (C9_byte_readers_total [1, 2, 3] 2).2.1 (by decide),
   (C9_byte_readers_total [1, 2, 3] 0).2.2 (by decide)⟩

/-- C8: decoding stops at the terminator byte `0xFF` and, under
`stop_at_prompt`, at either prompt byte (`0xFA`/`0xFB`); the control bytes
`0xFC`/`0xFD` consume a two-byte opcode+operand sequence that contributes
nothing; unmapped bytes are dropped rather than substituted; in particular a
slice starting with the terminator decodes to `""`, and
`decode([promptByte, 'A'], stopAtPrompt := true)` is `""`. -/
theorem C8_decode_stops_and_controls (raw : List Nat) (n : Nat) (stop : Bool) :
    decode_gba_string (TEXT_TERMINATOR :: raw) n stop = "" ∧
    (∀ p ∈ PROMPT_CHARS, decode_gba_string (p :: raw) n true = "") ∧
    (∀ b x, (b = 0xFC ∨ b = 0xFD) → 2 ≤ n →
      decodeCore (b :: x :: raw) n stop = decodeCore raw (n - 2) stop) ∧
    (∀ b, GBA_CHARMAP b = Option.none → b ≠ TEXT_TERMINATOR → b ∉ PROMPT_CHARS →
      b ≠ 0xFC → b ≠ 0xFD → 0 < n →
      decodeCore (b :: raw) n stop = decodeCore raw (n - 1) stop) ∧
    decode_gba_string [0xFA, 0xBB] n true = "" := by
  refine ⟨?_, fun p hp => ?_, fun b x hb hn => decodeCore_control raw n stop b x hb hn,
    fun b hmap ht hp hc hd hn => decodeCore_unmapped raw n stop b hmap ht hp hc hd hn, ?_⟩
  · unfold decode_gba_string
    rw [decodeCore_terminator]
    rfl
  · unfold decode_gba_string
    rw [decodeCore_prompt raw n p hp]
    rfl
  · unfold decode_gba_string
    rw [decodeCore_prompt [0xBB] n 0xFA (by decide)]
    rfl

theorem C8_decode_stops_and_controls_witness :
    decodeCore [0xFC, 7, 0xBB, 0xFF] 10 false = decodeCore [0xBB, 0xFF] 8 false ∧
    decodeCore [0xF9, 0xBB, 0xFF] 10 false = decodeCore [0xBB, 0xFF] 9 false ∧
    decode_gba_string [0xFA, 0xBB] 10 true = "" :=
  ⟨(C8_decode_stops_and_controls [0xBB, 0xFF] 10 false).2.2.1 0xFC 7 (Or.inl rfl)
      (by decide),
   (C8_decode_stops_and_controls [0xBB, 0xFF] 10 false).2.2.2.1 0xF9 (by decide)
      (by decide) (by decide) (by decide) (by decide) (by decide),
   (C8_decode_stops_and_controls [0xBB] 10 true).2.2.2.2⟩

/-- C10: the decoded string is always whitespace-stripped — for every input
byte sequence, budget and prompt mode, the result of `decode_gba_string`
never begins or ends with a whitespace character (space, newline, tab, …),
even when the raw bytes encode leading/trailing spaces (`0x00`) or newlines
(`0xFE`). -/
theorem C10_decode_stripped (raw : List Nat) (maxLen : Nat) (stop : Bool) :
    (∀ c, (decode_gba_string raw maxLen stop).data.head? = Option.some c →
      isPyWs c = false) ∧
    (∀ c, (decode_gba_string raw maxLen stop).data.getLast? = Option.some c →
      isPyWs c = false) := by
  constructor
  · intro c h
    exact pyStrip_head _ c h
  · intro c h
    exact pyStrip_getLast _ c h

lemma decode_leading_space_example :
    decode_gba_string [0x00, 0xBB, 0xFE, 0xFF] 500 false = "A" := by
  unfold decode_gba_string
  rw [decodeCore_mapped _ _ _ 0x00 ' ' rfl (by decide) (by decide) (by decide) (by decide)
    (by decide)]
  rw [decodeCore_mapped _ _ _ 0xBB 'A' rfl (by decide) (by decide) (by decide) (by decide)
    (by decide)]
  rw [decodeCore_mapped _ _ _ 0xFE '\n' rfl (by decide) (by decide) (by decide) (by decide)
    (by decide)]
  rw [show decodeCore [255] (500 - 1 - 1 - 1) false = [] from decodeCore_terminator [] _ _]
  rfl

lemma decode_leading_newline_example :
    decode_gba_string [0xFE, 0xBC, 0x00, 0xFF] 500 false = "B" := by
  unfold decode_gba_string
  rw [decodeCore_mapped _ _ _ 0xFE '\n' rfl (by decide) (by decide) (by decide) (by decide)
    (by decide)]
  rw [decodeCore_mapped _ _ _ 0xBC 'B' rfl (by decide) (by decide) (by decide) (by decide)
    (by decide)]
  rw [decodeCore_mapped _ _ _ 0x00 ' ' rfl (by decide) (by decide) (by decide) (by decide)
    (by decide)]
  rw [show decodeCore [255] (500 - 1 - 1 - 1) false = [] from decodeCore_terminator [] _ _]
  rfl

theorem C10_decode_stripped_witness :
    isPyWs 'A' = false ∧ isPyWs 'B' = false :=
  ⟨(C10_decode_stripped [0x00, 0xBB, 0xFE, 0xFF] 500 false).1 'A' (by
      rw [decode_leading_space_example]
      rfl),
   (C10_decode_stripped [0xFE, 0xBC, 0x00, 0xFF] 500 false).2 'B' (by
      rw [decode_leading_newline_example]
      rfl)⟩

/-! ## Menu selection math (C5) -/

/-- C5: with non-negative scroll/row readings, both the bag-menu and TM-case
selected indexes satisfy `selectedIndex = clamp(scroll + cursorRow, 0,
total - 1)`, hence lie in `[0, total)` whenever `total > 0` and equal
`scroll + cursorRow` whenever that sum is already in range. -/
theorem C5_selection_clamped (scrollPos selectedRow numItemStacks numShownItems
    numTms : Int) (hideCloseBag : Bool) (hs : 0 ≤ scrollPos) (hr : 0 ≤ selectedRow) :
    (∀ sel row2 scroll total,
      bag_selection scrollPos selectedRow numItemStacks hideCloseBag numShownItems =
        (sel, row2, scroll, total) →
      0 < total →
      0 ≤ sel ∧ sel < total ∧ sel = clampSpec (scrollPos + selectedRow) 0 (total - 1)) ∧
    (∀ sel total, tm_selection scrollPos selectedRow numTms = (sel, total) →
      0 ≤ numTms →
      0 ≤ sel ∧ sel < total ∧ sel = clampSpec (scrollPos + selectedRow) 0 (total - 1)) := by
  constructor
  · intro sel row2 scroll total heq htot
    simp only [clampSpec]
    unfold bag_selection at heq
    simp only [] at heq
    split_ifs at heq <;> simp only [Prod.mk.injEq] at heq <;> omega
  · intro sel total heq ht
    simp only [clampSpec]
    unfold tm_selection at heq
    simp only [] at heq
    split_ifs at heq <;> simp only [Prod.mk.injEq] at heq <;> omega

theorem C5_selection_clamped_witness :
    (0 ≤ (3 : Int) ∧ (3 : Int) < 6 ∧ (3 : Int) = clampSpec (2 + 1) 0 (6 - 1)) ∧
    (0 ≤ (3 : Int) ∧ (3 : Int) < 4 ∧ (3 : Int) = clampSpec (2 + 1) 0 (4 - 1)) :=
  ⟨(C5_selection_clamped 2 1 5 6 3 false (by decide) (by decide)).1 3 1 2 6 (by decide)
      (by decide),
   (C5_selection_clamped 2 1 5 6 3 false (by decide) (by decide)).2 3 4 (by decide)
      (by decide)⟩

/-! ## Task-pointer masking (C7) -/

lemma maskPtr_div2 (p q : Nat) (h : p / 2 = q / 2) : maskPtr p = maskPtr q := by
  unfold maskPtr
  omega

lemma any_mask_congr (ptr : Nat) (cs1 cs2 : List Nat)
    (h : List.Forall₂ (fun a b => a / 2 = b / 2) cs1 cs2) :
    (cs1.any fun c => maskPtr ptr == maskPtr c) =
      (cs2.any fun c => maskPtr ptr == maskPtr c) := by
  induction h with
  | nil => rfl
  | cons hab _ ih =>
    simp only [List.any_cons, ih, maskPtr_div2 _ _ hab]

/-- C7 (amended): the lowest pointer bit is always masked off both sides
before comparison — `_ptr_matches_any` is invariant under flipping bit 0 of
the probed pointer or of any candidate, and `_find_active_task_by_func` is
invariant under flipping bit 0 of the candidate provided both variants are
non-null (the null-candidate guard, see the counterexample, is the one
exception the original claim misses). -/
theorem C7_mask_ignores_bit0 (p q : Nat) (h : p / 2 = q / 2) :
    maskPtr p = maskPtr q ∧
    (∀ cands, ptr_matches_any p cands = ptr_matches_any q cands) ∧
    (∀ ptr cs1 cs2, List.Forall₂ (fun a b => a / 2 = b / 2) cs1 cs2 →
      ptr_matches_any ptr cs1 = ptr_matches_any ptr cs2) ∧
    (∀ A env tasksRaw, p ≠ 0 → q ≠ 0 →
      find_active_task_by_func A env p tasksRaw =
        find_active_task_by_func A env q tasksRaw) := by
  have hm := maskPtr_div2 p q h
  refine ⟨hm, fun cands => ?_, fun ptr cs1 cs2 hf => ?_, fun A env tasksRaw hp hq => ?_⟩
  · unfold ptr_matches_any
    rw [hm]
  · unfold ptr_matches_any
    have hlen := List.Forall₂.length_eq hf
    have hemp : cs1.isEmpty = cs2.isEmpty := by
      cases cs1 <;> cases cs2 <;> simp_all
    rw [hemp, any_mask_congr ptr cs1 cs2 hf]
  · unfold find_active_task_by_func
    rw [if_neg hp, if_neg hq, hm]

theorem C7_mask_ignores_bit0_witness :
    maskPtr 4 = maskPtr 5 ∧ ptr_matches_any 4 [5] = ptr_matches_any 5 [5] ∧
    find_active_task_by_func A0 env0 4 (Option.some tr7) =
      find_active_task_by_func A0 env0 5 (Option.some tr7) :=
  ⟨(C7_mask_ignores_bit0 4 5 (by decide)).1,
   (C7_mask_ignores_bit0 4 5 (by decide)).2.1 [5],
   (C7_mask_ignores_bit0 4 5 (by decide)).2.2.2 A0 env0 (Option.some tr7) (by decide)
     (by decide)⟩

/-! ## Memory reader (C2, C3) -/

lemma bisectRightAux_spec (a : List Nat) (x : Nat)
    (hs : ∀ i j, i < j → j < a.length → a.getD i 0 ≤ a.getD j 0) :
    ∀ n lo hi, hi - lo ≤ n → lo ≤ hi → hi ≤ a.length →
      lo ≤ bisectRightAux a x lo hi ∧ bisectRightAux a x lo hi ≤ hi ∧
      (∀ k, lo ≤ k → k < bisectRightAux a x lo hi → a.getD k 0 ≤ x) ∧
      (∀ k, bisectRightAux a x lo hi ≤ k → k < hi → x < a.getD k 0) := by
  intro n
  induction n with
  | zero =>
    intro lo hi h1 h2 h3
    unfold bisectRightAux
    rw [dif_neg (by omega)]
    exact ⟨by omega, by omega, fun k hk1 hk2 => by omega, fun k hk1 hk2 => by omega⟩
  | succ m ih =>
    intro lo hi h1 h2 h3
    by_cases hlt : lo < hi
    · have hmid1 : lo ≤ (lo + hi) / 2 := by omega
      have hmid2 : (lo + hi) / 2 < hi := by omega
      unfold bisectRightAux
      rw [dif_pos hlt]
      by_cases hx : x < a.getD ((lo + hi) / 2) 0
      · rw [if_pos hx]
        obtain ⟨b1, b2, b3, b4⟩ := ih lo ((lo + hi) / 2) (by omega) (by omega) (by omega)
        refine ⟨b1, by omega, b3, ?_⟩
        intro k hk1 hk2
        by_cases hkm : k < (lo + hi) / 2
        · exact b4 k hk1 hkm
        · rcases Nat.eq_or_lt_of_le (Nat.not_lt.mp hkm) with he | hl
          · rw [he] at hx
            exact hx
          · exact Nat.lt_of_lt_of_le hx (hs _ k hl (by omega))
      · rw [if_neg hx]
        obtain ⟨b1, b2, b3, b4⟩ := ih ((lo + hi) / 2 + 1) hi (by omega) (by omega) h3
        refine ⟨by omega, b2, ?_, b4⟩
        intro k hk1 hk2
        by_cases hkm : (lo + hi) / 2 + 1 ≤ k
        · exact b3 k hkm hk2
        · have hxm : a.getD ((lo + hi) / 2) 0 ≤ x := Nat.not_lt.mp hx
          rcases Nat.eq_or_lt_of_le (by omega : k ≤ (lo + hi) / 2) with he | hl
          · rw [he]
            exact hxm
          · exact Nat.le_trans (hs k _ hl (by omega)) hxm
    · unfold bisectRightAux
      rw [dif_neg hlt]
      exact ⟨Nat.le_refl lo, by omega, fun k hk1 hk2 => by omega, fun k hk1 hk2 => by omega⟩

lemma bisect_right_spec (a : List Nat) (x : Nat)
    (hs : ∀ i j, i < j → j < a.length → a.getD i 0 ≤ a.getD j 0) :
    bisect_right a x ≤ a.length ∧
    (∀ k, k < bisect_right a x → a.getD k 0 ≤ x) ∧
    (∀ k, bisect_right a x ≤ k → k < a.length → x < a.getD k 0) := by
  obtain ⟨b1, b2, b3, b4⟩ :=
    bisectRightAux_spec a x hs a.length 0 a.length (by omega) (by omega) (by omega)
  exact ⟨b2, fun k hk => b3 k (Nat.zero_le k) hk, b4⟩

lemma disjoint_pairs (segs : List SnapshotSegment) (hd : SegmentsDisjointSorted segs)
    {i j : Nat} (hij : i < j) (hj : j < segs.length) :
    (segs.getD i ⟨0, []⟩).endAddr ≤ (segs.getD j ⟨0, []⟩).start := by
  have hi : i < segs.length := Nat.lt_trans hij hj
  rw [List.getD_eq_getElem _ _ hi, List.getD_eq_getElem _ _ hj]
  exact List.pairwise_iff_getElem.mp hd i j hi hj hij

lemma starts_sorted (segs : List SnapshotSegment) (hd : SegmentsDisjointSorted segs) :
    ∀ i j, i < j → j < (segs.map SnapshotSegment.start).length →
      (segs.map SnapshotSegment.start).getD i 0 ≤
        (segs.map SnapshotSegment.start).getD j 0 := by
  intro i j hij hj
  rw [List.length_map] at hj
  have hi : i < segs.length := Nat.lt_trans hij hj
  rw [List.getD_eq_getElem _ _ (by simpa using hi), List.getD_eq_getElem _ _ (by simpa using hj),
    List.getElem_map, List.getElem_map]
  have := disjoint_pairs segs hd hij hj
  rw [List.getD_eq_getElem _ _ hi, List.getD_eq_getElem _ _ hj] at this
  have hse : segs[i].start ≤ segs[i].endAddr := by
    unfold SnapshotSegment.endAddr
    omega
  omega

lemma segment_for_eval (segs : List SnapshotSegment) (addr : Nat) (size : Int) :
    (SnapshotMemoryReader.mk segs
        (segs.map SnapshotSegment.start)).segment_for addr size =
      if size ≤ 0 then Option.none
      else
        if ((bisect_right (segs.map SnapshotSegment.start) addr : Int) - 1 < 0 ∨
            (bisect_right (segs.map SnapshotSegment.start) addr : Int) - 1 ≥
              (segs.length : Int)) then Option.none
        else
          match segs.get?
              ((bisect_right (segs.map SnapshotSegment.start) addr : Int) - 1).toNat with
          | Option.none => Option.none
          | Option.some seg =>
            if ((addr : Int) - (seg.start : Int) < 0 ∨
                (addr : Int) + size > (seg.endAddr : Int)) then Option.none
            else Option.some (seg, ((addr : Int) - (seg.start : Int)).toNat) := by
  rfl

/-- `segment_for` on a disjoint sorted capture succeeds exactly on ranges
contained in one segment; on success it returns that segment and the offset
of `addr` inside it. -/
lemma segment_for_spec (segs : List SnapshotSegment) (hd : SegmentsDisjointSorted segs)
    (addr : Nat) (size : Int) (hsz : 0 < size) :
    ((∃ s ∈ segs, s.Contains addr size) ↔
      ∃ so, (SnapshotMemoryReader.mk segs
        (segs.map SnapshotSegment.start)).segment_for addr size = Option.some so) ∧
    (∀ seg off, (SnapshotMemoryReader.mk segs
        (segs.map SnapshotSegment.start)).segment_for addr size = Option.some (seg, off) →
      seg ∈ segs ∧ seg.Contains addr size ∧
        seg.start ≤ addr ∧ off = addr - seg.start) := by
  obtain ⟨hb1, hb2, hb3⟩ :=
    bisect_right_spec (segs.map SnapshotSegment.start) addr (starts_sorted segs hd)
  rw [List.length_map] at hb1 hb3
  have hget : ∀ k, ∀ hk : k < segs.length,
      (segs.map SnapshotSegment.start).getD k 0 = segs[k].start := by
    intro k hk
    rw [List.getD_eq_getElem _ _ (by simpa using hk), List.getElem_map]
  set j := bisect_right (segs.map SnapshotSegment.start) addr with hj
  rw [segment_for_eval, ← hj, if_neg (by omega)]
  constructor
  · constructor
    · rintro ⟨s, hsmem, hc1, hc2⟩
      obtain ⟨k, hk, hks⟩ := List.getElem_of_mem hsmem
      have hstartk : s.start ≤ addr := by
        exact_mod_cast hc1
      have hkj : k < j := by
        by_contra hkj
        have := hb3 k (Nat.le_of_not_lt hkj) hk
        rw [hget k hk, hks] at this
        omega
      have hj1 : 1 ≤ j := by omega
      have hkeq : k = j - 1 := by
        by_contra hne
        have hlt : k + 1 < j := by omega
        have hlen : k + 1 < segs.length := by omega
        have hstart : segs[k + 1].start ≤ addr := by
          have := hb2 (k + 1) hlt
          rw [hget (k + 1) hlen] at this
          exact this
        have hdis := disjoint_pairs segs hd (Nat.lt_succ_self k) hlen
        rw [List.getD_eq_getElem _ _ hk, List.getD_eq_getElem _ _ hlen, hks] at hdis
        omega
      subst hkeq
      have hjlen : j - 1 < segs.length := by omega
      refine ⟨(s, addr - s.start), ?_⟩
      rw [if_neg (by push_cast; omega)]
      have htn : ((j : Int) - 1).toNat = j - 1 := by omega
      rw [htn, List.get?_eq_getElem?, List.getElem?_eq_getElem hjlen, hks]
      show (if ((addr : Int) - (s.start : Int) < 0 ∨ (addr : Int) + size > (s.endAddr : Int))
          then Option.none
          else Option.some (s, ((addr : Int) - (s.start : Int)).toNat)) =
        Option.some (s, addr - s.start)
      rw [if_neg (by push_cast; omega)]
      have htn2 : ((addr : Int) - (s.start : Int)).toNat = addr - s.start := by omega
      rw [htn2]
    · rintro ⟨so, hso⟩
      by_cases hidx : ((j : Int) - 1 < 0 ∨ (j : Int) - 1 ≥ (segs.length : Int))
      · rw [if_pos hidx] at hso
        exact absurd hso (by simp)
      · rw [if_neg hidx] at hso
        push_neg at hidx
        have hj1 : 1 ≤ j := by omega
        have hjlen : j - 1 < segs.length := by omega
        have htn : ((j : Int) - 1).toNat = j - 1 := by omega
        rw [htn, List.get?_eq_getElem?, List.getElem?_eq_getElem hjlen] at hso
        have hso2 : (if ((addr : Int) - (segs[j - 1].start : Int) < 0 ∨
            (addr : Int) + size > (segs[j - 1].endAddr : Int)) then Option.none
          else Option.some (segs[j - 1],
            ((addr : Int) - (segs[j - 1].start : Int)).toNat)) = Option.some so := hso
        by_cases hguard : ((addr : Int) - (segs[j - 1].start : Int) < 0 ∨
            (addr : Int) + size > (segs[j - 1].endAddr : Int))
        · rw [if_pos hguard] at hso2
          exact absurd hso2 (by simp)
        · push_neg at hguard
          exact ⟨segs[j - 1], List.getElem_mem hjlen, by omega, by omega⟩
  · intro seg off hso
    by_cases hidx : ((j : Int) - 1 < 0 ∨ (j : Int) - 1 ≥ (segs.length : Int))
    · rw [if_pos hidx] at hso
      exact absurd hso (by simp)
    · rw [if_neg hidx] at hso
      push_neg at hidx
      have hj1 : 1 ≤ j := by omega
      have hjlen : j - 1 < segs.length := by omega
      have htn : ((j : Int) - 1).toNat = j - 1 := by omega
      rw [htn, List.get?_eq_getElem?, List.getElem?_eq_getElem hjlen] at hso
      have hso2 : (if ((addr : Int) - (segs[j - 1].start : Int) < 0 ∨
          (addr : Int) + size > (segs[j - 1].endAddr : Int)) then Option.none
        else Option.some (segs[j - 1],
          ((addr : Int) - (segs[j - 1].start : Int)).toNat)) =
          Option.some (seg, off) := hso
      by_cases hguard : ((addr : Int) - (segs[j - 1].start : Int) < 0 ∨
          (addr : Int) + size > (segs[j - 1].endAddr : Int))
      · rw [if_pos hguard] at hso2
        exact absurd hso2 (by simp)
      · rw [if_neg hguard] at hso2
        push_neg at hguard
        simp only [Option.some.injEq, Prod.mk.injEq] at hso2
        obtain ⟨rfl, hoff⟩ := hso2
        refine ⟨List.getElem_mem hjlen, ⟨by omega, by omega⟩, by omega, by omega⟩

lemma backed_lt (seg : SnapshotSegment) (mem : Nat → Nat) (hb : seg.BackedBy mem)
    (t : Nat) (ht : t < seg.data.length) : mem (seg.start + t) < 256 := by
  rw [← hb.1 t ht, List.getD_eq_getElem _ _ ht]
  exact hb.2 _ (List.getElem_mem ht)

/-- C2 (amended): for positive-size reads whose range is contained in one
captured segment, every read through the snapshot reader agrees byte for
byte with the live reader backed by the same byte oracle (zero-length reads
are the exception, see the counterexample: the snapshot reader raises where
the live reader returns `b""`). -/
theorem C2_snapshot_live_agree (segs : List SnapshotSegment) (mem : Nat → Nat)
    (hd : SegmentsDisjointSorted segs) (hb : ∀ s ∈ segs, s.BackedBy mem) :
    (∀ addr size, 0 < size → (∃ s ∈ segs, s.Contains addr size) →
      (SnapshotMemoryReader.mk segs
          (segs.map SnapshotSegment.start)).read_bytes addr size =
        Option.some ((mkLiveReader mem).read_bytes addr size)) ∧
    (∀ addr, (∃ s ∈ segs, s.Contains addr 1) →
      (SnapshotMemoryReader.mk segs (segs.map SnapshotSegment.start)).u8 addr =
        Option.some ((mkLiveReader mem).u8 addr)) ∧
    (∀ addr, (∃ s ∈ segs, s.Contains addr 2) →
      (SnapshotMemoryReader.mk segs (segs.map SnapshotSegment.start)).u16 addr =
        Option.some ((mkLiveReader mem).u16 addr)) ∧
    (∀ addr, (∃ s ∈ segs, s.Contains addr 4) →
      (SnapshotMemoryReader.mk segs (segs.map SnapshotSegment.start)).u32 addr =
        Option.some ((mkLiveReader mem).u32 addr)) := by
  have core : ∀ addr (size : Int), 0 < size → (∃ s ∈ segs, s.Contains addr size) →
      ∃ seg off, (SnapshotMemoryReader.mk segs
          (segs.map SnapshotSegment.start)).segment_for addr size =
        Option.some (seg, off) ∧ seg ∈ segs ∧
        off + size.toNat ≤ seg.data.length ∧
        (∀ t, t < size.toNat → seg.data.getD (off + t) 0 = mem (addr + t)) ∧
        (∀ t, t < size.toNat → mem (addr + t) < 256) := by
    intro addr size hsz hex
    obtain ⟨hiff, hdet⟩ := segment_for_spec segs hd addr size hsz
    obtain ⟨⟨seg, off⟩, hso⟩ := hiff.mp hex
    obtain ⟨hmem, ⟨hc1, hc2⟩, hsa, hoff⟩ := hdet seg off hso
    have hlen : off + size.toNat ≤ seg.data.length := by
      unfold SnapshotSegment.endAddr at hc2
      omega
    have hbs := hb seg hmem
    refine ⟨seg, off, hso, hmem, hlen, ?_, ?_⟩
    · intro t htl
      have hti : off + t < seg.data.length := by omega
      rw [hbs.1 (off + t) hti]
      congr 1
      omega
    · intro t htl
      have hti : off + t < seg.data.length := by omega
      have := backed_lt seg mem hbs (off + t) hti
      have he : seg.start + (off + t) = addr + t := by omega
      rw [he] at this
      exact this
  refine ⟨?_, ?_, ?_, ?_⟩
  · intro addr size hsz hex
    obtain ⟨seg, off, hso, hmem, hlen, hbytes, hlt⟩ := core addr size hsz hex
    unfold SnapshotMemoryReader.read_bytes LiveMemoryReader.read_bytes
    rw [hso, Option.map_some']
    rw [if_neg (by omega)]
    show Option.some ((seg.data.drop off).take size.toNat) = Option.some _
    congr 1
    unfold mkLiveReader
    show (seg.data.drop off).take size.toNat =
      (List.range size.toNat).map fun i => mem (addr + i)
    apply List.ext_getElem
    · simp
      omega
    · intro i h1 h2
      have hin : i < size.toNat := by
        simp at h2
        omega
      have hdl : off + i < seg.data.length := by omega
      rw [List.getElem_take, List.getElem_drop, List.getElem_map, List.getElem_range]
      have := hbytes i hin
      rw [List.getD_eq_getElem _ _ hdl] at this
      exact this
  · intro addr hex
    obtain ⟨seg, off, hso, hmem, hlen, hbytes, hlt⟩ := core addr 1 (by omega) hex
    unfold SnapshotMemoryReader.u8 LiveMemoryReader.u8 mkLiveReader
    rw [hso, Option.map_some']
    have h0 := hbytes 0 (by omega)
    have l0 := hlt 0 (by omega)
    simp only [Nat.add_zero] at h0 l0
    simp only []
    rw [h0, Nat.mod_eq_of_lt l0]
  · intro addr hex
    obtain ⟨seg, off, hso, hmem, hlen, hbytes, hlt⟩ := core addr 2 (by omega) hex
    unfold SnapshotMemoryReader.u16 LiveMemoryReader.u16 mkLiveReader
    rw [hso, Option.map_some']
    have h0 := hbytes 0 (by omega)
    have h1 := hbytes 1 (by omega)
    have l0 := hlt 0 (by omega)
    have l1 := hlt 1 (by omega)
    simp only [Nat.add_zero] at h0 l0
    simp only []
    rw [h0, h1, Nat.mod_eq_of_lt (by omega)]
    congr 1
    omega
  · intro addr hex
    obtain ⟨seg, off, hso, hmem, hlen, hbytes, hlt⟩ := core addr 4 (by omega) hex
    unfold SnapshotMemoryReader.u32 LiveMemoryReader.u32 mkLiveReader
    rw [hso, Option.map_some']
    have h0 := hbytes 0 (by omega)
    have h1 := hbytes 1 (by omega)
    have h2 := hbytes 2 (by omega)
    have h3 := hbytes 3 (by omega)
    have l0 := hlt 0 (by omega)
    have l1 := hlt 1 (by omega)
    have l2 := hlt 2 (by omega)
    have l3 := hlt 3 (by omega)
    simp only [Nat.add_zero] at h0 l0
    simp only []
    rw [h0, h1, h2, h3, Nat.mod_eq_of_lt (by omega)]
    congr 1
    omega

theorem C2_snapshot_live_agree_witness :
    (SnapshotMemoryReader.mk [seg0]
        ([seg0].map SnapshotSegment.start)).read_bytes 101 2 =
      Option.some ((mkLiveReader mem0).read_bytes 101 2) :=
  (C2_snapshot_live_agree [seg0] mem0 (by simp [SegmentsDisjointSorted])
      (by
        intro s hs
        rw [List.mem_singleton] at hs
        subst hs
        refine ⟨?_, ?_⟩ <;> decide)).1 101 2 (by decide)
    ⟨seg0, by decide, by refine ⟨?_, ?_⟩ <;> decide⟩

/-- C2 counterexample: a zero-length read of an address that lies inside a
captured, correctly backed segment is *not* byte-identical across the two
readers — the snapshot reader raises (`KeyError("Empty read")`, modelled as
`none`) while the live reader returns the empty bytes. -/
theorem C2_counterexample :
    SnapshotSegment.BackedBy ⟨100, [5]⟩ (fun _ => 5) ∧
    SnapshotSegment.Contains ⟨100, [5]⟩ 100 0 ∧
    (SnapshotMemoryReader.mk [⟨100, [5]⟩] [100]).read_bytes 100 0 = Option.none ∧
    (mkLiveReader fun _ => 5).read_bytes 100 0 = [] :=
  ⟨⟨by decide, by decide⟩, ⟨by decide, by decide⟩, rfl, rfl⟩

lemma from_ranges_mem (ranges : List (Nat × Nat)) (chunks : List (Option (List Nat)))
    (s : SnapshotSegment) :
    s ∈ (SnapshotMemoryReader.from_ranges ranges chunks).segments ↔
      ∃ rc ∈ ranges.zip chunks, rc.1.1 ≠ 0 ∧ rc.2 = Option.some s.data ∧
        s.start = rc.1.1 := by
  unfold SnapshotMemoryReader.from_ranges
  rw [show (SnapshotMemoryReader.mk
    (((ranges.zip chunks).filterMap fun rc =>
      match rc.2 with
      | Option.some chunk =>
        if rc.1.1 ≠ 0 then Option.some ⟨rc.1.1, chunk⟩ else Option.none
      | Option.none => Option.none).insertionSort fun s t => s.start ≤ t.start)
    ((((ranges.zip chunks).filterMap fun rc =>
      match rc.2 with
      | Option.some chunk =>
        if rc.1.1 ≠ 0 then Option.some ⟨rc.1.1, chunk⟩ else Option.none
      | Option.none => Option.none).insertionSort fun s t =>
        s.start ≤ t.start).map SnapshotSegment.start)).segments =
    (((ranges.zip chunks).filterMap fun rc =>
      match rc.2 with
      | Option.some chunk =>
        if rc.1.1 ≠ 0 then Option.some ⟨rc.1.1, chunk⟩ else Option.none
      | Option.none => Option.none).insertionSort fun s t => s.start ≤ t.start) from rfl]
  rw [(List.perm_insertionSort _ _).mem_iff, List.mem_filterMap]
  constructor
  · rintro ⟨rc, hrc, hf⟩
    obtain ⟨⟨a, n⟩, ch⟩ := rc
    cases ch with
    | none => exact absurd hf (by simp)
    | some chunk =>
      dsimp only at hf
      by_cases ha : a ≠ 0
      · rw [if_pos ha] at hf
        simp only [Option.some.injEq] at hf
        subst hf
        exact ⟨((a, n), Option.some chunk), hrc, ha, rfl, rfl⟩
      · rw [if_neg ha] at hf
        exact absurd hf (by simp)
  · rintro ⟨rc, hrc, ha, hch, hst⟩
    obtain ⟨⟨a, n⟩, ch⟩ := rc
    simp only at ha hch hst
    refine ⟨((a, n), ch), hrc, ?_⟩
    rw [hch]
    dsimp only
    rw [if_pos ha]
    cases s
    dsimp only at hst
    subst hst
    rfl

/-- C3 (amended): a snapshot read succeeds exactly when the requested range
`[addr, addr + len)` with `len ≥ 1` is fully contained in one captured
segment (so reads spanning a gap or segment boundary fail); every read of
non-positive length fails regardless of containment (see the
counterexample); and `from_ranges` drops zero-address and non-bytes entries
and sorts the kept segments by start address. -/
theorem C3_read_validity (segs : List SnapshotSegment)
    (hd : SegmentsDisjointSorted segs) :
    (∀ (r : SnapshotMemoryReader) (addr : Nat) (size : Int), size ≤ 0 →
      r.segment_for addr size = Option.none) ∧
    (∀ addr (size : Int), 0 < size →
      (((SnapshotMemoryReader.mk segs
          (segs.map SnapshotSegment.start)).segment_for addr size).isSome = true ↔
        ∃ s ∈ segs, s.Contains addr size)) ∧
    (∀ addr, (((SnapshotMemoryReader.mk segs
        (segs.map SnapshotSegment.start)).u8 addr).isSome = true ↔
      ∃ s ∈ segs, s.Contains addr 1)) ∧
    (∀ addr, (((SnapshotMemoryReader.mk segs
        (segs.map SnapshotSegment.start)).u16 addr).isSome = true ↔
      ∃ s ∈ segs, s.Contains addr 2)) ∧
    (∀ addr, (((SnapshotMemoryReader.mk segs
        (segs.map SnapshotSegment.start)).u32 addr).isSome = true ↔
      ∃ s ∈ segs, s.Contains addr 4)) ∧
    (∀ addr (size : Int), 0 < size →
      (((SnapshotMemoryReader.mk segs
          (segs.map SnapshotSegment.start)).read_bytes addr size).isSome = true ↔
        ∃ s ∈ segs, s.Contains addr size)) ∧
    (∀ (ranges : List (Nat × Nat)) (chunks : List (Option (List Nat))),
      (SnapshotMemoryReader.from_ranges ranges chunks).segments.Pairwise
        (fun s t => s.start ≤ t.start) ∧
      (∀ s ∈ (SnapshotMemoryReader.from_ranges ranges chunks).segments,
        s.start ≠ 0 ∧ ∃ rc ∈ ranges.zip chunks, rc.2 = Option.some s.data ∧
          s.start = rc.1.1) ∧
      (SnapshotMemoryReader.from_ranges ranges chunks).starts =
        (SnapshotMemoryReader.from_ranges ranges chunks).segments.map
          SnapshotSegment.start) := by
  have hsome : ∀ addr (size : Int), 0 < size →
      (((SnapshotMemoryReader.mk segs
          (segs.map SnapshotSegment.start)).segment_for addr size).isSome = true ↔
        ∃ s ∈ segs, s.Contains addr size) := by
    intro addr size hsz
    rw [Option.isSome_iff_exists]
    exact ((segment_for_spec segs hd addr size hsz).1).symm
  refine ⟨?_, hsome, ?_, ?_, ?_, ?_, ?_⟩
  · intro r addr size hsz
    unfold SnapshotMemoryReader.segment_for
    rw [if_pos hsz]
  · intro addr
    unfold SnapshotMemoryReader.u8
    rw [Option.isSome_map']
    exact hsome addr 1 (by omega)
  · intro addr
    unfold SnapshotMemoryReader.u16
    rw [Option.isSome_map']
    exact hsome addr 2 (by omega)
  · intro addr
    unfold SnapshotMemoryReader.u32
    rw [Option.isSome_map']
    exact hsome addr 4 (by omega)
  · intro addr size hsz
    unfold SnapshotMemoryReader.read_bytes
    rw [Option.isSome_map']
    exact hsome addr size hsz
  · intro ranges chunks
    refine ⟨List.sorted_insertionSort _ _, ?_, rfl⟩
    intro s hs
    obtain ⟨rc, hrc, ha, hch, hst⟩ := (from_ranges_mem ranges chunks s).mp hs
    exact ⟨by rw [hst]; exact ha, rc, hrc, hch, hst⟩

theorem C3_read_validity_witness :
    ((SnapshotMemoryReader.mk [seg0]
        ([seg0].map SnapshotSegment.start)).segment_for 101 2).isSome = true :=
  ((C3_read_validity [seg0] (by simp [SegmentsDisjointSorted])).2.1 101 2
      (by decide)).mpr ⟨seg0, by decide, by refine ⟨?_, ?_⟩ <;> decide⟩

/-- C3 counterexample: the zero-length range `[100, 100)` is contained in
the captured segment `[100, 101)`, yet `_segment_for` raises
(`KeyError("Empty read")`, modelled as `none`): "succeeds iff contained"
fails for `len = 0`. -/
theorem C3_counterexample :
    SnapshotSegment.Contains ⟨100, [5]⟩ 100 0 ∧
    (SnapshotMemoryReader.mk [⟨100, [5]⟩] [100]).segment_for 100 0 = Option.none :=
  ⟨⟨by decide, by decide⟩, rfl⟩

/-! ## The classifier's none state (C4) -/

lemma compute_fastpath (A : Addrs) (env : Env) (B : Buffers) (m : Mode)
    (h : fastPathCond A env B (B.callback2 % 4294967296) = true) :
    compute A env B m =
      (default_result B.field_locked (window0PrinterActive A env B)).set "inDialog"
        (PyVal.vBool (inDialogFlag A env B)) := by
  simp only [compute, h, if_true]

/-- C4 (amended): on the fast path — the `none` state — the classifier
returns the default record, whose `visibleText` is `None` (Python null),
*not* a string: the claimed "always a populated string, empty string for
none" does not hold (see the counterexample). -/
theorem C4_fastpath_visible_text (A : Addrs) (env : Env) (B : Buffers) (m : Mode)
    (h : fastPathCond A env B (B.callback2 % 4294967296) = true) :
    (compute A env B m).get "visibleText" = PyVal.none ∧
    ((compute A env B m).get "visibleText").asStr = Option.none := by
  rw [compute_fastpath A env B m h]
  exact ⟨rfl, rfl⟩

theorem C4_fastpath_visible_text_witness :
    (compute A0 env0 B4 Mode.snapshot).get "visibleText" = PyVal.none ∧
    ((compute A0 env0 B4 Mode.snapshot).get "visibleText").asStr = Option.none :=
  C4_fastpath_visible_text A0 env0 B4 Mode.snapshot rfl

/-- C4 counterexample: a concrete idle-overworld snapshot on which
`get_dialog_state` takes the fast path and returns `visibleText = None` —
which is not the empty string the claim promises for the `none` state. -/
theorem C4_counterexample :
    fastPathCond A0 env0 B4 (B4.callback2 % 4294967296) = true ∧
    (compute A0 env0 B4 Mode.snapshot).get "visibleText" = PyVal.none ∧
    PyVal.none ≠ PyVal.vStr "" := by
  refine ⟨rfl, ?_, fun h => PyVal.noConfusion h⟩
  rw [compute_fastpath A0 env0 B4 Mode.snapshot rfl]
  rfl

/-! ## Scheduler-scan lemmas: a captured task buffer with every slot
inactive defeats every task gate. -/

/-- Every task slot of `raw` is inactive (the captured `isActive` byte of
each slot is `0`). -/
def AllInactive (A : Addrs) (raw : List Nat) : Prop :=
  ∀ i, i < A.NUM_TASKS →
    u8_from raw ((i : Int) * (A.TASK_SIZE : Int) + (A.TASK_ISACTIVE_OFFSET : Int)) = 0

lemma inactive_base (A : Addrs) (raw : List Nat) (hin : AllInactive A raw)
    (i : Nat) (hi : i < A.NUM_TASKS) :
    u8_from raw (((i * A.TASK_SIZE : Nat) : Int) + ((A.TASK_ISACTIVE_OFFSET : Nat) : Int)) =
      0 := by
  have h := hin i hi
  have he : ((i : Int) * (A.TASK_SIZE : Int) + (A.TASK_ISACTIVE_OFFSET : Int)) =
      (((i * A.TASK_SIZE : Nat) : Int) + ((A.TASK_ISACTIVE_OFFSET : Nat) : Int)) := by
    push_cast
    ring
  rw [he] at h
  exact h

lemma findTaskRawAux_inactive (A : Addrs) (raw : List Nat) (p : Nat → Bool)
    (hlen : A.NUM_TASKS * A.TASK_SIZE ≤ raw.length) (hin : AllInactive A raw) :
    ∀ j, findTaskRawAux A raw p j = Option.none := by
  suffices h : ∀ k j, A.NUM_TASKS - j ≤ k → findTaskRawAux A raw p j = Option.none by
    exact fun j => h (A.NUM_TASKS - j) j (Nat.le_refl _)
  intro k
  induction k with
  | zero =>
    intro j hj
    unfold findTaskRawAux
    rw [dif_neg (by omega)]
  | succ m ih =>
    intro j hj
    by_cases hjn : j < A.NUM_TASKS
    · unfold findTaskRawAux
      rw [dif_pos hjn]
      have hb : j * A.TASK_SIZE + A.TASK_SIZE ≤ raw.length := by
        have h1 : (j + 1) * A.TASK_SIZE ≤ A.NUM_TASKS * A.TASK_SIZE :=
          Nat.mul_le_mul_right _ hjn
        have h2 : (j + 1) * A.TASK_SIZE = j * A.TASK_SIZE + A.TASK_SIZE := by ring
        omega
      show (if j * A.TASK_SIZE + A.TASK_SIZE > raw.length then Option.none
        else if u8_from raw (((j * A.TASK_SIZE : Nat) : Int) +
            ((A.TASK_ISACTIVE_OFFSET : Nat) : Int)) = 0 then
          findTaskRawAux A raw p (j + 1)
        else if p (maskPtr (u32le_from raw (((j * A.TASK_SIZE : Nat) : Int) +
            ((A.TASK_FUNC_OFFSET : Nat) : Int)))) then Option.some j
        else findTaskRawAux A raw p (j + 1)) = Option.none
      rw [if_neg (by omega), inactive_base A raw hin j hjn, if_pos rfl]
      exact ih (j + 1) (by omega)
    · unfold findTaskRawAux
      rw [dif_neg hjn]

lemma berryFindRaw_inactive (A : Addrs) (raw : List Nat) (target : Nat)
    (hlen : A.NUM_TASKS * A.TASK_SIZE ≤ raw.length) (hin : AllInactive A raw) :
    ∀ j, berryFindRaw A raw target j = Option.none := by
  suffices h : ∀ k j, A.NUM_TASKS - j ≤ k → berryFindRaw A raw target j = Option.none by
    exact fun j => h (A.NUM_TASKS - j) j (Nat.le_refl _)
  intro k
  induction k with
  | zero =>
    intro j hj
    unfold berryFindRaw
    rw [dif_neg (by omega)]
  | succ m ih =>
    intro j hj
    by_cases hjn : j < A.NUM_TASKS
    · unfold berryFindRaw
      rw [dif_pos hjn]
      have hb : j * A.TASK_SIZE + A.TASK_SIZE ≤ raw.length := by
        have h1 : (j + 1) * A.TASK_SIZE ≤ A.NUM_TASKS * A.TASK_SIZE :=
          Nat.mul_le_mul_right _ hjn
        have h2 : (j + 1) * A.TASK_SIZE = j * A.TASK_SIZE + A.TASK_SIZE := by ring
        omega
      show (if j * A.TASK_SIZE + A.TASK_SIZE > raw.length then Option.none
        else if u8_from raw (((j * A.TASK_SIZE : Nat) : Int) +
            ((A.TASK_ISACTIVE_OFFSET : Nat) : Int)) = 0 then
          berryFindRaw A raw target (j + 1)
        else if maskPtr (u32le_from raw (((j * A.TASK_SIZE : Nat) : Int) +
            ((A.TASK_FUNC_OFFSET : Nat) : Int))) ≠ target then
          berryFindRaw A raw target (j + 1)
        else
          Option.some (j, u16le_from raw (((j * A.TASK_SIZE : Nat) : Int) +
              ((A.TASK_DATA_OFFSET : Nat) : Int)),
            u16le_from raw (((j * A.TASK_SIZE : Nat) : Int) +
              ((A.TASK_DATA_OFFSET : Nat) : Int) + 2),
            (List.range 4).map fun jj =>
              u16le_from raw (((j * A.TASK_SIZE : Nat) : Int) +
                ((A.TASK_DATA_OFFSET : Nat) : Int) + ((jj : Int) + 2) * 2))) = Option.none
      rw [if_neg (by omega), inactive_base A raw hin j hjn, if_pos rfl]
      exact ih (j + 1) (by omega)
    · unfold berryFindRaw
      rw [dif_neg hjn]

lemma anyTaskInSet_inactive (A : Addrs) (env : Env) (S : List Nat) (raw : List Nat)
    (hlen : A.NUM_TASKS * A.TASK_SIZE ≤ raw.length) (hin : AllInactive A raw) :
    anyTaskInSet A env S (Option.some raw) = false := by
  show (if raw.length ≥ A.NUM_TASKS * A.TASK_SIZE then
      (List.range A.NUM_TASKS).any fun i =>
        u8_from raw (((i * A.TASK_SIZE : Nat) : Int) +
          ((A.TASK_ISACTIVE_OFFSET : Nat) : Int)) ≠ 0 &&
        S.contains (maskPtr (u32le_from raw (((i * A.TASK_SIZE : Nat) : Int) +
          ((A.TASK_FUNC_OFFSET : Nat) : Int))))
    else
      (List.range A.NUM_TASKS).any fun i =>
        env.mem8 (A.GTASKS_ADDR + i * A.TASK_SIZE + A.TASK_ISACTIVE_OFFSET) ≠ 0 &&
        S.contains (maskPtr (env.mem32 (A.GTASKS_ADDR + i * A.TASK_SIZE +
          A.TASK_FUNC_OFFSET)))) = false
  rw [if_pos hlen, List.any_eq_false]
  intro i hi
  have hil : i < A.NUM_TASKS := List.mem_range.mp hi
  rw [inactive_base A raw hin i hil]
  simp

lemma find_func_none (A : Addrs) (env : Env) (raw : List Nat)
    (hlen : A.NUM_TASKS * A.TASK_SIZE ≤ raw.length) (hin : AllInactive A raw) :
    ∀ f, find_active_task_by_func A env f (Option.some raw) = Option.none := by
  intro f
  unfold find_active_task_by_func
  by_cases hf : f = 0
  · rw [if_pos hf]
  · rw [if_neg hf]
    exact findTaskRawAux_inactive A raw _ hlen hin 0

lemma find_funcs_none (A : Addrs) (env : Env) (raw : List Nat)
    (hlen : A.NUM_TASKS * A.TASK_SIZE ≤ raw.length) (hin : AllInactive A raw) :
    ∀ fs, find_active_task_by_funcs A env fs (Option.some raw) = Option.none := by
  intro fs
  show (if ((fs.filter fun a => a != 0).map maskPtr).isEmpty then Option.none
    else findTaskRawAux A raw
      (fun x => ((fs.filter fun a => a != 0).map maskPtr).contains x) 0) = Option.none
  split
  · rfl
  · exact findTaskRawAux_inactive A raw _ hlen hin 0

lemma birch_false (A : Addrs) (env : Env) (raw : List Nat)
    (hlen : A.NUM_TASKS * A.TASK_SIZE ≤ raw.length) (hin : AllInactive A raw) :
    is_new_game_birch_speech_active A env (Option.some raw) = false := by
  unfold is_new_game_birch_speech_active
  by_cases he : A.BIRCH_SPEECH_TASK_ADDRS_MASKED.isEmpty
  · rw [if_pos he]
  · rw [if_neg he]
    show (if raw.length ≥ A.NUM_TASKS * A.TASK_SIZE then
      (findTaskRawAux A raw
        (fun x => A.BIRCH_SPEECH_TASK_ADDRS_MASKED.contains x) 0).isSome
      else (findTaskLive A env
        (fun x => A.BIRCH_SPEECH_TASK_ADDRS_MASKED.contains x)).isSome) = false
    rw [if_pos hlen, findTaskRawAux_inactive A raw _ hlen hin 0]
    rfl

/-! ## Detector-gate rejection lemmas (used to discharge the full chain on
an idle snapshot). -/

lemma title_screen_none (A : Addrs) (env : Env) (cb2 : Nat) (raw : List Nat)
    (h1 : maskPtr cb2 ≠ maskPtr A.CB2_INIT_TITLE_SCREEN_ADDR)
    (h2 : maskPtr cb2 ≠ maskPtr A.CB2_TITLE_SCREEN_ADDR)
    (hlen : A.NUM_TASKS * A.TASK_SIZE ≤ raw.length) (hin : AllInactive A raw) :
    get_title_screen_press_start_state A env cb2 (Option.some raw) = Option.none := by
  simp only [get_title_screen_press_start_state]
  split
  · split
    · rfl
    · rename_i hcond
      exfalso
      apply hcond
      constructor
      · intro hc
        rcases List.mem_pair.mp (List.mem_of_elem_eq_true hc) with h | h
        · exact h1 h
        · exact h2 h
      · intro hs
        obtain ⟨f0, hf0⟩ := Option.isSome_iff_exists.mp hs
        obtain ⟨i, hi, hfi⟩ := List.exists_of_findSome?_eq_some hf0
        rw [inactive_base A raw hin i (List.mem_range.mp hi), if_pos rfl] at hfi
        exact Option.noConfusion hfi
  · rename_i hnlen
    exact absurd hlen hnlen

lemma naming_none (A : Addrs) (env : Env) (cb2 : Nat)
    (h1 : maskPtr cb2 ≠ maskPtr A.CB2_LOAD_NAMING_SCREEN_ADDR)
    (h2 : maskPtr cb2 ≠ maskPtr A.CB2_NAMING_SCREEN_ADDR) :
    get_naming_screen_state A env cb2 = Option.none := by
  simp only [get_naming_screen_state, if_neg h1, if_neg h2]

lemma fly_none (A : Addrs) (env : Env) (cb2 : Nat)
    (h1 : maskPtr cb2 ≠ maskPtr A.CB2_FLY_MAP_ADDR)
    (h2 : maskPtr cb2 ≠ maskPtr A.CB2_OPEN_FLY_MAP_ADDR) :
    get_fly_map_state A env cb2 = Option.none := by
  by_cases h0a : A.CB2_FLY_MAP_ADDR = 0 <;> by_cases h0b : A.CB2_OPEN_FLY_MAP_ADDR = 0 <;>
    simp [get_fly_map_state, h0a, h0b, h1, h2, Ne.symm h1, Ne.symm h2]

lemma pokedex_none (A : Addrs) (env : Env) (cb2 : Nat)
    (h1 : maskPtr cb2 ≠ maskPtr A.CB2_POKEDEX_ADDR)
    (h2 : maskPtr cb2 ≠ maskPtr A.CB2_OPEN_POKEDEX_ADDR) :
    get_pokedex_state A env cb2 = Option.none := by
  by_cases h0a : A.CB2_POKEDEX_ADDR = 0 <;> by_cases h0b : A.CB2_OPEN_POKEDEX_ADDR = 0 <;>
    simp [get_pokedex_state, h0a, h0b, h1, h2, Ne.symm h1, Ne.symm h2]

lemma poke_storage_none (A : Addrs) (env : Env) (cb2 : Nat)
    (sp : Option (List Nat))
    (h1 : maskPtr cb2 ≠ maskPtr A.CB2_POKE_STORAGE_ADDR)
    (h2 : maskPtr cb2 ≠ maskPtr A.CB2_RETURN_TO_POKE_STORAGE_ADDR) :
    get_pokemon_storage_system_state A env cb2 sp = Option.none := by
  simp only [get_pokemon_storage_system_state, if_pos (And.intro h1 h2)]

lemma tm_case_none (A : Addrs) (env : Env) (cb2 : Nat)
    (h1 : maskPtr cb2 ≠ maskPtr A.CB2_TM_CASE_IDLE_ADDR)
    (h2 : maskPtr cb2 ≠ maskPtr A.CB2_TM_CASE_SETUP_ADDR) :
    get_tm_case_state A env cb2 = Option.none := by
  simp only [get_tm_case_state, if_pos (And.intro h1 h2)]

lemma bag_none (A : Addrs) (env : Env) (cb2 : Nat)
    (h1 : maskPtr cb2 ≠ maskPtr A.CB2_BAG_MENU_RUN_ADDR)
    (h2 : maskPtr cb2 ≠ maskPtr A.CB2_BAG_ADDR) :
    get_bag_menu_state A env cb2 = Option.none := by
  simp only [get_bag_menu_state, if_pos (And.intro h1 h2)]

lemma trainer_none (A : Addrs) (env : Env) (cb2 : Nat)
    (h1 : maskPtr cb2 ≠ maskPtr A.CB2_TRAINER_CARD_ADDR) :
    get_trainer_card_state A env cb2 = Option.none := by
  simp only [get_trainer_card_state, if_pos h1]

lemma party_none (A : Addrs) (env : Env) (cb2 : Nat)
    (h1 : maskPtr cb2 ≠ maskPtr A.CB2_INIT_PARTY_MENU_ADDR)
    (h2 : maskPtr cb2 ≠ maskPtr A.CB2_UPDATE_PARTY_MENU_ADDR) :
    get_party_menu_state A env cb2 = Option.none := by
  simp only [get_party_menu_state, if_pos (And.intro h1 h2)]

lemma shop_buy_none (A : Addrs) (env : Env) (cb2 : Nat) (tr : Option (List Nat))
    (h1 : maskPtr cb2 ≠ maskPtr A.CB2_BUY_MENU_ADDR) :
    get_shop_buy_menu_state A env cb2 tr = Option.none := by
  simp only [get_shop_buy_menu_state, if_pos h1]

lemma summary_none (A : Addrs) (env : Env) (cb2 : Nat)
    (h1 : maskPtr cb2 ≠ maskPtr A.CB2_INIT_SUMMARY_SCREEN_ADDR)
    (h2 : maskPtr cb2 ≠ maskPtr A.CB2_SUMMARY_SCREEN_ADDR) :
    get_pokemon_summary_state A env cb2 = Option.none := by
  simp only [get_pokemon_summary_state, if_pos (And.intro h1 h2)]

lemma summary_move_none (A : Addrs) (env : Env) (cb2 : Nat)
    (hsum : env.mem32 A.SMON_SUMMARY_SCREEN_PTR_ADDR = 0) :
    get_pokemon_summary_select_move_state A env cb2 = Option.none := by
  simp [get_pokemon_summary_select_move_state, hsum]

lemma controls_none (A : Addrs) (env : Env) (raw : List Nat)
    (hlen : A.NUM_TASKS * A.TASK_SIZE ≤ raw.length) (hin : AllInactive A raw) :
    get_controls_guide_state A env (Option.some raw) = Option.none := by
  simp only [get_controls_guide_state, find_funcs_none A env raw hlen hin]

lemma pikachu_none (A : Addrs) (env : Env) (raw : List Nat)
    (hlen : A.NUM_TASKS * A.TASK_SIZE ≤ raw.length) (hin : AllInactive A raw) :
    get_pikachu_intro_state A env (Option.some raw) = Option.none := by
  simp only [get_pikachu_intro_state, find_funcs_none A env raw hlen hin]

lemma quest_none (A : Addrs) (env : Env) (qr : List Nat) (pb wi : Option (List Nat))
    (hq1 : 1 ≤ qr.length) (hqa : qr.getD 0 0 ≠ A.QL_STATE_PLAYBACK)
    (hqb : qr.getD 0 0 ≠ A.QL_STATE_PLAYBACK_LAST) :
    get_quest_log_playback_state A env (Option.some qr) pb wi = Option.none := by
  simp only [get_quest_log_playback_state]
  rw [if_pos hq1, if_pos (And.intro hqa hqb)]

lemma berry_none (A : Addrs) (env : Env) (raw : List Nat)
    (hlen : A.NUM_TASKS * A.TASK_SIZE ≤ raw.length) (hin : AllInactive A raw) :
    get_berry_crush_rankings_state A env (Option.some raw) = Option.none := by
  by_cases h0 : maskPtr A.TASK_BERRY_CRUSH_SHOW_RANKINGS_ADDR = 0
  · simp only [get_berry_crush_rankings_state, if_pos h0]
  · simp only [get_berry_crush_rankings_state, if_neg h0]
    rw [if_pos hlen, berryFindRaw_inactive A raw _ hlen hin 0]

lemma storage_pc_none (A : Addrs) (env : Env) (raw : List Nat)
    (hlen : A.NUM_TASKS * A.TASK_SIZE ≤ raw.length) (hin : AllInactive A raw) :
    get_pokemon_storage_pc_menu_state A env (Option.some raw) = Option.none := by
  simp only [get_pokemon_storage_pc_menu_state, find_func_none A env raw hlen hin]

lemma player_pc_none (A : Addrs) (env : Env) (raw : List Nat)
    (hlen : A.NUM_TASKS * A.TASK_SIZE ≤ raw.length) (hin : AllInactive A raw) :
    get_player_pc_menu_state A env (Option.some raw) = Option.none := by
  simp only [get_player_pc_menu_state, find_funcs_none A env raw hlen hin]

lemma item_list_none (A : Addrs) (env : Env) (raw : List Nat) (mp : Option (List Nat))
    (hlen : A.NUM_TASKS * A.TASK_SIZE ≤ raw.length) (hin : AllInactive A raw) :
    get_item_storage_list_state A env (Option.some raw) mp = Option.none := by
  simp only [get_item_storage_list_state, find_funcs_none A env raw hlen hin, ite_self]

lemma item_menu_none (A : Addrs) (env : Env) (raw : List Nat)
    (hlen : A.NUM_TASKS * A.TASK_SIZE ≤ raw.length) (hin : AllInactive A raw) :
    get_item_storage_menu_state A env (Option.some raw) = Option.none := by
  simp only [get_item_storage_menu_state, find_func_none A env raw hlen hin]

lemma start_menu_none (A : Addrs) (env : Env) (raw : List Nat)
    (w n : Option Nat)
    (hlen : A.NUM_TASKS * A.TASK_SIZE ≤ raw.length) (hin : AllInactive A raw) :
    get_start_menu_state A env (Option.some raw) w n = Option.none := by
  simp only [get_start_menu_state, find_func_none A env raw hlen hin]
  rw [if_pos]
  exact ⟨rfl, rfl⟩

lemma option_menu_none (A : Addrs) (env : Env) (cb2 : Nat) (raw : List Nat)
    (h1 : maskPtr cb2 ≠ maskPtr A.CB2_INIT_OPTION_MENU_ADDR)
    (h2 : maskPtr cb2 ≠ maskPtr A.CB2_OPTION_MENU_ADDR)
    (hlen : A.NUM_TASKS * A.TASK_SIZE ≤ raw.length) (hin : AllInactive A raw) :
    get_option_menu_state A env cb2 (Option.some raw) = Option.none := by
  simp only [get_option_menu_state, anyTaskInSet_inactive A env _ raw hlen hin]
  rw [if_pos]
  exact ⟨h1, h2, by simp⟩

lemma title_menu_none (A : Addrs) (env : Env) (cb2 : Nat) (raw : List Nat)
    (h1 : maskPtr cb2 ≠ maskPtr A.CB2_MAIN_MENU_ADDR)
    (h2 : maskPtr cb2 ≠ maskPtr A.CB2_INIT_MAIN_MENU_ADDR)
    (h3 : maskPtr cb2 ≠ maskPtr A.CB2_REINIT_MAIN_MENU_ADDR)
    (hlen : A.NUM_TASKS * A.TASK_SIZE ≤ raw.length) (hin : AllInactive A raw) :
    get_title_menu_state A env cb2 (Option.some raw) = Option.none := by
  simp only [get_title_menu_state, anyTaskInSet_inactive A env _ raw hlen hin]
  rw [if_pos]
  constructor
  · intro hc
    have hm := List.mem_of_elem_eq_true hc
    simp only [List.mem_cons, List.mem_singleton, List.not_mem_nil, or_false] at hm
    rcases hm with h | h | h
    · exact h1 h
    · exact h2 h
    · exact h3 h
  · simp

lemma elevator_none (A : Addrs) (env : Env) (raw : List Nat)
    (tp g4 gd : Option (List Nat))
    (hlen : A.NUM_TASKS * A.TASK_SIZE ≤ raw.length) (hin : AllInactive A raw) :
    get_elevator_menu_state A env (Option.some raw) tp g4 gd = Option.none := by
  simp only [get_elevator_menu_state, find_funcs_none A env raw hlen hin,
    find_func_none A env raw hlen hin]

lemma whiteout_none (A : Addrs) (env : Env) (B : Buffers) (raw : List Nat)
    (htr : B.tasks_raw = Option.some raw)
    (hlen : A.NUM_TASKS * A.TASK_SIZE ≤ raw.length) (hin : AllInactive A raw) :
    read_whiteout_recovery_state A env B = Option.none := by
  by_cases h0 : A.TASK_RUSH_INJURED_POKEMON_TO_CENTER_ADDR = 0
  · simp only [read_whiteout_recovery_state, if_pos h0]
  · simp only [read_whiteout_recovery_state, if_neg h0, htr,
      find_func_none A env raw hlen hin]

lemma shop_choice_none (A : Addrs) (env : Env) (raw : List Nat)
    (hlen : A.NUM_TASKS * A.TASK_SIZE ≤ raw.length) (hin : AllInactive A raw) :
    get_shop_choice_menu_state A env (Option.some raw) = Option.none := by
  simp only [get_shop_choice_menu_state, find_func_none A env raw hlen hin]

lemma multichoice_none (A : Addrs) (env : Env) (raw : List Nat)
    (hlen : A.NUM_TASKS * A.TASK_SIZE ≤ raw.length) (hin : AllInactive A raw) :
    get_multichoice_menu_state A env (Option.some raw) = Option.none := by
  simp only [get_multichoice_menu_state, find_func_none A env raw hlen hin]

lemma yesno_menu_none (A : Addrs) (env : Env) (raw : List Nat) (yw : Nat)
    (smenuRaw windowsRaw : Option (List Nat)) (hw : yw = A.WINDOW_NONE)
    (hlen : A.NUM_TASKS * A.TASK_SIZE ≤ raw.length) (hin : AllInactive A raw) :
    get_yes_no_menu_state A env (Option.some raw) (Option.some yw) smenuRaw windowsRaw =
      Option.none := by
  simp only [get_yes_no_menu_state, find_func_none A env raw hlen hin]
  rw [if_neg (by simp)]
  rw [if_pos (Or.inl hw)]

lemma gender_none (A : Addrs) (env : Env) (raw : List Nat)
    (smenuRaw : Option (List Nat))
    (hlen : A.NUM_TASKS * A.TASK_SIZE ≤ raw.length) (hin : AllInactive A raw) :
    get_new_game_birch_gender_menu_state A env (Option.some raw) smenuRaw = Option.none := by
  simp only [get_new_game_birch_gender_menu_state,
    anyTaskInSet_inactive A env _ raw hlen hin]
  simp

/-! ## Fast-path decomposition and the final fall-through on an idle
snapshot. -/

lemma fastPathCond_parts (A : Addrs) (env : Env) (B : Buffers) (cb2 : Nat)
    (h : fastPathCond A env B cb2 = true) :
    B.in_battle = false ∧ B.field_locked = false ∧
    A.CB2_OVERWORLD_ADDR ≠ 0 ∧
    maskPtr cb2 = maskPtr A.CB2_OVERWORLD_ADDR ∧
    (∀ w, B.start_menu_window_id = Option.some w → w = A.WINDOW_NONE) ∧
    (∀ w, B.yesno_window_id = Option.some w → w = A.WINDOW_NONE) ∧
    save_info_window_visible A env B = false ∧
    any_text_printer_active A env B = false := by
  unfold fastPathCond at h
  simp only [Bool.and_eq_true, Bool.not_eq_true', beq_iff_eq, decide_eq_true_eq] at h
  obtain ⟨⟨⟨⟨⟨⟨⟨h1, h2⟩, h3⟩, h4⟩, h5⟩, h6⟩, h7⟩, h8⟩ := h
  have h1' : B.in_battle = false := by simpa using h1
  have h2' : B.field_locked = false := by simpa using h2
  have h7' : save_info_window_visible A env B = false := by simpa using h7
  have h8' : any_text_printer_active A env B = false := by simpa using h8
  have hov : A.CB2_OVERWORLD_ADDR ≠ 0 := by
    intro h0
    rw [if_neg (by simp [h0])] at h3
    exact h3 rfl
  rw [if_pos hov] at h4
  refine ⟨h1', h2', hov, h4, ?_, ?_, h7', h8'⟩
  · intro w hw
    rw [hw] at h5
    simpa using h5
  · intro w hw
    rw [hw] at h6
    simpa using h6

lemma inDialogFlag_false (A : Addrs) (env : Env) (B : Buffers)
    (h1 : B.in_battle = false) (h2 : B.field_locked = false) :
    inDialogFlag A env B = false := by
  unfold inDialogFlag
  rw [h1, h2]
  simp

/-- All 32 captured printer slots are inactive. -/
def AllPrintersInactive (A : Addrs) (pr : List Nat) : Prop :=
  ∀ i : Nat, i < 32 →
    u8_from pr ((i : Int) * (A.TEXTPRINTER_SIZE : Int) +
      (A.TEXTPRINTER_ACTIVE_OFFSET : Int)) = 0

lemma any_printer_false_parts (A : Addrs) (env : Env) (B : Buffers) (pr : List Nat)
    (hpr : B.text_printers_raw = Option.some pr)
    (hlen : 32 * A.TEXTPRINTER_SIZE ≤ pr.length)
    (h : any_text_printer_active A env B = false) : AllPrintersInactive A pr := by
  have key : any_text_printer_active A env B =
      (if pr.length ≥ 32 * A.TEXTPRINTER_SIZE then
        (List.range 32).any fun i =>
          u8_from pr ((i : Int) * (A.TEXTPRINTER_SIZE : Int) +
            (A.TEXTPRINTER_ACTIVE_OFFSET : Int)) ≠ 0
      else
        (List.range 32).any fun i =>
          env.mem8 (A.STEXTPRINTERS_ADDR + i * A.TEXTPRINTER_SIZE +
            A.TEXTPRINTER_ACTIVE_OFFSET) ≠ 0) := by
    unfold any_text_printer_active
    rw [hpr]
  rw [key, if_pos hlen, List.any_eq_false] at h
  intro i hi
  have h3 := h i (List.mem_range.mpr hi)
  simpa using h3

lemma printer_candidates_nil (A : Addrs) (pr : List Nat)
    (hpin : AllPrintersInactive A pr) :
    ((List.range 32).filterMap fun (i : Nat) =>
      if u8_from pr ((i : Int) * (A.TEXTPRINTER_SIZE : Int) +
          (A.TEXTPRINTER_ACTIVE_OFFSET : Int)) = 0 then
        Option.none
      else
        if u32le_from pr ((i : Int) * (A.TEXTPRINTER_SIZE : Int) +
            (A.TEXTPRINTER_CURRENTCHAR_OFFSET : Int)) = 0 then Option.none
        else Option.some (printerScore A i
          (u32le_from pr ((i : Int) * (A.TEXTPRINTER_SIZE : Int) +
            (A.TEXTPRINTER_CURRENTCHAR_OFFSET : Int))), i,
          u32le_from pr ((i : Int) * (A.TEXTPRINTER_SIZE : Int) +
            (A.TEXTPRINTER_CURRENTCHAR_OFFSET : Int)))) = [] := by
  rw [List.filterMap_eq_nil_iff]
  intro i hi
  rw [hpin i (List.mem_range.mp hi), if_pos rfl]

lemma printers_text_none (A : Addrs) (env : Env) (pr : List Nat)
    (gsv4 gdisp : Option (List Nat)) (hpin : AllPrintersInactive A pr) :
    find_active_textprinter_text A env (Option.some pr) gsv4 gdisp false = Option.none := by
  simp only [find_active_textprinter_text]
  rw [printer_candidates_nil A pr hpin]
  rfl

lemma dr_get_visibleText (fl w0 : Bool) (v : PyVal) :
    ((default_result fl w0).set "inDialog" v).get "visibleText" = PyVal.none := rfl

lemma dr_get_allPages (fl w0 : Bool) (v : PyVal) :
    ((default_result fl w0).set "inDialog" v).get "allPages" = PyVal.none := rfl

lemma dr_get_pageCount (fl w0 : Bool) (v : PyVal) :
    ((default_result fl w0).set "inDialog" v).get "pageCount" = PyVal.vInt 0 := rfl

lemma dr_get_choiceMenu (fl w0 : Bool) (v : PyVal) :
    ((default_result fl w0).set "inDialog" v).get "choiceMenu" = PyVal.none := rfl

lemma dr_get_saveInfo (fl w0 : Bool) (v : PyVal) :
    ((default_result fl w0).set "inDialog" v).get "saveInfo" = PyVal.none := rfl

/-- On an idle snapshot the detector cascade falls all the way through to
`chFinal`. -/
lemma chain_all_none (A : Addrs) (env : Env) (c : CCtx) (r : PyDict)
    (h1 : get_title_screen_press_start_state A env c.cb2 c.B.tasks_raw = Option.none)
    (h2 : get_naming_screen_state A env c.cb2 = Option.none)
    (h3 : get_controls_guide_state A env c.B.tasks_raw = Option.none)
    (h4 : get_pikachu_intro_state A env c.B.tasks_raw = Option.none)
    (h5 : get_quest_log_playback_state A env c.B.quest_log_state_raw
      c.B.quest_log_playback_state_raw c.B.quest_log_window_ids_raw = Option.none)
    (h6 : get_fly_map_state A env c.cb2 = Option.none)
    (h7 : get_pokedex_state A env c.cb2 = Option.none)
    (h8 : get_pokemon_storage_system_state A env c.cb2 c.B.poke_storage_ptr_raw =
      Option.none)
    (h9 : get_berry_crush_rankings_state A env c.B.tasks_raw = Option.none)
    (h10 : get_pokemon_storage_pc_menu_state A env c.B.tasks_raw = Option.none)
    (h11 : get_player_pc_menu_state A env c.B.tasks_raw = Option.none)
    (h12 : get_item_storage_list_state A env c.B.tasks_raw
      c.B.item_storage_menu_ptr_raw = Option.none)
    (h13 : get_item_storage_menu_state A env c.B.tasks_raw = Option.none)
    (h14 : get_start_menu_state A env c.B.tasks_raw c.B.start_menu_window_id
      c.B.start_menu_num_actions = Option.none)
    (h15 : get_tm_case_state A env c.cb2 = Option.none)
    (h16 : get_bag_menu_state A env c.cb2 = Option.none)
    (h17 : get_trainer_card_state A env c.cb2 = Option.none)
    (h18 : get_option_menu_state A env c.cb2 c.B.tasks_raw = Option.none)
    (h19 : get_title_menu_state A env c.cb2 c.B.tasks_raw = Option.none)
    (h20 : get_party_menu_state A env c.cb2 = Option.none)
    (h21 : get_shop_buy_menu_state A env c.cb2 c.B.tasks_raw = Option.none)
    (h22 : get_pokemon_summary_state A env c.cb2 = Option.none)
    (h23 : get_pokemon_summary_select_move_state A env c.cb2 = Option.none)
    (h24 : get_elevator_menu_state A env c.B.tasks_raw c.B.text_printers_raw
      c.B.gstringvar4_raw c.B.gdisplayedstringbattle_raw = Option.none)
    (h25 : read_whiteout_recovery_state A env c.B = Option.none)
    (hmode : c.mode = Mode.snapshot)
    (hbattle : c.B.in_battle = false) :
    chTitle A env c r = chFinal A env c r := by
  simp only [chTitle, h1, chNaming, h2, chControls, h3, chPikachu, h4, chQuest, h5,
    chFly, h6, chPokedex, h7, chPokeStorage, h8, chBerry, h9, chStoragePc, h10,
    chPlayerPc, h11, chItemList, h12, chItemMenu, h13, chStart, h14, chTmCase, h15,
    chBag, h16, chTrainer, h17, chOption, h18, chTitleMenu, h19, chParty, h20,
    chShopBuy, h21, chSummary, h22, chSummaryMove, h23, chElevator, h24,
    chWhiteout, h25, chSlowBlock, chBattle, hmode, hbattle]
  rw [if_pos (show ¬ (Mode.snapshot = Mode.slow ∧ ¬ c.inDialog = true) from
    fun h => Mode.noConfusion h.1), if_pos Bool.false_ne_true]

/-- `chFinal` applied to the default record on an idle snapshot leaves it
unchanged. -/
lemma chFinal_noop (A : Addrs) (env : Env) (c : CCtx) (fl w0 : Bool)
    (hvis : find_active_textprinter_text A env c.B.text_printers_raw
      c.B.gstringvar4_raw c.B.gdisplayedstringbattle_raw c.dialogReadSafe = Option.none)
    (hsave : save_info_window_visible A env c.B = false)
    (hsafe : c.dialogReadSafe = false)
    (hdial : c.inDialog = false)
    (hsc : get_shop_choice_menu_state A env c.B.tasks_raw = Option.none)
    (hmc : get_multichoice_menu_state A env c.B.tasks_raw = Option.none)
    (hyn : get_yes_no_menu_state A env c.B.tasks_raw c.B.yesno_window_id
      c.B.smenu_raw c.B.windows_raw = Option.none)
    (hgd : get_new_game_birch_gender_menu_state A env c.B.tasks_raw c.B.smenu_raw =
      Option.none)
    (hpc : get_player_pc_menu_state A env c.B.tasks_raw = Option.none) :
    chFinal A env c ((default_result fl w0).set "inDialog" (PyVal.vBool false)) =
      (default_result fl w0).set "inDialog" (PyVal.vBool false) := by
  rw [hsafe] at hvis
  simp only [chFinal, hsafe, hvis, hsave, hdial, hsc, hmc, hyn, hgd, hpc, pyOr,
    truthyOS, dr_get_visibleText, dr_get_allPages, dr_get_pageCount, dr_get_choiceMenu,
    dr_get_saveInfo, PyVal.truthy, PyVal.asList, PyVal.intOr0, PyVal.toInt,
    Bool.false_eq_true, if_false, Bool.or_self, Bool.or_false, Bool.false_or]
  simp [dr_get_visibleText, dr_get_allPages, dr_get_pageCount, dr_get_choiceMenu,
    dr_get_saveInfo, PyVal.truthy, PyVal.intOr0, PyVal.toInt, PyVal.asList, hdial]

/-- On a snapshot with every screen detector rejecting, the detector cascade
falls through to the battle branch. -/
lemma chain_to_battle (A : Addrs) (env : Env) (c : CCtx) (r : PyDict)
    (h1 : get_title_screen_press_start_state A env c.cb2 c.B.tasks_raw = Option.none)
    (h2 : get_naming_screen_state A env c.cb2 = Option.none)
    (h3 : get_controls_guide_state A env c.B.tasks_raw = Option.none)
    (h4 : get_pikachu_intro_state A env c.B.tasks_raw = Option.none)
    (h5 : get_quest_log_playback_state A env c.B.quest_log_state_raw
      c.B.quest_log_playback_state_raw c.B.quest_log_window_ids_raw = Option.none)
    (h6 : get_fly_map_state A env c.cb2 = Option.none)
    (h7 : get_pokedex_state A env c.cb2 = Option.none)
    (h8 : get_pokemon_storage_system_state A env c.cb2 c.B.poke_storage_ptr_raw =
      Option.none)
    (h9 : get_berry_crush_rankings_state A env c.B.tasks_raw = Option.none)
    (h10 : get_pokemon_storage_pc_menu_state A env c.B.tasks_raw = Option.none)
    (h11 : get_player_pc_menu_state A env c.B.tasks_raw = Option.none)
    (h12 : get_item_storage_list_state A env c.B.tasks_raw
      c.B.item_storage_menu_ptr_raw = Option.none)
    (h13 : get_item_storage_menu_state A env c.B.tasks_raw = Option.none)
    (h14 : get_start_menu_state A env c.B.tasks_raw c.B.start_menu_window_id
      c.B.start_menu_num_actions = Option.none)
    (h15 : get_tm_case_state A env c.cb2 = Option.none)
    (h16 : get_bag_menu_state A env c.cb2 = Option.none)
    (h17 : get_trainer_card_state A env c.cb2 = Option.none)
    (h18 : get_option_menu_state A env c.cb2 c.B.tasks_raw = Option.none)
    (h19 : get_title_menu_state A env c.cb2 c.B.tasks_raw = Option.none)
    (h20 : get_party_menu_state A env c.cb2 = Option.none)
    (h21 : get_shop_buy_menu_state A env c.cb2 c.B.tasks_raw = Option.none)
    (h22 : get_pokemon_summary_state A env c.cb2 = Option.none)
    (h23 : get_pokemon_summary_select_move_state A env c.cb2 = Option.none)
    (h24 : get_elevator_menu_state A env c.B.tasks_raw c.B.text_printers_raw
      c.B.gstringvar4_raw c.B.gdisplayedstringbattle_raw = Option.none)
    (h25 : read_whiteout_recovery_state A env c.B = Option.none)
    (hmode : c.mode = Mode.snapshot) :
    chTitle A env c r = chBattle A env c r := by
  simp only [chTitle, h1, chNaming, h2, chControls, h3, chPikachu, h4, chQuest, h5,
    chFly, h6, chPokedex, h7, chPokeStorage, h8, chBerry, h9, chStoragePc, h10,
    chPlayerPc, h11, chItemList, h12, chItemMenu, h13, chStart, h14, chTmCase, h15,
    chBag, h16, chTrainer, h17, chOption, h18, chTitleMenu, h19, chParty, h20,
    chShopBuy, h21, chSummary, h22, chSummaryMove, h23, chElevator, h24,
    chWhiteout, h25, chSlowBlock, hmode]
  rw [if_pos (show ¬ (Mode.snapshot = Mode.slow ∧ ¬ c.inDialog = true) from
    fun h => Mode.noConfusion h.1)]

/-- C1 (amended): the fast path agrees with the full detector chain on a
snapshot provided the captured buffers are genuinely idle beyond what the
fast-path condition itself checks: the scheduler task table is captured and
fully inactive, the text printers are captured, the quest log is captured
and not in playback, the yes/no window id is captured, the summary-screen
pointer is null, and the catalogue's callback symbols are pairwise distinct
from the overworld callback after masking.  Without the extra idleness
conditions the claimed equivalence is false: the fast path never inspects
the scheduler tasks, so a snapshot that satisfies the fast-path condition
can still make the full chain fire a task-gated detector
(`C1_counterexample`). -/
theorem C1_fastpath_equiv (A : Addrs) (env : Env) (B : Buffers)
    (tr pr qr : List Nat) (yw : Nat)
    (hwf : A.Wf)
    (htr : B.tasks_raw = Option.some tr)
    (htrlen : A.NUM_TASKS * A.TASK_SIZE ≤ tr.length)
    (htri : AllInactive A tr)
    (hpr : B.text_printers_raw = Option.some pr)
    (hprlen : 32 * A.TEXTPRINTER_SIZE ≤ pr.length)
    (hql : B.quest_log_state_raw = Option.some qr)
    (hq1 : 1 ≤ qr.length)
    (hqa : qr.getD 0 0 ≠ A.QL_STATE_PLAYBACK)
    (hqb : qr.getD 0 0 ≠ A.QL_STATE_PLAYBACK_LAST)
    (hyw : B.yesno_window_id = Option.some yw)
    (hsum : env.mem32 A.SMON_SUMMARY_SCREEN_PTR_ADDR = 0)
    (hfast : fastPathCond A env B (B.callback2 % 4294967296) = true) :
    compute A env B Mode.snapshot = computeFullChain A env B Mode.snapshot := by
  obtain ⟨hbat, hfl, hov, hcb, hsm, hynw, hsv, hap⟩ := fastPathCond_parts A env B _ hfast
  unfold Addrs.Wf at hwf
  obtain ⟨w1, w2, w3, w4, w5, w6, w7, w8, w9, w10, w11, w12, w13, w14, w15, w16,
    w17, w18, w19, w20, w21, w22, w23, w24, w25⟩ := hwf
  have hck : ∀ x, maskPtr A.CB2_OVERWORLD_ADDR ≠ x →
      maskPtr (B.callback2 % 4294967296) ≠ x := by
    intro x hx
    rw [hcb]
    exact hx
  have hind : inDialogFlag A env B = false := inDialogFlag_false A env B hbat hfl
  have hbirch : is_new_game_birch_speech_active A env B.tasks_raw = false := by
    rw [htr]
    exact birch_false A env tr htrlen htri
  have g1 : get_title_screen_press_start_state A env (B.callback2 % 4294967296)
      B.tasks_raw = Option.none := by
    rw [htr]
    exact title_screen_none A env _ tr (hck _ w1) (hck _ w2) htrlen htri
  have g2 : get_naming_screen_state A env (B.callback2 % 4294967296) = Option.none :=
    naming_none A env _ (hck _ w3) (hck _ w4)
  have g3 : get_controls_guide_state A env B.tasks_raw = Option.none := by
    rw [htr]
    exact controls_none A env tr htrlen htri
  have g4 : get_pikachu_intro_state A env B.tasks_raw = Option.none := by
    rw [htr]
    exact pikachu_none A env tr htrlen htri
  have g5 : get_quest_log_playback_state A env B.quest_log_state_raw
      B.quest_log_playback_state_raw B.quest_log_window_ids_raw = Option.none := by
    rw [hql]
    exact quest_none A env qr _ _ hq1 hqa hqb
  have g6 : get_fly_map_state A env (B.callback2 % 4294967296) = Option.none :=
    fly_none A env _ (hck _ w5) (hck _ w6)
  have g7 : get_pokedex_state A env (B.callback2 % 4294967296) = Option.none :=
    pokedex_none A env _ (hck _ w7) (hck _ w8)
  have g8 : get_pokemon_storage_system_state A env (B.callback2 % 4294967296)
      B.poke_storage_ptr_raw = Option.none :=
    poke_storage_none A env _ _ (hck _ w9) (hck _ w10)
  have g9 : get_berry_crush_rankings_state A env B.tasks_raw = Option.none := by
    rw [htr]
    exact berry_none A env tr htrlen htri
  have g10 : get_pokemon_storage_pc_menu_state A env B.tasks_raw = Option.none := by
    rw [htr]
    exact storage_pc_none A env tr htrlen htri
  have g11 : get_player_pc_menu_state A env B.tasks_raw = Option.none := by
    rw [htr]
    exact player_pc_none A env tr htrlen htri
  have g12 : get_item_storage_list_state A env B.tasks_raw
      B.item_storage_menu_ptr_raw = Option.none := by
    rw [htr]
    exact item_list_none A env tr _ htrlen htri
  have g13 : get_item_storage_menu_state A env B.tasks_raw = Option.none := by
    rw [htr]
    exact item_menu_none A env tr htrlen htri
  have g14 : get_start_menu_state A env B.tasks_raw B.start_menu_window_id
      B.start_menu_num_actions = Option.none := by
    rw [htr]
    exact start_menu_none A env tr _ _ htrlen htri
  have g15 : get_tm_case_state A env (B.callback2 % 4294967296) = Option.none :=
    tm_case_none A env _ (hck _ w11) (hck _ w12)
  have g16 : get_bag_menu_state A env (B.callback2 % 4294967296) = Option.none :=
    bag_none A env _ (hck _ w13) (hck _ w14)
  have g17 : get_trainer_card_state A env (B.callback2 % 4294967296) = Option.none :=
    trainer_none A env _ (hck _ w15)
  have g18 : get_option_menu_state A env (B.callback2 % 4294967296) B.tasks_raw =
      Option.none := by
    rw [htr]
    exact option_menu_none A env _ tr (hck _ w16) (hck _ w17) htrlen htri
  have g19 : get_title_menu_state A env (B.callback2 % 4294967296) B.tasks_raw =
      Option.none := by
    rw [htr]
    exact title_menu_none A env _ tr (hck _ w18) (hck _ w19) (hck _ w20) htrlen htri
  have g20 : get_party_menu_state A env (B.callback2 % 4294967296) = Option.none :=
    party_none A env _ (hck _ w21) (hck _ w22)
  have g21 : get_shop_buy_menu_state A env (B.callback2 % 4294967296) B.tasks_raw =
      Option.none :=
    shop_buy_none A env _ _ (hck _ w23)
  have g22 : get_pokemon_summary_state A env (B.callback2 % 4294967296) =
      Option.none :=
    summary_none A env _ (hck _ w24) (hck _ w25)
  have g23 : get_pokemon_summary_select_move_state A env (B.callback2 % 4294967296) =
      Option.none :=
    summary_move_none A env _ hsum
  have g24 : get_elevator_menu_state A env B.tasks_raw B.text_printers_raw
      B.gstringvar4_raw B.gdisplayedstringbattle_raw = Option.none := by
    rw [htr]
    exact elevator_none A env tr _ _ _ htrlen htri
  have g25 : read_whiteout_recovery_state A env B = Option.none :=
    whiteout_none A env B tr htr htrlen htri
  have hpin : AllPrintersInactive A pr := any_printer_false_parts A env B pr hpr hprlen hap
  have gvis : find_active_textprinter_text A env B.text_printers_raw B.gstringvar4_raw
      B.gdisplayedstringbattle_raw false = Option.none := by
    rw [hpr]
    exact printers_text_none A env pr _ _ hpin
  have gsc : get_shop_choice_menu_state A env B.tasks_raw = Option.none := by
    rw [htr]
    exact shop_choice_none A env tr htrlen htri
  have gmc : get_multichoice_menu_state A env B.tasks_raw = Option.none := by
    rw [htr]
    exact multichoice_none A env tr htrlen htri
  have gyn : get_yes_no_menu_state A env B.tasks_raw B.yesno_window_id B.smenu_raw
      B.windows_raw = Option.none := by
    rw [htr, hyw]
    exact yesno_menu_none A env tr yw _ _ (hynw yw hyw) htrlen htri
  have ggd : get_new_game_birch_gender_menu_state A env B.tasks_raw B.smenu_raw =
      Option.none := by
    rw [htr]
    exact gender_none A env tr _ htrlen htri
  rw [compute_fastpath A env B Mode.snapshot hfast]
  simp only [computeFullChain]
  rw [hind, hbirch, Bool.false_or]
  rw [chain_all_none A env ⟨B, Mode.snapshot, B.callback2 % 4294967296, false, false⟩
      ((default_result B.field_locked (window0PrinterActive A env B)).set "inDialog"
        (PyVal.vBool false))
      g1 g2 g3 g4 g5 g6 g7 g8 g9 g10 g11 g12 g13 g14 g15 g16 g17 g18 g19 g20 g21
      g22 g23 g24 g25 rfl hbat]
  rw [chFinal_noop A env ⟨B, Mode.snapshot, B.callback2 % 4294967296, false, false⟩
      B.field_locked (window0PrinterActive A env B) gvis hsv rfl rfl gsc gmc gyn ggd g11]

theorem C1_fastpath_equiv_witness :
    compute A0 env0 B4 Mode.snapshot = computeFullChain A0 env0 B4 Mode.snapshot :=
  C1_fastpath_equiv A0 env0 B4 trZ prZ [0] 255
    (by unfold Addrs.Wf; decide) rfl (by decide) (by unfold AllInactive; decide)
    rfl (by decide) rfl (by decide) (by decide) (by decide) rfl rfl rfl

/-- C1 counterexample: the snapshot `B1` satisfies the fast-path condition
(the fast path never looks at the scheduler task table), yet the full
detector chain recognises the still-active title-screen task, so the fast
path's `none` result differs from the chain's `titleScreen` result.  The
claimed equivalence therefore fails as stated. -/
theorem C1_counterexample :
    fastPathCond A0 env0 B1 (B1.callback2 % 4294967296) = true ∧
    (compute A0 env0 B1 Mode.snapshot).get "menuType" = PyVal.none ∧
    (computeFullChain A0 env0 B1 Mode.snapshot).get "menuType" =
      PyVal.vStr "titleScreen" :=
  ⟨rfl, rfl, rfl⟩

/-- C6 (confirmed): on the described in-battle snapshot — two battlers, no
absent battlers, battler 0's controller function on the registered
choose-action handler, action-selection cursor 1, non-safari battle type
flags — the classifier returns a `battleActions` battle-UI state with
options FIGHT / BAG / POKéMON / RUN, cursor position 1 and selected option
"BAG". -/
theorem C6_battle_actions_scenario :
    B6.in_battle = true ∧
    ∃ u : PyDict,
      (compute A0 env0 B6 Mode.snapshot).get "battleUi" = PyVal.vDict u ∧
      (compute A0 env0 B6 Mode.snapshot).get "menuType" = PyVal.vStr "battleActions" ∧
      u.get "type" = PyVal.vStr "battleActions" ∧
      u.get "options" = PyVal.vList [PyVal.vStr "FIGHT", PyVal.vStr "BAG",
        PyVal.vStr "POKéMON", PyVal.vStr "RUN"] ∧
      u.get "cursorPosition" = PyVal.vInt 1 ∧
      u.get "selectedOption" = PyVal.vStr "BAG" := by
  have hin : AllInactive A0 trZ := by unfold AllInactive; decide
  have hlen : A0.NUM_TASKS * A0.TASK_SIZE ≤ trZ.length := by decide
  have g1 : get_title_screen_press_start_state A0 env0 888 (Option.some trZ) =
      Option.none :=
    title_screen_none A0 env0 888 trZ (by decide) (by decide) hlen hin
  have g2 : get_naming_screen_state A0 env0 888 = Option.none :=
    naming_none A0 env0 888 (by decide) (by decide)
  have g3 : get_controls_guide_state A0 env0 (Option.some trZ) = Option.none :=
    controls_none A0 env0 trZ hlen hin
  have g4 : get_pikachu_intro_state A0 env0 (Option.some trZ) = Option.none :=
    pikachu_none A0 env0 trZ hlen hin
  have g5 : get_quest_log_playback_state A0 env0 (Option.some [0])
      B6.quest_log_playback_state_raw B6.quest_log_window_ids_raw = Option.none :=
    quest_none A0 env0 [0] _ _ (by decide) (by decide) (by decide)
  have g6 : get_fly_map_state A0 env0 888 = Option.none :=
    fly_none A0 env0 888 (by decide) (by decide)
  have g7 : get_pokedex_state A0 env0 888 = Option.none :=
    pokedex_none A0 env0 888 (by decide) (by decide)
  have g8 : get_pokemon_storage_system_state A0 env0 888 B6.poke_storage_ptr_raw =
      Option.none :=
    poke_storage_none A0 env0 888 _ (by decide) (by decide)
  have g9 : get_berry_crush_rankings_state A0 env0 (Option.some trZ) = Option.none :=
    berry_none A0 env0 trZ hlen hin
  have g10 : get_pokemon_storage_pc_menu_state A0 env0 (Option.some trZ) =
      Option.none :=
    storage_pc_none A0 env0 trZ hlen hin
  have g11 : get_player_pc_menu_state A0 env0 (Option.some trZ) = Option.none :=
    player_pc_none A0 env0 trZ hlen hin
  have g12 : get_item_storage_list_state A0 env0 (Option.some trZ)
      B6.item_storage_menu_ptr_raw = Option.none :=
    item_list_none A0 env0 trZ _ hlen hin
  have g13 : get_item_storage_menu_state A0 env0 (Option.some trZ) = Option.none :=
    item_menu_none A0 env0 trZ hlen hin
  have g14 : get_start_menu_state A0 env0 (Option.some trZ) B6.start_menu_window_id
      B6.start_menu_num_actions = Option.none :=
    start_menu_none A0 env0 trZ _ _ hlen hin
  have g15 : get_tm_case_state A0 env0 888 = Option.none :=
    tm_case_none A0 env0 888 (by decide) (by decide)
  have g16 : get_bag_menu_state A0 env0 888 = Option.none :=
    bag_none A0 env0 888 (by decide) (by decide)
  have g17 : get_trainer_card_state A0 env0 888 = Option.none :=
    trainer_none A0 env0 888 (by decide)
  have g18 : get_option_menu_state A0 env0 888 (Option.some trZ) = Option.none :=
    option_menu_none A0 env0 888 trZ (by decide) (by decide) hlen hin
  have g19 : get_title_menu_state A0 env0 888 (Option.some trZ) = Option.none :=
    title_menu_none A0 env0 888 trZ (by decide) (by decide) (by decide) hlen hin
  have g20 : get_party_menu_state A0 env0 888 = Option.none :=
    party_none A0 env0 888 (by decide) (by decide)
  have g21 : get_shop_buy_menu_state A0 env0 888 (Option.some trZ) = Option.none :=
    shop_buy_none A0 env0 888 _ (by decide)
  have g22 : get_pokemon_summary_state A0 env0 888 = Option.none :=
    summary_none A0 env0 888 (by decide) (by decide)
  have g23 : get_pokemon_summary_select_move_state A0 env0 888 = Option.none :=
    summary_move_none A0 env0 888 rfl
  have g24 : get_elevator_menu_state A0 env0 (Option.some trZ) B6.text_printers_raw
      B6.gstringvar4_raw B6.gdisplayedstringbattle_raw = Option.none :=
    elevator_none A0 env0 trZ _ _ _ hlen hin
  have g25 : read_whiteout_recovery_state A0 env0 B6 = Option.none :=
    whiteout_none A0 env0 B6 trZ rfl hlen hin
  have step1 : compute A0 env0 B6 Mode.snapshot =
      chTitle A0 env0 ⟨B6, Mode.snapshot, 888, true, true⟩
        ((default_result false false).set "inDialog" (PyVal.vBool true)) := rfl
  refine ⟨rfl, ?_⟩
  rw [step1, chain_to_battle A0 env0 ⟨B6, Mode.snapshot, 888, true, true⟩
    ((default_result false false).set "inDialog" (PyVal.vBool true))
    g1 g2 g3 g4 g5 g6 g7 g8 g9 g10 g11 g12 g13 g14 g15 g16 g17 g18 g19 g20 g21
    g22 g23 g24 g25 rfl]
  exact ⟨[("type", PyVal.vStr "battleActions"), ("activeBattlerId", PyVal.vInt 0),
    ("cursorPosition", PyVal.vInt 1), ("selectedOption", PyVal.vStr "BAG"),
    ("options", PyVal.vList [PyVal.vStr "FIGHT", PyVal.vStr "BAG",
      PyVal.vStr "POKéMON", PyVal.vStr "RUN"]),
    ("layout", PyVal.vStr "grid2x2")], rfl, rfl, rfl, rfl, rfl, rfl⟩

/-- C7 counterexample: `_find_active_task_by_func` rejects a null candidate
outright (`if int(func_addr) == 0: return None`), so the candidates `0` and
`1` — two integers that differ only in bit 0 — produce different results on
a task list whose slot 0 is active with a null (masked) function pointer:
the claim that *every* task-matching helper treats such pairs as equal is
false. -/
theorem C7_counterexample :
    (0 : Nat) / 2 = (1 : Nat) / 2 ∧
    find_active_task_by_func A0 env0 1 (Option.some tr7) = Option.some 0 ∧
    find_active_task_by_func A0 env0 0 (Option.some tr7) = Option.none := by
  refine ⟨by decide, ?_, by simp [find_active_task_by_func]⟩
  unfold find_active_task_by_func
  rw [if_neg (by decide)]
  simp [findTaskRawAux, A0, tr7, u8_from, u32le_from, maskPtr]

end FireRed
